import Mathlib

/-!
# miniMDock: initial-population scorer and Solis-Wets local search

A shallow embedding of `gpu_calc_initpop` (`omp_target/src/kernel1.cpp`) and
`gpu_perform_LS` (`ompt/kernel3.cpp`).

Modelling conventions.

* `float` values are exact rationals (`ℚ`): rounding and infinities are outside the model; NaN
  is treated in a separate reading of the loop body (`iteration_nan`).
* `float*` buffers are total maps `Nat → ℚ`; a pointer `p + off` is the view `fun g => p (off + g)`.
* Integer quantities are unbounded (`Nat`, `Int`); signed overflow is undefined in C++ and is
  not modelled.
* The lanes of one team run between two barriers; the model runs them one after another in
  lane order, which is one of the schedules the barriers allow.
* Functions, constants and types declared in headers that are not part of the sources
  (`gpu_calc_energy`, `gpu_randf`, `sqrt`, `map_angle`, `GENOTYPE_LENGTH_IN_GLOBMEM`,
  `LS_EXP_FACTOR`, `LS_CONT_FACTOR`, the fields of `GpuDockparameters`) are parameters.
-/

namespace MiniMDock

/-! ## Loop combinators shared by both kernels -/

/-- An OpenMP work-sharing loop `for (int idx = 0; idx < n; idx++)` (`teams distribute` over
the teams, `parallel for` over the lanes of one team), run in index order. -/
def parallelFor {σ : Type} (nthreads : Nat) (f : Nat → σ → σ) (s : σ) : σ :=
  (List.range nthreads).foldl (fun acc idx => f idx acc) s

/-- Fields of `GpuDockparameters` read by the two kernels. -/
structure GpuDockparameters where
  pop_size : Nat
  num_of_lsentities : Nat
  num_of_genes : Nat
  num_of_atoms : Nat
  lsearch_rate : ℚ
  rho_lower_bound : ℚ
  base_dmov_mul_sqrt3 : ℚ
  base_dang_mul_sqrt3 : ℚ
  cons_limit : Int
  max_num_of_iters : Int

/-! ## kernel1.cpp : `gpu_calc_initpop` -/

namespace Kernel1

/-- The buffers `gpu_calc_initpop` can reach: its two pointer arguments and
`cData.pMem_evals_of_new_entities`. -/
structure Mem where
  pMem_conformations_current : Nat → ℚ
  pMem_energies_current : Nat → ℚ
  pMem_evals_of_new_entities : Nat → Int

/-- The external evaluator `gpu_calc_energy(pGenotype, energy, run_id, calc_coords, j,
work_pteam, cData, dockpars)` of `calcenergy.hpp`: the value it leaves in `energy`
(initialised to `0.0f`) for lane `j` of `work_pteam`. -/
abbrev Evaluator := (Nat → ℚ) → Nat → Nat → Nat → ℚ

/-- Body of the inner loop (lines 43-54) for team `idx` and lane `j`. -/
def lane_body (GENOTYPE_LENGTH_IN_GLOBMEM : Nat) (gpu_calc_energy : Evaluator)
    (dockpars : GpuDockparameters) (work_pteam idx j : Nat) (m : Mem) : Mem :=
  let run_id := idx / dockpars.pop_size
  let pGenotype : Nat → ℚ :=
    fun g => m.pMem_conformations_current (idx * GENOTYPE_LENGTH_IN_GLOBMEM + g)
  let energy := gpu_calc_energy pGenotype run_id j work_pteam
  if j = 0 then
    { m with
      pMem_energies_current := Function.update m.pMem_energies_current idx energy
      pMem_evals_of_new_entities := Function.update m.pMem_evals_of_new_entities idx 1 }
  else m

/-- Body of the outer loop (lines 37-55): all lanes of team `idx`. -/
def team_body (GENOTYPE_LENGTH_IN_GLOBMEM : Nat) (gpu_calc_energy : Evaluator)
    (dockpars : GpuDockparameters) (work_pteam idx : Nat) (m : Mem) : Mem :=
  parallelFor work_pteam
    (fun j acc => lane_body GENOTYPE_LENGTH_IN_GLOBMEM gpu_calc_energy dockpars work_pteam idx j acc)
    m

/-- The kernel `gpu_calc_initpop` (lines 28-57): the teams `idx = 0 .. pops_by_runs-1`. -/
def gpu_calc_initpop (GENOTYPE_LENGTH_IN_GLOBMEM : Nat) (gpu_calc_energy : Evaluator)
    (dockpars : GpuDockparameters) (pops_by_runs work_pteam : Nat) (m : Mem) : Mem :=
  parallelFor pops_by_runs
    (fun idx acc => team_body GENOTYPE_LENGTH_IN_GLOBMEM gpu_calc_energy dockpars work_pteam idx acc)
    m

end Kernel1

/-! ## kernel3.cpp : `gpu_perform_LS` -/

/-- The per-gene loop of one lane,
`for (gene_counter = idx; gene_counter < num_of_genes; gene_counter += blockDim.x) body`.
The first `Nat` bounds the number of passes; `num_of_genes` passes are enough for any
`blockDim >= 1` (`geneLoop_fuel`). -/
def geneLoop {σ : Type} (blockDim num_of_genes : Nat) (body : Nat → σ → σ) : Nat → Nat → σ → σ
  | 0, _, s => s
  | fuel + 1, gene_counter, s =>
    if gene_counter < num_of_genes then
      geneLoop blockDim num_of_genes body fuel (gene_counter + blockDim) (body gene_counter s)
    else s

/-- One barrier-delimited per-gene phase: every lane `idx < nthreads` runs its `geneLoop`
with stride `blockDim.x = nthreads`. -/
def perGene {σ : Type} (nthreads num_of_genes : Nat) (body : Nat → σ → σ) (s : σ) : σ :=
  parallelFor nthreads
    (fun idx acc => geneLoop nthreads num_of_genes body num_of_genes idx acc) s

/-- The gene indices that lane `idx` of `nthreads` visits in one per-gene loop, in order of
visit: the trace of its `geneLoop`. -/
def lane_visits (nthreads num_of_genes idx : Nat) : List Nat :=
  geneLoop nthreads num_of_genes (fun g acc => acc ++ [g]) num_of_genes idx []

namespace Kernel3

/-- Compile-time constants of headers that are not part of the sources. -/
structure Consts where
  GENOTYPE_LENGTH_IN_GLOBMEM : Nat
  LS_EXP_FACTOR : ℚ
  LS_CONT_FACTOR : ℚ

/-- External functions called by `gpu_perform_LS`: the evaluator
`gpu_calc_energy(genotype, energy, run_id, calc_coords, &sFloatAccumulator)` as the energy it
returns for a genotype array and a run id, the C library `sqrt`, and `map_angle`. -/
structure Externals where
  gpu_calc_energy : (Nat → ℚ) → Nat → ℚ
  sqrt : ℚ → ℚ
  map_angle : ℚ → ℚ

/-- The values returned by the calls of `gpu_randf(cData.pMem_prng_states)` made by one team:
`select` at line 77, and `u it g`, `v it g` for the first and second call at line 115 for gene
`g` in the iteration entered with `iteration_cnt = it`. -/
structure Draws where
  select : ℚ
  u : Nat → Nat → ℚ
  v : Nat → Nat → ℚ

/-- Global buffers reached by `gpu_perform_LS`. -/
structure Mem where
  pMem_conformations_next : Nat → ℚ
  pMem_energies_next : Nat → ℚ
  pMem_evals_of_new_entities : Nat → Int

/-- Team-local variables declared at lines 44-56. `energy_calls` is a ghost field counting the
calls of `gpu_calc_energy` made so far in the episode. -/
structure Team where
  genotype_candidate : Nat → ℚ
  genotype_deviate : Nat → ℚ
  genotype_bias : Nat → ℚ
  rho : ℚ
  cons_succ : Int
  cons_fail : Int
  iteration_cnt : Int
  evaluation_cnt : Int
  offspring_genotype : Nat → ℚ
  offspring_energy : ℚ
  entity_id : Nat
  energy_calls : Nat

/-- The scalar team variables, i.e. everything but the four gene arrays. -/
def Team.scalars (t : Team) : ℚ × Int × Int × Int × Int × ℚ × Nat × Nat :=
  (t.rho, t.cons_succ, t.cons_fail, t.iteration_cnt, t.evaluation_cnt, t.offspring_energy,
    t.entity_id, t.energy_calls)

/-- The four team-local genotype arrays at gene `k`: candidate, deviate, bias, offspring. -/
def Team.gene (t : Team) (k : Nat) : ℚ × ℚ × ℚ × ℚ :=
  (t.genotype_candidate k, t.genotype_deviate k, t.genotype_bias k, t.offspring_genotype k)

/-- Line 67: `run_id = blockIdx / num_of_lsentities`. -/
def run_id (dp : GpuDockparameters) (blockIdx : Nat) : Nat :=
  blockIdx / dp.num_of_lsentities

/-- Lines 70-80: the entity chosen for the team `blockIdx`, given the draw `r` of line 77. -/
def select_entity (dp : GpuDockparameters) (blockIdx : Nat) (r : ℚ) : Nat :=
  let entity_id := blockIdx % dp.num_of_lsentities
  if entity_id = 0 then
    if 100 * r > dp.lsearch_rate then dp.num_of_lsentities else entity_id
  else entity_id

/-- Lines 68-88: lane 0 initialises the shared variables. -/
def lane0_init (dp : GpuDockparameters) (R : Draws) (blockIdx : Nat) (mem : Mem) (t : Team) :
    Team :=
  let entity_id := select_entity dp blockIdx R.select
  { t with
    entity_id := entity_id
    offspring_energy := mem.pMem_energies_next (run_id dp blockIdx * dp.pop_size + entity_id)
    rho := 1
    cons_succ := 0
    cons_fail := 0
    iteration_cnt := 0
    evaluation_cnt := 0
    energy_calls := 0 }

/-- Line 92 and line 301: `offset`. -/
def offset (K : Consts) (dp : GpuDockparameters) (blockIdx : Nat) (t : Team) : Nat :=
  (run_id dp blockIdx * dp.pop_size + t.entity_id) * K.GENOTYPE_LENGTH_IN_GLOBMEM

/-- Lines 96-97: load one gene and clear its bias. -/
def load_body (K : Consts) (dp : GpuDockparameters) (blockIdx : Nat) (mem : Mem)
    (gene_counter : Nat) (t : Team) : Team :=
  { t with
    offspring_genotype := Function.update t.offspring_genotype gene_counter
      (mem.pMem_conformations_next (offset K dp blockIdx t + gene_counter))
    genotype_bias := Function.update t.genotype_bias gene_counter 0 }

/-- Lines 104-105 and 115-128 (`SWAT3` is defined): the new deviate of one gene. -/
def deviate_gene (X : Externals) (dp : GpuDockparameters) (rho u v : ℚ) (gene_counter : Nat) :
    ℚ :=
  let lig_scale := 1 / X.sqrt (dp.num_of_atoms : ℚ)
  let gene_scale := 1 / X.sqrt (dp.num_of_genes : ℚ)
  let d := rho * (2 * u - 1) * (if v < gene_scale then 1 else 0)
  if gene_counter < 3 then d * dp.base_dmov_mul_sqrt3
  else if gene_counter < 6 then d * (dp.base_dang_mul_sqrt3 * lig_scale)
  else d * (dp.base_dang_mul_sqrt3 * gene_scale)

/-- Lines 118-127: the factor applied to the deviate of gene `gene_counter`, by gene class. -/
def deviate_scale (X : Externals) (dp : GpuDockparameters) (gene_counter : Nat) : ℚ :=
  if gene_counter < 3 then dp.base_dmov_mul_sqrt3
  else if gene_counter < 6 then dp.base_dang_mul_sqrt3 * (1 / X.sqrt (dp.num_of_atoms : ℚ))
  else dp.base_dang_mul_sqrt3 * (1 / X.sqrt (dp.num_of_genes : ℚ))

/-- Lines 113-141: body of the deviate loop. -/
def deviate_body (X : Externals) (dp : GpuDockparameters) (R : Draws) (gene_counter : Nat)
    (t : Team) : Team :=
  { t with
    genotype_deviate := Function.update t.genotype_deviate gene_counter
      (deviate_gene X dp t.rho (R.u t.iteration_cnt.toNat gene_counter)
        (R.v t.iteration_cnt.toNat gene_counter) gene_counter) }

/-- Lines 147-149: candidate in the positive direction. -/
def candidate_pos_body (gene_counter : Nat) (t : Team) : Team :=
  { t with
    genotype_candidate := Function.update t.genotype_candidate gene_counter
      (t.offspring_genotype gene_counter + t.genotype_deviate gene_counter
        + t.genotype_bias gene_counter) }

/-- Lines 203-205: candidate in the negative direction. -/
def candidate_neg_body (gene_counter : Nat) (t : Team) : Team :=
  { t with
    genotype_candidate := Function.update t.genotype_candidate gene_counter
      (t.offspring_genotype gene_counter - t.genotype_deviate gene_counter
        - t.genotype_bias gene_counter) }

/-- Lines 179-182: commit after a success in the positive direction. -/
def commit_pos_body (gene_counter : Nat) (t : Team) : Team :=
  { t with
    offspring_genotype := Function.update t.offspring_genotype gene_counter
      (t.genotype_candidate gene_counter)
    genotype_bias := Function.update t.genotype_bias gene_counter
      (6 / 10 * t.genotype_bias gene_counter + 4 / 10 * t.genotype_deviate gene_counter) }

/-- Lines 239-242: commit after a success in the negative direction. -/
def commit_neg_body (gene_counter : Nat) (t : Team) : Team :=
  { t with
    offspring_genotype := Function.update t.offspring_genotype gene_counter
      (t.genotype_candidate gene_counter)
    genotype_bias := Function.update t.genotype_bias gene_counter
      (6 / 10 * t.genotype_bias gene_counter - 4 / 10 * t.genotype_deviate gene_counter) }

/-- Line 263: bias decay after a failure in both directions. -/
def decay_body (gene_counter : Nat) (t : Team) : Team :=
  { t with
    genotype_bias := Function.update t.genotype_bias gene_counter
      (5 / 10 * t.genotype_bias gene_counter) }

/-- Lines 157-168 and 213-228: the lane-0 bookkeeping of one evaluator call. -/
def count_evaluation (t : Team) : Team :=
  { t with evaluation_cnt := t.evaluation_cnt + 1, energy_calls := t.energy_calls + 1 }

/-- Lines 190-195 and 250-255: lane 0 after a success. -/
def lane0_success (candidate_energy : ℚ) (t : Team) : Team :=
  { t with offspring_energy := candidate_energy, cons_succ := t.cons_succ + 1, cons_fail := 0 }

/-- Lines 265-269: lane 0 after a failure in both directions. -/
def lane0_failure (t : Team) : Team :=
  { t with cons_succ := 0, cons_fail := t.cons_fail + 1 }

/-- Lines 274-289: lane 0 counts the iteration and adapts `rho`. -/
def lane0_adapt (K : Consts) (dp : GpuDockparameters) (t : Team) : Team :=
  let t1 := { t with iteration_cnt := t.iteration_cnt + 1 }
  if t1.cons_succ ≥ dp.cons_limit then
    { t1 with rho := t1.rho * K.LS_EXP_FACTOR, cons_succ := 0 }
  else if t1.cons_fail ≥ dp.cons_limit then
    { t1 with rho := t1.rho * K.LS_CONT_FACTOR, cons_fail := 0 }
  else t1

/-- Lines 110-170: the team state when the positive trial has been evaluated. -/
def positive_trial (X : Externals) (dp : GpuDockparameters) (R : Draws) (nthreads : Nat)
    (t : Team) : Team :=
  count_evaluation
    (perGene nthreads dp.num_of_genes candidate_pos_body
      (perGene nthreads dp.num_of_genes (deviate_body X dp R) t))

/-- Lines 200-230: the team state when the negative trial has been evaluated. -/
def negative_trial (dp : GpuDockparameters) (nthreads : Nat) (t : Team) : Team :=
  count_evaluation (perGene nthreads dp.num_of_genes candidate_neg_body t)

/-- Energy of the positive trial of the iteration entered in state `t`
(`candidate_energy` at line 172). -/
def positive_energy (X : Externals) (dp : GpuDockparameters) (R : Draws)
    (nthreads blockIdx : Nat) (t : Team) : ℚ :=
  X.gpu_calc_energy (positive_trial X dp R nthreads t).genotype_candidate (run_id dp blockIdx)

/-- Energy of the negative trial of the iteration entered in state `t`
(`candidate_energy` at line 232). -/
def negative_energy (X : Externals) (dp : GpuDockparameters) (R : Draws)
    (nthreads blockIdx : Nat) (t : Team) : ℚ :=
  X.gpu_calc_energy
    (negative_trial dp nthreads (positive_trial X dp R nthreads t)).genotype_candidate
    (run_id dp blockIdx)

/-- The positive trial of the iteration entered in state `t` is accepted (line 172). -/
def positive_accepted (X : Externals) (dp : GpuDockparameters) (R : Draws)
    (nthreads blockIdx : Nat) (t : Team) : Prop :=
  positive_energy X dp R nthreads blockIdx t < t.offspring_energy

instance (X : Externals) (dp : GpuDockparameters) (R : Draws) (nthreads blockIdx : Nat)
    (t : Team) : Decidable (positive_accepted X dp R nthreads blockIdx t) := by
  unfold positive_accepted
  infer_instance

/-- The negative trial of the iteration entered in state `t` is accepted (line 232). -/
def negative_accepted (X : Externals) (dp : GpuDockparameters) (R : Draws)
    (nthreads blockIdx : Nat) (t : Team) : Prop :=
  negative_energy X dp R nthreads blockIdx t < t.offspring_energy

instance (X : Externals) (dp : GpuDockparameters) (R : Draws) (nthreads blockIdx : Nat)
    (t : Team) : Decidable (negative_accepted X dp R nthreads blockIdx t) := by
  unfold negative_accepted
  infer_instance

/-- Lines 108-292: one pass through the body of the `while` loop. -/
def iteration (K : Consts) (X : Externals) (dp : GpuDockparameters) (R : Draws)
    (nthreads blockIdx : Nat) (t : Team) : Team :=
  let t1 := positive_trial X dp R nthreads t
  let candidate_energy := X.gpu_calc_energy t1.genotype_candidate (run_id dp blockIdx)
  if candidate_energy < t1.offspring_energy then
    lane0_adapt K dp
      (lane0_success candidate_energy (perGene nthreads dp.num_of_genes commit_pos_body t1))
  else
    let t2 := negative_trial dp nthreads t1
    let candidate_energy := X.gpu_calc_energy t2.genotype_candidate (run_id dp blockIdx)
    if candidate_energy < t2.offspring_energy then
      lane0_adapt K dp
        (lane0_success candidate_energy (perGene nthreads dp.num_of_genes commit_neg_body t2))
    else
      lane0_adapt K dp (lane0_failure (perGene nthreads dp.num_of_genes decay_body t2))

/-- Lines 108-271: the team state when lane 0 reaches line 274, i.e. one pass through the loop
body up to, and without, the adaptation of `rho`. -/
def before_adapt (X : Externals) (dp : GpuDockparameters) (R : Draws)
    (nthreads blockIdx : Nat) (t : Team) : Team :=
  if positive_accepted X dp R nthreads blockIdx t then
    lane0_success (positive_energy X dp R nthreads blockIdx t)
      (perGene nthreads dp.num_of_genes commit_pos_body (positive_trial X dp R nthreads t))
  else if negative_accepted X dp R nthreads blockIdx t then
    lane0_success (negative_energy X dp R nthreads blockIdx t)
      (perGene nthreads dp.num_of_genes commit_neg_body
        (negative_trial dp nthreads (positive_trial X dp R nthreads t)))
  else
    lane0_failure
      (perGene nthreads dp.num_of_genes decay_body
        (negative_trial dp nthreads (positive_trial X dp R nthreads t)))

/-- Line 107: the condition of the `while` loop. -/
def loop_continues (dp : GpuDockparameters) (t : Team) : Prop :=
  t.iteration_cnt < dp.max_num_of_iters ∧ t.rho > dp.rho_lower_bound

instance (dp : GpuDockparameters) (t : Team) : Decidable (loop_continues dp t) := by
  unfold loop_continues
  infer_instance

/-- Line 107: the `while` loop, cut off after `fuel` passes. `max_num_of_iters.toNat` passes
are enough (`while_loop_fuel`). -/
def while_loop (K : Consts) (X : Externals) (dp : GpuDockparameters) (R : Draws)
    (nthreads blockIdx : Nat) : Nat → Team → Team
  | 0, t => t
  | fuel + 1, t =>
    if loop_continues dp t then
      while_loop K X dp R nthreads blockIdx fuel (iteration K X dp R nthreads blockIdx t)
    else t

/-- Lines 65-100: the team state on entry to the `while` loop; `stack` is the content of the
uninitialised team-local variables. -/
def ls_start (K : Consts) (dp : GpuDockparameters) (R : Draws) (nthreads blockIdx : Nat)
    (stack : Team) (mem : Mem) : Team :=
  perGene nthreads dp.num_of_genes (load_body K dp blockIdx mem)
    (lane0_init dp R blockIdx mem stack)

/-- The team state after the first `n` passes of the `while` loop (or on exit from it, if it
exits earlier). -/
def ls_after (K : Consts) (X : Externals) (dp : GpuDockparameters) (R : Draws)
    (nthreads blockIdx : Nat) (stack : Team) (mem : Mem) (n : Nat) : Team :=
  while_loop K X dp R nthreads blockIdx n (ls_start K dp R nthreads blockIdx stack mem)

/-- The team state on exit from the `while` loop. -/
def ls_final (K : Consts) (X : Externals) (dp : GpuDockparameters) (R : Draws)
    (nthreads blockIdx : Nat) (stack : Team) (mem : Mem) : Team :=
  ls_after K X dp R nthreads blockIdx stack mem dp.max_num_of_iters.toNat

/-- Lines 295-298: lane 0 publishes the evaluation count and the energy. -/
def lane0_publish (dp : GpuDockparameters) (blockIdx : Nat) (t : Team) (mem : Mem) : Mem :=
  { mem with
    pMem_evals_of_new_entities := Function.update mem.pMem_evals_of_new_entities
      (run_id dp blockIdx * dp.pop_size + t.entity_id)
      (mem.pMem_evals_of_new_entities (run_id dp blockIdx * dp.pop_size + t.entity_id)
        + t.evaluation_cnt)
    pMem_energies_next := Function.update mem.pMem_energies_next
      (run_id dp blockIdx * dp.pop_size + t.entity_id) t.offspring_energy }

/-- Lines 305-308: wrap an angular gene in place and write the gene out. -/
def writeback_body (K : Consts) (X : Externals) (dp : GpuDockparameters) (blockIdx : Nat)
    (gene_counter : Nat) (s : Team × Mem) : Team × Mem :=
  let t : Team :=
    if gene_counter ≥ 3 then
      { s.1 with
        offspring_genotype := Function.update s.1.offspring_genotype gene_counter
          (X.map_angle (s.1.offspring_genotype gene_counter)) }
    else s.1
  (t, { s.2 with
        pMem_conformations_next := Function.update s.2.pMem_conformations_next
          (offset K dp blockIdx t + gene_counter) (t.offspring_genotype gene_counter) })

/-! ### The loop body when energies may be NaN -/

/-- A `float` energy under IEEE-754: not-a-number, or a number. -/
inductive FloatEnergy where
  | nan : FloatEnergy
  | num (value : ℚ) : FloatEnergy

/-- The IEEE-754 comparison `<` of lines 172 and 232: false as soon as one side is NaN. -/
def FloatEnergy.lt : FloatEnergy → FloatEnergy → Prop
  | FloatEnergy.num v, FloatEnergy.num x => v < x
  | _, _ => False

instance (e x : FloatEnergy) : Decidable (e.lt x) := by
  cases e <;> cases x <;> unfold FloatEnergy.lt <;> infer_instance

/-- Whether a `float` energy is NaN. -/
def FloatEnergy.is_nan : FloatEnergy → Bool
  | FloatEnergy.nan => true
  | FloatEnergy.num _ => false

/-- The numeric value of a `float` energy that is a number (0 stands in for NaN, whose
numeric value is never used). -/
def FloatEnergy.value : FloatEnergy → ℚ
  | FloatEnergy.nan => 0
  | FloatEnergy.num v => v

/-- The team state when `offspring_energy` may be NaN: the `float` is split into the flag
`energy_is_nan` and the numeric field `team.offspring_energy`, which is its value when the
flag is off. -/
structure TeamNan where
  team : Team
  energy_is_nan : Bool

/-- The `float` held by `offspring_energy`. -/
def TeamNan.offspring_energy (s : TeamNan) : FloatEnergy :=
  if s.energy_is_nan then FloatEnergy.nan else FloatEnergy.num s.team.offspring_energy

/-- Lines 108-292 with an evaluator `energy` that may return NaN: the pass of `iteration`,
with the two acceptance tests read as IEEE-754 comparisons and the assignments
`offspring_energy = candidate_energy` storing the candidate's flag and value. -/
def iteration_nan (K : Consts) (X : Externals) (energy : (Nat → ℚ) → Nat → FloatEnergy)
    (dp : GpuDockparameters) (R : Draws) (nthreads blockIdx : Nat) (s : TeamNan) : TeamNan :=
  let t1 := positive_trial X dp R nthreads s.team
  let candidate_energy := energy t1.genotype_candidate (run_id dp blockIdx)
  if candidate_energy.lt s.offspring_energy then
    { team := lane0_adapt K dp
        (lane0_success candidate_energy.value
          (perGene nthreads dp.num_of_genes commit_pos_body t1))
      energy_is_nan := candidate_energy.is_nan }
  else
    let t2 := negative_trial dp nthreads t1
    let candidate_energy := energy t2.genotype_candidate (run_id dp blockIdx)
    if candidate_energy.lt s.offspring_energy then
      { team := lane0_adapt K dp
          (lane0_success candidate_energy.value
            (perGene nthreads dp.num_of_genes commit_neg_body t2))
        energy_is_nan := candidate_energy.is_nan }
    else
      { team := lane0_adapt K dp
          (lane0_failure (perGene nthreads dp.num_of_genes decay_body t2))
        energy_is_nan := s.energy_is_nan }

/-- An evaluator without NaN that takes the same branches as `energy` in the pass entered in
state `s`: where the IEEE comparison is bound to fail (the stored energy or the candidate
energy is NaN) it returns the stored numeric field, which is not below itself. -/
def replace_nan (X : Externals) (energy : (Nat → ℚ) → Nat → FloatEnergy) (s : TeamNan) :
    Externals :=
  { X with
    gpu_calc_energy := fun p r =>
      if s.energy_is_nan then s.team.offspring_energy
      else
        match energy p r with
        | FloatEnergy.nan => s.team.offspring_energy
        | FloatEnergy.num v => v }

/-- Lines 61-310: the episode of team `blockIdx` with `nthreads >= 1` lanes. -/
def episode (K : Consts) (X : Externals) (dp : GpuDockparameters) (R : Draws)
    (nthreads blockIdx : Nat) (stack : Team) (mem : Mem) : Team × Mem :=
  let t := ls_final K X dp R nthreads blockIdx stack mem
  perGene nthreads dp.num_of_genes (writeback_body K X dp blockIdx)
    (t, lane0_publish dp blockIdx t mem)

/-- The kernel `gpu_perform_LS` (lines 30-312): the teams `blockIdx = 0 .. nblocks-1`, each
with its own draws and stack; a team without lanes executes nothing. -/
def gpu_perform_LS (K : Consts) (X : Externals) (dp : GpuDockparameters) (R : Nat → Draws)
    (stack : Nat → Team) (nblocks nthreads : Nat) (mem : Mem) : Mem :=
  parallelFor nblocks
    (fun blockIdx acc =>
      if nthreads = 0 then acc
      else (episode K X dp (R blockIdx) nthreads blockIdx (stack blockIdx) acc).2)
    mem

end Kernel3

/-! ## Instances of the external functions, for evaluating the model on concrete inputs -/

/-- An instance of the C library `sqrt` that is exact on squares of rationals (on other
inputs it takes the integer square roots of numerator and denominator). -/
def sqrt_exact (x : ℚ) : ℚ := (Nat.sqrt x.num.toNat : ℚ) / (Nat.sqrt x.den : ℚ)

/-- Modelled from the spec: `map_angle` is declared in a header that is not part of the
sources. The spec says that it wraps an angle into its canonical range and gives the interval
`(-180, 180]` as that range; this is the wrap by whole turns of 360 into that interval. -/
def map_angle_spec (x : ℚ) : ℚ := x - 360 * ⌈(x - 180) / 360⌉

/-! ## Proofs -/

theorem parallelFor_zero {σ : Type} (f : Nat → σ → σ) (s : σ) : parallelFor 0 f s = s := by
  simp [parallelFor]

theorem parallelFor_succ {σ : Type} (n : Nat) (f : Nat → σ → σ) (s : σ) :
    parallelFor (n + 1) f s = f n (parallelFor n f s) := by
  simp [parallelFor, List.range_succ, List.foldl_append]

/-- A projection left alone by every lane is left alone by the team. -/
theorem parallelFor_preserve {σ β : Type} (p : σ → β) (n : Nat) (f : Nat → σ → σ)
    (h : ∀ idx, idx < n → ∀ s, p (f idx s) = p s) (s : σ) :
    p (parallelFor n f s) = p s := by
  induction n with
  | zero => rw [parallelFor_zero]
  | succ k ih =>
    rw [parallelFor_succ, h k (Nat.lt_succ_self k)]
    exact ih (fun idx hidx => h idx (Nat.lt_succ_of_lt hidx))

/-! ### The per-gene loops -/

/-- One more pass changes nothing once `fuel` passes reach past `num_of_genes`. -/
theorem geneLoop_fuel_succ {σ : Type} (L G : Nat) (hL : 1 ≤ L) (body : Nat → σ → σ)
    (fuel : Nat) : ∀ (g : Nat) (s : σ), G ≤ fuel + g →
      geneLoop L G body (fuel + 1) g s = geneLoop L G body fuel g s := by
  induction fuel with
  | zero =>
    intro g s h
    have hg : ¬ g < G := by omega
    simp [geneLoop, hg]
  | succ n ih =>
    intro g s h
    by_cases hg : g < G
    · have h1 : geneLoop L G body (n + 1 + 1) g s
          = geneLoop L G body (n + 1) (g + L) (body g s) := by
        rw [geneLoop]; simp [hg]
      have h2 : geneLoop L G body (n + 1) g s = geneLoop L G body n (g + L) (body g s) := by
        rw [geneLoop]; simp [hg]
      rw [h1, h2]
      exact ih (g + L) (body g s) (by omega)
    · have h1 : geneLoop L G body (n + 1 + 1) g s = s := by
        rw [geneLoop]; simp [hg]
      have h2 : geneLoop L G body (n + 1) g s = s := by
        rw [geneLoop]; simp [hg]
      rw [h1, h2]

/-- The per-gene loop of a lane terminates within `num_of_genes` passes: any larger bound
gives the same state. -/
theorem geneLoop_fuel {σ : Type} (L G : Nat) (hL : 1 ≤ L) (body : Nat → σ → σ)
    (g : Nat) (s : σ) (extra : Nat) :
    geneLoop L G body (G + extra) g s = geneLoop L G body G g s := by
  induction extra with
  | zero => rfl
  | succ n ih =>
    rw [← ih]
    exact geneLoop_fuel_succ L G hL body (G + n) g s (by omega)

/-- A projection left alone by the body at every gene `< num_of_genes` is left alone by the
loop of a lane. -/
theorem geneLoop_preserve {σ β : Type} (p : σ → β) (L G : Nat) (body : Nat → σ → σ)
    (h : ∀ g, g < G → ∀ s, p (body g s) = p s) (fuel : Nat) :
    ∀ (g : Nat) (s : σ), p (geneLoop L G body fuel g s) = p s := by
  induction fuel with
  | zero => intro g s; rfl
  | succ n ih =>
    intro g s
    by_cases hg : g < G
    · rw [geneLoop]
      simp only [hg, if_true]
      rw [ih, h g hg]
    · rw [geneLoop]
      simp [hg]

/-- A projection left alone by the body at every gene `< num_of_genes` is left alone by the
whole per-gene phase. -/
theorem perGene_preserve {σ β : Type} (p : σ → β) (L G : Nat) (body : Nat → σ → σ)
    (h : ∀ g, g < G → ∀ s, p (body g s) = p s) (s : σ) :
    p (perGene L G body s) = p s := by
  unfold perGene
  exact parallelFor_preserve p L _ (fun idx _ acc => geneLoop_preserve p L G body h G idx acc) s

/-- Effect of the loop of one lane on the cells: started at `g`, it rewrites exactly the cells
`k` with `g <= k < num_of_genes` and `k ≡ g` modulo the stride. -/
theorem geneLoop_cell {σ γ : Type} (cell : σ → Nat → γ) (F : Nat → γ → γ) (L G : Nat)
    (hL : 1 ≤ L) (body : Nat → σ → σ)
    (hbody : ∀ g, g < G → ∀ s k, cell (body g s) k = if k = g then F g (cell s g) else cell s k)
    (fuel : Nat) : ∀ (g : Nat) (s : σ) (k : Nat), G ≤ fuel + g →
      cell (geneLoop L G body fuel g s) k
        = if g ≤ k ∧ k < G ∧ k % L = g % L then F k (cell s k) else cell s k := by
  induction fuel with
  | zero =>
    intro g s k h
    have hc : ¬ (g ≤ k ∧ k < G ∧ k % L = g % L) := by omega
    simp [geneLoop, hc]
  | succ n ih =>
    intro g s k h
    by_cases hg : g < G
    · rw [geneLoop]
      simp only [hg, if_true]
      rw [ih (g + L) (body g s) k (by omega), hbody g hg s k]
      by_cases hk : k = g
      · subst hk
        have hc : ¬ (k + L ≤ k ∧ k < G ∧ k % L = (k + L) % L) := by omega
        have hc2 : k ≤ k ∧ k < G ∧ k % L = k % L := ⟨le_refl k, hg, rfl⟩
        rw [if_neg hc, if_pos hc2, if_pos rfl]
      · have hiff : (g + L ≤ k ∧ k < G ∧ k % L = (g + L) % L)
            ↔ (g ≤ k ∧ k < G ∧ k % L = g % L) := by
          rw [Nat.add_mod_right]
          constructor
          · rintro ⟨h1, h2, h3⟩
            exact ⟨by omega, h2, h3⟩
          · rintro ⟨h1, h2, h3⟩
            refine ⟨?_, h2, h3⟩
            have hdvd : L ∣ k - g := Nat.dvd_of_mod_eq_zero (Nat.sub_mod_eq_zero_of_mod_eq h3)
            have hpos : 0 < k - g := by omega
            have := Nat.le_of_dvd hpos hdvd
            omega
        simp only [hk, if_false]
        by_cases hc : g ≤ k ∧ k < G ∧ k % L = g % L
        · rw [if_pos (hiff.mpr hc), if_pos hc]
        · rw [if_neg (fun hx => hc (hiff.mp hx)), if_neg hc]
    · have hc : ¬ (g ≤ k ∧ k < G ∧ k % L = g % L) := by omega
      rw [geneLoop]
      simp [hg, hc]

/-- Effect of the first `m` lanes of a per-gene phase. -/
theorem lanes_cell {σ γ : Type} (cell : σ → Nat → γ) (F : Nat → γ → γ) (L G : Nat)
    (hL : 1 ≤ L) (body : Nat → σ → σ)
    (hbody : ∀ g, g < G → ∀ s k, cell (body g s) k = if k = g then F g (cell s g) else cell s k)
    (s : σ) (k : Nat) (m : Nat) : m ≤ L →
      cell (parallelFor m (fun idx acc => geneLoop L G body G idx acc) s) k
        = if k < G ∧ k % L < m then F k (cell s k) else cell s k := by
  induction m with
  | zero => intro _; simp [parallelFor_zero]
  | succ n ih =>
    intro hn
    rw [parallelFor_succ, geneLoop_cell cell F L G hL body hbody G n _ k (by omega),
      ih (by omega)]
    have hnL : n % L = n := Nat.mod_eq_of_lt (by omega)
    have hle : k % L ≤ k := Nat.mod_le k L
    rw [hnL]
    by_cases hk : k < G
    · by_cases hm : k % L = n
      · have h1 : n ≤ k ∧ k < G ∧ k % L = n := ⟨by omega, hk, hm⟩
        have h2 : ¬ (k < G ∧ k % L < n) := by omega
        have h3 : k < G ∧ k % L < n + 1 := ⟨hk, by omega⟩
        rw [if_pos h1, if_neg h2, if_pos h3]
      · have h1 : ¬ (n ≤ k ∧ k < G ∧ k % L = n) := fun hx => hm hx.2.2
        rw [if_neg h1]
        by_cases hlt : k % L < n
        · rw [if_pos ⟨hk, hlt⟩, if_pos ⟨hk, by omega⟩]
        · rw [if_neg (fun hx => hlt hx.2), if_neg (fun hx => hlt (by omega))]
    · have h1 : ¬ (n ≤ k ∧ k < G ∧ k % L = n) := fun hx => hk hx.2.1
      have h2 : ¬ (k < G ∧ k % L < n) := fun hx => hk hx.1
      have h3 : ¬ (k < G ∧ k % L < n + 1) := fun hx => hk hx.1
      rw [if_neg h1, if_neg h2, if_neg h3]

/-- Effect of a per-gene phase run by `L >= 1` lanes: every cell `k < num_of_genes` is
rewritten once, from its own prior content, and no other cell is touched. -/
theorem perGene_cell {σ γ : Type} (cell : σ → Nat → γ) (F : Nat → γ → γ) (L G : Nat)
    (hL : 1 ≤ L) (body : Nat → σ → σ)
    (hbody : ∀ g, g < G → ∀ s k, cell (body g s) k = if k = g then F g (cell s g) else cell s k)
    (s : σ) (k : Nat) :
    cell (perGene L G body s) k = if k < G then F k (cell s k) else cell s k := by
  unfold perGene
  rw [lanes_cell cell F L G hL body hbody s k L (le_refl L)]
  have : k % L < L := Nat.mod_lt k (by omega)
  simp [this]

namespace Kernel1

theorem lane_body_conf (glen : Nat) (E : Evaluator) (dp : GpuDockparameters) (W idx j : Nat)
    (m : Mem) :
    (lane_body glen E dp W idx j m).pMem_conformations_current = m.pMem_conformations_current := by
  unfold lane_body
  by_cases hj : j = 0 <;> simp [hj]

theorem team_body_conf (glen : Nat) (E : Evaluator) (dp : GpuDockparameters) (W idx : Nat)
    (m : Mem) :
    (team_body glen E dp W idx m).pMem_conformations_current = m.pMem_conformations_current := by
  unfold team_body
  exact parallelFor_preserve (fun x : Mem => x.pMem_conformations_current) W _
    (fun j _ s => lane_body_conf glen E dp W idx j s) m

theorem lanes_eq_lane0 (glen : Nat) (E : Evaluator) (dp : GpuDockparameters) (W idx : Nat)
    (m : Mem) (k : Nat) :
    parallelFor (k + 1) (fun j acc => lane_body glen E dp W idx j acc) m
      = lane_body glen E dp W idx 0 m := by
  induction k with
  | zero => rw [parallelFor_succ, parallelFor_zero]
  | succ n ih =>
    rw [parallelFor_succ, ih]
    simp [lane_body]

/-- With at least one lane, team `idx` performs exactly the writes of its lane 0. -/
theorem team_body_eq (glen : Nat) (E : Evaluator) (dp : GpuDockparameters) (W idx : Nat)
    (hW : 1 ≤ W) (m : Mem) :
    team_body glen E dp W idx m = lane_body glen E dp W idx 0 m := by
  unfold team_body
  obtain ⟨k, rfl⟩ : ∃ k, W = k + 1 := ⟨W - 1, by omega⟩
  exact lanes_eq_lane0 glen E dp (k + 1) idx m k

/-- State of the three buffers after the teams `0 .. n-1` have run. -/
theorem initpop_spec (glen : Nat) (E : Evaluator) (dp : GpuDockparameters) (W : Nat)
    (hW : 1 ≤ W) (m : Mem) (n : Nat) :
    (gpu_calc_initpop glen E dp n W m).pMem_conformations_current = m.pMem_conformations_current
    ∧ (∀ i, (gpu_calc_initpop glen E dp n W m).pMem_energies_current i
        = if i < n then E (fun g => m.pMem_conformations_current (i * glen + g))
            (i / dp.pop_size) 0 W
          else m.pMem_energies_current i)
    ∧ (∀ i, (gpu_calc_initpop glen E dp n W m).pMem_evals_of_new_entities i
        = if i < n then 1 else m.pMem_evals_of_new_entities i) := by
  induction n with
  | zero =>
    simp [gpu_calc_initpop, parallelFor_zero]
  | succ k ih =>
    obtain ⟨h1, h2, h3⟩ := ih
    have hstep : gpu_calc_initpop glen E dp (k + 1) W m
        = lane_body glen E dp W k 0 (gpu_calc_initpop glen E dp k W m) := by
      unfold gpu_calc_initpop
      rw [parallelFor_succ, team_body_eq glen E dp W k hW]
    rw [hstep]
    refine ⟨?_, ?_, ?_⟩
    · rw [lane_body_conf, h1]
    · intro i
      by_cases hik : i = k
      · subst hik
        simp [lane_body, h1]
      · have hne : i < k + 1 ↔ i < k := by omega
        simp [lane_body, Function.update_noteq hik, h2, hne]
    · intro i
      by_cases hik : i = k
      · subst hik
        simp [lane_body]
      · have hne : i < k + 1 ↔ i < k := by omega
        simp [lane_body, Function.update_noteq hik, h3, hne]

/-- C1. Postcondition of `gpu_calc_initpop`: with at least one lane per team, every entity
`idx < pops_by_runs` ends with the energy that lane 0's evaluator call returns for the genotype
at offset `idx * GENOTYPE_LENGTH_IN_GLOBMEM` with `run_id = idx / pop_size`, and with
evaluation count exactly 1; the cells at index `>= pops_by_runs` of both output buffers and the
whole population buffer keep their prior contents. -/
theorem C1_initpop_postcondition (glen : Nat) (E : Evaluator) (dp : GpuDockparameters)
    (pops_by_runs work_pteam : Nat) (hW : 1 ≤ work_pteam) (m : Mem) :
    (∀ idx, idx < pops_by_runs →
        (gpu_calc_initpop glen E dp pops_by_runs work_pteam m).pMem_energies_current idx
          = E (fun g => m.pMem_conformations_current (idx * glen + g))
              (idx / dp.pop_size) 0 work_pteam
        ∧ (gpu_calc_initpop glen E dp pops_by_runs work_pteam m).pMem_evals_of_new_entities idx
          = 1)
    ∧ (∀ i, pops_by_runs ≤ i →
        (gpu_calc_initpop glen E dp pops_by_runs work_pteam m).pMem_energies_current i
          = m.pMem_energies_current i
        ∧ (gpu_calc_initpop glen E dp pops_by_runs work_pteam m).pMem_evals_of_new_entities i
          = m.pMem_evals_of_new_entities i)
    ∧ (gpu_calc_initpop glen E dp pops_by_runs work_pteam m).pMem_conformations_current
        = m.pMem_conformations_current := by
  obtain ⟨h1, h2, h3⟩ := initpop_spec glen E dp work_pteam hW m pops_by_runs
  refine ⟨?_, ?_, h1⟩
  · intro idx hidx
    rw [h2 idx, h3 idx]
    simp [hidx]
  · intro i hi
    rw [h2 i, h3 i]
    have : ¬ i < pops_by_runs := by omega
    simp [this]

/-- Witness for C1: two entities of stride 4 in runs of one, three lanes, evaluator
"first gene plus run id". -/
theorem C1_initpop_postcondition_witness :
    (1 : Nat) ≤ 3
    ∧ (gpu_calc_initpop 4 (fun p r _ _ => p 0 + r) ⟨1, 1, 1, 1, 0, 0, 0, 0, 0, 0⟩ 2 3
        ⟨fun i => i, fun _ => 7, fun _ => 5⟩).pMem_energies_current 1 = 5
    ∧ (gpu_calc_initpop 4 (fun p r _ _ => p 0 + r) ⟨1, 1, 1, 1, 0, 0, 0, 0, 0, 0⟩ 2 3
        ⟨fun i => i, fun _ => 7, fun _ => 5⟩).pMem_evals_of_new_entities 1 = 1 := by
  have h := (C1_initpop_postcondition 4 (fun p r _ _ => p 0 + r)
    ⟨1, 1, 1, 1, 0, 0, 0, 0, 0, 0⟩ 2 3 (by decide) ⟨fun i => i, fun _ => 7, fun _ => 5⟩).1 1
    (by decide)
  refine ⟨by decide, ?_, h.2⟩
  rw [h.1]
  norm_num

/-- C2 as stated fails: with prior count 5 the count after the call is 1, not 6. -/
theorem C2_counterexample :
    (gpu_calc_initpop 4 (fun p r _ _ => p 0 + r) ⟨1, 1, 1, 1, 0, 0, 0, 0, 0, 0⟩ 1 1
        ⟨fun _ => 0, fun _ => 0, fun _ => 5⟩).pMem_evals_of_new_entities 0 = 1
    ∧ (gpu_calc_initpop 4 (fun p r _ _ => p 0 + r) ⟨1, 1, 1, 1, 0, 0, 0, 0, 0, 0⟩ 1 1
        ⟨fun _ => 0, fun _ => 0, fun _ => 5⟩).pMem_evals_of_new_entities 0
        ≠ (⟨fun _ => 0, fun _ => 0, fun _ => 5⟩ : Mem).pMem_evals_of_new_entities 0 + 1 := by
  simp [gpu_calc_initpop, team_body, parallelFor, lane_body, List.range_succ]

/-- C2 (amended). `gpu_calc_initpop` stores the constant 1 in the evaluation counter of every
entity `idx < pops_by_runs`, whatever the prior value `c`; the stored value is `c + 1` exactly
when `c = 0`. -/
theorem C2_initpop_evals_assigned (glen : Nat) (E : Evaluator) (dp : GpuDockparameters)
    (pops_by_runs work_pteam : Nat) (hW : 1 ≤ work_pteam) (m : Mem) (idx : Nat)
    (hidx : idx < pops_by_runs) :
    (gpu_calc_initpop glen E dp pops_by_runs work_pteam m).pMem_evals_of_new_entities idx = 1
    ∧ ((gpu_calc_initpop glen E dp pops_by_runs work_pteam m).pMem_evals_of_new_entities idx
          = m.pMem_evals_of_new_entities idx + 1
        ↔ m.pMem_evals_of_new_entities idx = 0) := by
  have h := (initpop_spec glen E dp work_pteam hW m pops_by_runs).2.2 idx
  simp only [hidx, if_true] at h
  rw [h]
  refine ⟨rfl, ?_⟩
  constructor
  · intro h1; omega
  · intro h0; omega

/-- Witness for C2 (amended): prior count 5 becomes 1. -/
theorem C2_initpop_evals_assigned_witness :
    (gpu_calc_initpop 4 (fun p r _ _ => p 0 + r) ⟨1, 1, 1, 1, 0, 0, 0, 0, 0, 0⟩ 1 1
        ⟨fun _ => 0, fun _ => 0, fun _ => 5⟩).pMem_evals_of_new_entities 0 = 1 :=
  (C2_initpop_evals_assigned 4 (fun p r _ _ => p 0 + r) ⟨1, 1, 1, 1, 0, 0, 0, 0, 0, 0⟩ 1 1
    (by decide) ⟨fun _ => 0, fun _ => 0, fun _ => 5⟩ 0 (by decide)).1

end Kernel1

namespace Kernel3

/-! ### Scalars are untouched by the per-gene phases -/

theorem scalars_load (K : Consts) (dp : GpuDockparameters) (b : Nat) (mem : Mem) (L : Nat)
    (t : Team) : (perGene L dp.num_of_genes (load_body K dp b mem) t).scalars = t.scalars :=
  perGene_preserve Team.scalars L dp.num_of_genes (load_body K dp b mem) (fun _ _ _ => rfl) t

theorem scalars_deviate (X : Externals) (dp : GpuDockparameters) (R : Draws) (L : Nat)
    (t : Team) : (perGene L dp.num_of_genes (deviate_body X dp R) t).scalars = t.scalars :=
  perGene_preserve Team.scalars L dp.num_of_genes (deviate_body X dp R) (fun _ _ _ => rfl) t

theorem scalars_candidate_pos (L G : Nat) (t : Team) :
    (perGene L G candidate_pos_body t).scalars = t.scalars :=
  perGene_preserve Team.scalars L G candidate_pos_body (fun _ _ _ => rfl) t

theorem scalars_candidate_neg (L G : Nat) (t : Team) :
    (perGene L G candidate_neg_body t).scalars = t.scalars :=
  perGene_preserve Team.scalars L G candidate_neg_body (fun _ _ _ => rfl) t

theorem scalars_commit_pos (L G : Nat) (t : Team) :
    (perGene L G commit_pos_body t).scalars = t.scalars :=
  perGene_preserve Team.scalars L G commit_pos_body (fun _ _ _ => rfl) t

theorem scalars_commit_neg (L G : Nat) (t : Team) :
    (perGene L G commit_neg_body t).scalars = t.scalars :=
  perGene_preserve Team.scalars L G commit_neg_body (fun _ _ _ => rfl) t

theorem scalars_decay (L G : Nat) (t : Team) :
    (perGene L G decay_body t).scalars = t.scalars :=
  perGene_preserve Team.scalars L G decay_body (fun _ _ _ => rfl) t

/-- Components of equal scalar tuples. -/
theorem scalars_eq {t t' : Team} (h : t.scalars = t'.scalars) :
    t.rho = t'.rho ∧ t.cons_succ = t'.cons_succ ∧ t.cons_fail = t'.cons_fail
    ∧ t.iteration_cnt = t'.iteration_cnt ∧ t.evaluation_cnt = t'.evaluation_cnt
    ∧ t.offspring_energy = t'.offspring_energy ∧ t.entity_id = t'.entity_id
    ∧ t.energy_calls = t'.energy_calls := by
  simp only [Team.scalars, Prod.mk.injEq] at h
  exact h

/-- Scalars on entry to the `while` loop. -/
theorem ls_start_scalars (K : Consts) (dp : GpuDockparameters) (R : Draws) (L b : Nat)
    (stack : Team) (mem : Mem) :
    (ls_start K dp R L b stack mem).scalars = (lane0_init dp R b mem stack).scalars := by
  unfold ls_start
  rw [scalars_load]

theorem ls_start_entity_id (K : Consts) (dp : GpuDockparameters) (R : Draws) (L b : Nat)
    (stack : Team) (mem : Mem) :
    (ls_start K dp R L b stack mem).entity_id = select_entity dp b R.select :=
  (scalars_eq (ls_start_scalars K dp R L b stack mem)).2.2.2.2.2.2.1

/-! ### Entity selection -/

theorem select_entity_le (dp : GpuDockparameters) (b : Nat) (r : ℚ)
    (hn : 0 < dp.num_of_lsentities) : select_entity dp b r ≤ dp.num_of_lsentities := by
  have hlt : b % dp.num_of_lsentities < dp.num_of_lsentities := Nat.mod_lt b hn
  unfold select_entity
  simp only
  split_ifs <;> omega

/-- C3. Entity selection of `gpu_perform_LS`: for every team index `b`, every
`num_of_lsentities > 0` and every draw `r < 1`, `run_id = b / num_of_lsentities`; the entity
the episode works on is `b % n` when that is not 0, and when it is 0 it is the spare slot `n`
if `100*r > lsearch_rate` and slot 0 otherwise. The slot is at most `n`, and with
`lsearch_rate >= 100` slot 0 is never redirected. -/
theorem C3_entity_selection (K : Consts) (dp : GpuDockparameters) (R : Draws)
    (nthreads b : Nat) (stack : Team) (mem : Mem)
    (hn : 0 < dp.num_of_lsentities) (hr : R.select < 1) :
    run_id dp b = b / dp.num_of_lsentities
    ∧ (b % dp.num_of_lsentities ≠ 0 →
        (ls_start K dp R nthreads b stack mem).entity_id = b % dp.num_of_lsentities)
    ∧ (b % dp.num_of_lsentities = 0 →
        (ls_start K dp R nthreads b stack mem).entity_id
          = if 100 * R.select > dp.lsearch_rate then dp.num_of_lsentities else 0)
    ∧ (ls_start K dp R nthreads b stack mem).entity_id ≤ dp.num_of_lsentities
    ∧ (100 ≤ dp.lsearch_rate → b % dp.num_of_lsentities = 0 →
        (ls_start K dp R nthreads b stack mem).entity_id = 0) := by
  rw [ls_start_entity_id]
  refine ⟨rfl, ?_, ?_, select_entity_le dp b R.select hn, ?_⟩
  · intro h
    simp [select_entity, h]
  · intro h
    simp [select_entity, h]
  · intro hrate h
    have : ¬ (100 * R.select > dp.lsearch_rate) := by
      have : 100 * R.select < 100 := by linarith
      linarith
    simp [select_entity, h, this]

/-- Witness for C3: team 6 of runs with 3 local-search slots, rate 80, draw 9/10: run 2, and
slot 0 is redirected to the spare slot 3. -/
theorem C3_entity_selection_witness :
    run_id ⟨10, 3, 7, 5, 80, 0, 1, 1, 4, 50⟩ 6 = 2
    ∧ (ls_start ⟨64, 2, 1 / 2⟩ ⟨10, 3, 7, 5, 80, 0, 1, 1, 4, 50⟩
        ⟨9 / 10, fun _ _ => 0, fun _ _ => 0⟩ 2 6
        ⟨fun _ => 0, fun _ => 0, fun _ => 0, 0, 0, 0, 0, 0, fun _ => 0, 0, 0, 0⟩
        ⟨fun _ => 0, fun _ => 0, fun _ => 0⟩).entity_id = 3 := by
  have h := C3_entity_selection ⟨64, 2, 1 / 2⟩ ⟨10, 3, 7, 5, 80, 0, 1, 1, 4, 50⟩
    ⟨9 / 10, fun _ _ => 0, fun _ _ => 0⟩ 2 6
    ⟨fun _ => 0, fun _ => 0, fun _ => 0, 0, 0, 0, 0, 0, fun _ => 0, 0, 0, 0⟩
    ⟨fun _ => 0, fun _ => 0, fun _ => 0⟩ (by decide) (by norm_num)
  refine ⟨h.1, ?_⟩
  rw [h.2.2.1 (by decide)]
  norm_num

/-- Two teams of the same kernel launch never get the same flat entity index. -/
theorem entity_index_injective (dp : GpuDockparameters) (b1 b2 : Nat) (r1 r2 : ℚ)
    (hn : 0 < dp.num_of_lsentities) (hpop : dp.num_of_lsentities < dp.pop_size)
    (hb : b1 ≠ b2) :
    run_id dp b1 * dp.pop_size + select_entity dp b1 r1
      ≠ run_id dp b2 * dp.pop_size + select_entity dp b2 r2 := by
  intro heq
  have he1 := select_entity_le dp b1 r1 hn
  have he2 := select_entity_le dp b2 r2 hn
  have hq : run_id dp b1 = run_id dp b2 := by
    have h1 : (run_id dp b1 * dp.pop_size + select_entity dp b1 r1) / dp.pop_size
        = run_id dp b1 := by
      rw [Nat.add_comm, Nat.add_mul_div_right _ _ (by omega), Nat.div_eq_of_lt (by omega)]
      omega
    have h2 : (run_id dp b2 * dp.pop_size + select_entity dp b2 r2) / dp.pop_size
        = run_id dp b2 := by
      rw [Nat.add_comm, Nat.add_mul_div_right _ _ (by omega), Nat.div_eq_of_lt (by omega)]
      omega
    rw [← h1, ← h2, heq]
  have hs : select_entity dp b1 r1 = select_entity dp b2 r2 := by
    rw [hq] at heq
    omega
  have hm1 : b1 % dp.num_of_lsentities < dp.num_of_lsentities := Nat.mod_lt b1 hn
  have hm2 : b2 % dp.num_of_lsentities < dp.num_of_lsentities := Nat.mod_lt b2 hn
  have hmod : b1 % dp.num_of_lsentities ≠ b2 % dp.num_of_lsentities := by
    intro hmeq
    apply hb
    have d1 := Nat.div_add_mod b1 dp.num_of_lsentities
    have d2 := Nat.div_add_mod b2 dp.num_of_lsentities
    unfold run_id at hq
    rw [hq, hmeq] at d1
    omega
  unfold select_entity at hs
  simp only at hs
  split_ifs at hs <;> omega

/-- C4. No two teams work on the same entity: when `0 < num_of_lsentities < pop_size`, two
distinct team indices select different flat entity indices `run_id*pop_size + entity_id`,
whatever their draws, lane counts, stacks and memories; hence their energy and
evaluation-count cells differ, and so do all their genotype cells within the stride
`GENOTYPE_LENGTH_IN_GLOBMEM`. -/
theorem C4_teams_never_alias (K : Consts) (dp : GpuDockparameters) (R1 R2 : Draws)
    (L1 L2 b1 b2 : Nat) (stack1 stack2 : Team) (mem1 mem2 : Mem)
    (hn : 0 < dp.num_of_lsentities) (hpop : dp.num_of_lsentities < dp.pop_size)
    (hb : b1 ≠ b2) :
    run_id dp b1 * dp.pop_size + (ls_start K dp R1 L1 b1 stack1 mem1).entity_id
      ≠ run_id dp b2 * dp.pop_size + (ls_start K dp R2 L2 b2 stack2 mem2).entity_id
    ∧ ∀ g1 g2, g1 < K.GENOTYPE_LENGTH_IN_GLOBMEM → g2 < K.GENOTYPE_LENGTH_IN_GLOBMEM →
        offset K dp b1 (ls_start K dp R1 L1 b1 stack1 mem1) + g1
          ≠ offset K dp b2 (ls_start K dp R2 L2 b2 stack2 mem2) + g2 := by
  have hid1 := ls_start_entity_id K dp R1 L1 b1 stack1 mem1
  have hid2 := ls_start_entity_id K dp R2 L2 b2 stack2 mem2
  have hne := entity_index_injective dp b1 b2 R1.select R2.select hn hpop hb
  unfold offset
  rw [hid1, hid2]
  refine ⟨hne, ?_⟩
  intro g1 g2 hg1 hg2 heq
  apply hne
  have h1 : ((run_id dp b1 * dp.pop_size + select_entity dp b1 R1.select)
      * K.GENOTYPE_LENGTH_IN_GLOBMEM + g1) / K.GENOTYPE_LENGTH_IN_GLOBMEM
      = run_id dp b1 * dp.pop_size + select_entity dp b1 R1.select := by
    rw [Nat.add_comm, Nat.add_mul_div_right _ _ (by omega), Nat.div_eq_of_lt hg1]
    omega
  have h2 : ((run_id dp b2 * dp.pop_size + select_entity dp b2 R2.select)
      * K.GENOTYPE_LENGTH_IN_GLOBMEM + g2) / K.GENOTYPE_LENGTH_IN_GLOBMEM
      = run_id dp b2 * dp.pop_size + select_entity dp b2 R2.select := by
    rw [Nat.add_comm, Nat.add_mul_div_right _ _ (by omega), Nat.div_eq_of_lt hg2]
    omega
  rw [← h1, ← h2, heq]

/-- Witness for C4: teams 0 and 3 with 3 slots per run and populations of 10. -/
theorem C4_teams_never_alias_witness :
    run_id ⟨10, 3, 7, 5, 80, 0, 1, 1, 4, 50⟩ 0 * 10
        + (ls_start ⟨64, 2, 1 / 2⟩ ⟨10, 3, 7, 5, 80, 0, 1, 1, 4, 50⟩
            ⟨9 / 10, fun _ _ => 0, fun _ _ => 0⟩ 2 0
            ⟨fun _ => 0, fun _ => 0, fun _ => 0, 0, 0, 0, 0, 0, fun _ => 0, 0, 0, 0⟩
            ⟨fun _ => 0, fun _ => 0, fun _ => 0⟩).entity_id
      ≠ run_id ⟨10, 3, 7, 5, 80, 0, 1, 1, 4, 50⟩ 3 * 10
        + (ls_start ⟨64, 2, 1 / 2⟩ ⟨10, 3, 7, 5, 80, 0, 1, 1, 4, 50⟩
            ⟨1 / 10, fun _ _ => 0, fun _ _ => 0⟩ 2 3
            ⟨fun _ => 0, fun _ => 0, fun _ => 0, 0, 0, 0, 0, 0, fun _ => 0, 0, 0, 0⟩
            ⟨fun _ => 0, fun _ => 0, fun _ => 0⟩).entity_id :=
  (C4_teams_never_alias ⟨64, 2, 1 / 2⟩ ⟨10, 3, 7, 5, 80, 0, 1, 1, 4, 50⟩
    ⟨9 / 10, fun _ _ => 0, fun _ _ => 0⟩ ⟨1 / 10, fun _ _ => 0, fun _ _ => 0⟩ 2 2 0 3
    ⟨fun _ => 0, fun _ => 0, fun _ => 0, 0, 0, 0, 0, 0, fun _ => 0, 0, 0, 0⟩
    ⟨fun _ => 0, fun _ => 0, fun _ => 0, 0, 0, 0, 0, 0, fun _ => 0, 0, 0, 0⟩
    ⟨fun _ => 0, fun _ => 0, fun _ => 0⟩ ⟨fun _ => 0, fun _ => 0, fun _ => 0⟩
    (by decide) (by decide) (by decide)).1

/-! ### One iteration, seen on the scalars -/

theorem count_evaluation_congr {t t' : Team} (h : t.scalars = t'.scalars) :
    (count_evaluation t).scalars = (count_evaluation t').scalars := by
  obtain ⟨h1, h2, h3, h4, h5, h6, h7, h8⟩ := scalars_eq h
  simp [count_evaluation, Team.scalars, h1, h2, h3, h4, h5, h6, h7, h8]

theorem lane0_success_congr (e : ℚ) {t t' : Team} (h : t.scalars = t'.scalars) :
    (lane0_success e t).scalars = (lane0_success e t').scalars := by
  obtain ⟨h1, h2, h3, h4, h5, h6, h7, h8⟩ := scalars_eq h
  simp [lane0_success, Team.scalars, h1, h2, h3, h4, h5, h6, h7, h8]

theorem lane0_failure_congr {t t' : Team} (h : t.scalars = t'.scalars) :
    (lane0_failure t).scalars = (lane0_failure t').scalars := by
  obtain ⟨h1, h2, h3, h4, h5, h6, h7, h8⟩ := scalars_eq h
  simp [lane0_failure, Team.scalars, h1, h2, h3, h4, h5, h6, h7, h8]

theorem lane0_adapt_congr (K : Consts) (dp : GpuDockparameters) {t t' : Team}
    (h : t.scalars = t'.scalars) :
    (lane0_adapt K dp t).scalars = (lane0_adapt K dp t').scalars := by
  obtain ⟨h1, h2, h3, h4, h5, h6, h7, h8⟩ := scalars_eq h
  unfold lane0_adapt
  simp only [h2, h3]
  split_ifs <;> simp [Team.scalars, h1, h2, h3, h4, h5, h6, h7, h8]

theorem positive_trial_scalars (X : Externals) (dp : GpuDockparameters) (R : Draws) (L : Nat)
    (t : Team) : (positive_trial X dp R L t).scalars = (count_evaluation t).scalars := by
  unfold positive_trial
  apply count_evaluation_congr
  rw [scalars_candidate_pos, scalars_deviate]

theorem negative_trial_scalars (dp : GpuDockparameters) (L : Nat) (t : Team) :
    (negative_trial dp L t).scalars = (count_evaluation t).scalars := by
  unfold negative_trial
  apply count_evaluation_congr
  rw [scalars_candidate_neg]

/-- The scalars after one pass of the loop body, by the outcome of the two trials. -/
theorem iteration_scalars (K : Consts) (X : Externals) (dp : GpuDockparameters) (R : Draws)
    (L b : Nat) (t : Team) :
    (iteration K X dp R L b t).scalars
      = if positive_accepted X dp R L b t then
          (lane0_adapt K dp
            (lane0_success (positive_energy X dp R L b t) (count_evaluation t))).scalars
        else if negative_accepted X dp R L b t then
          (lane0_adapt K dp
            (lane0_success (negative_energy X dp R L b t)
              (count_evaluation (count_evaluation t)))).scalars
        else
          (lane0_adapt K dp (lane0_failure (count_evaluation (count_evaluation t)))).scalars := by
  have hp := positive_trial_scalars X dp R L t
  have hn := negative_trial_scalars dp L (positive_trial X dp R L t)
  have hn2 : (negative_trial dp L (positive_trial X dp R L t)).scalars
      = (count_evaluation (count_evaluation t)).scalars := by
    rw [hn]
    exact count_evaluation_congr hp
  have he1 : (positive_trial X dp R L t).offspring_energy = t.offspring_energy :=
    (scalars_eq hp).2.2.2.2.2.1
  have he2 : (negative_trial dp L (positive_trial X dp R L t)).offspring_energy
      = t.offspring_energy := (scalars_eq hn2).2.2.2.2.2.1
  unfold iteration positive_accepted negative_accepted
  simp only [he1, he2]
  by_cases h1 : positive_energy X dp R L b t < t.offspring_energy
  · have h1' : X.gpu_calc_energy (positive_trial X dp R L t).genotype_candidate (run_id dp b)
        < t.offspring_energy := h1
    rw [if_pos h1', if_pos h1]
    apply lane0_adapt_congr
    apply lane0_success_congr
    rw [scalars_commit_pos, hp]
  · have h1' : ¬ X.gpu_calc_energy (positive_trial X dp R L t).genotype_candidate (run_id dp b)
        < t.offspring_energy := h1
    rw [if_neg h1', if_neg h1]
    by_cases h2 : negative_energy X dp R L b t < t.offspring_energy
    · have h2' : X.gpu_calc_energy
          (negative_trial dp L (positive_trial X dp R L t)).genotype_candidate (run_id dp b)
          < t.offspring_energy := h2
      rw [if_pos h2', if_pos h2]
      apply lane0_adapt_congr
      apply lane0_success_congr
      rw [scalars_commit_neg, hn2]
    · have h2' : ¬ X.gpu_calc_energy
          (negative_trial dp L (positive_trial X dp R L t)).genotype_candidate (run_id dp b)
          < t.offspring_energy := h2
      rw [if_neg h2', if_neg h2]
      apply lane0_adapt_congr
      apply lane0_failure_congr
      rw [scalars_decay, hn2]

/-- Fields of `lane0_adapt` that do not depend on the streak counters. -/
theorem lane0_adapt_fields (K : Consts) (dp : GpuDockparameters) (t : Team) :
    (lane0_adapt K dp t).iteration_cnt = t.iteration_cnt + 1
    ∧ (lane0_adapt K dp t).evaluation_cnt = t.evaluation_cnt
    ∧ (lane0_adapt K dp t).offspring_energy = t.offspring_energy
    ∧ (lane0_adapt K dp t).entity_id = t.entity_id
    ∧ (lane0_adapt K dp t).energy_calls = t.energy_calls := by
  unfold lane0_adapt
  simp only
  split_ifs <;> simp

/-- What one pass of the loop body does to the counters, the entity and the energy. -/
theorem iteration_fields (K : Consts) (X : Externals) (dp : GpuDockparameters) (R : Draws)
    (L b : Nat) (t : Team) :
    (iteration K X dp R L b t).iteration_cnt = t.iteration_cnt + 1
    ∧ (iteration K X dp R L b t).entity_id = t.entity_id
    ∧ (iteration K X dp R L b t).evaluation_cnt
        = t.evaluation_cnt + (if positive_accepted X dp R L b t then 1 else 2)
    ∧ (iteration K X dp R L b t).energy_calls
        = t.energy_calls + (if positive_accepted X dp R L b t then 1 else 2)
    ∧ (iteration K X dp R L b t).offspring_energy
        = (if positive_accepted X dp R L b t then positive_energy X dp R L b t
            else if negative_accepted X dp R L b t then negative_energy X dp R L b t
            else t.offspring_energy) := by
  have h := iteration_scalars K X dp R L b t
  by_cases h1 : positive_accepted X dp R L b t
  · rw [if_pos h1] at h
    obtain ⟨-, -, -, e4, e5, e6, e7, e8⟩ := scalars_eq h
    obtain ⟨a1, a2, a3, a4, a5⟩ := lane0_adapt_fields K dp
      (lane0_success (positive_energy X dp R L b t) (count_evaluation t))
    rw [e4, e5, e6, e7, e8, a1, a2, a3, a4, a5]
    simp [h1, lane0_success, count_evaluation]
  · rw [if_neg h1] at h
    by_cases h2 : negative_accepted X dp R L b t
    · rw [if_pos h2] at h
      obtain ⟨-, -, -, e4, e5, e6, e7, e8⟩ := scalars_eq h
      obtain ⟨a1, a2, a3, a4, a5⟩ := lane0_adapt_fields K dp
        (lane0_success (negative_energy X dp R L b t) (count_evaluation (count_evaluation t)))
      rw [e4, e5, e6, e7, e8, a1, a2, a3, a4, a5]
      simp [h1, h2, lane0_success, count_evaluation, add_assoc]
    · rw [if_neg h2] at h
      obtain ⟨-, -, -, e4, e5, e6, e7, e8⟩ := scalars_eq h
      obtain ⟨a1, a2, a3, a4, a5⟩ := lane0_adapt_fields K dp
        (lane0_failure (count_evaluation (count_evaluation t)))
      rw [e4, e5, e6, e7, e8, a1, a2, a3, a4, a5]
      simp [h1, h2, lane0_failure, count_evaluation, add_assoc]

/-! ### The `while` loop -/

/-- Unrolling the last pass: the state after `n + 1` passes is the state after `n` passes,
followed by one more pass if the loop condition still holds. -/
theorem while_loop_succ (K : Consts) (X : Externals) (dp : GpuDockparameters) (R : Draws)
    (L b : Nat) (n : Nat) : ∀ t : Team,
      while_loop K X dp R L b (n + 1) t
        = if loop_continues dp (while_loop K X dp R L b n t) then
            iteration K X dp R L b (while_loop K X dp R L b n t)
          else while_loop K X dp R L b n t := by
  induction n with
  | zero =>
    intro t
    simp [while_loop]
  | succ k ih =>
    intro t
    by_cases hc : loop_continues dp t
    · have h1 : while_loop K X dp R L b (k + 1 + 1) t
          = while_loop K X dp R L b (k + 1) (iteration K X dp R L b t) := by
        rw [while_loop]; simp [hc]
      have h2 : while_loop K X dp R L b (k + 1) t
          = while_loop K X dp R L b k (iteration K X dp R L b t) := by
        rw [while_loop]; simp [hc]
      rw [h1, h2]
      exact ih (iteration K X dp R L b t)
    · have h1 : while_loop K X dp R L b (k + 1 + 1) t = t := by
        rw [while_loop]; simp [hc]
      have h2 : while_loop K X dp R L b (k + 1) t = t := by
        rw [while_loop]; simp [hc]
      rw [h1, h2]
      simp [hc]

theorem ls_after_zero (K : Consts) (X : Externals) (dp : GpuDockparameters) (R : Draws)
    (L b : Nat) (stack : Team) (mem : Mem) :
    ls_after K X dp R L b stack mem 0 = ls_start K dp R L b stack mem := rfl

theorem ls_after_succ (K : Consts) (X : Externals) (dp : GpuDockparameters) (R : Draws)
    (L b : Nat) (stack : Team) (mem : Mem) (n : Nat) :
    ls_after K X dp R L b stack mem (n + 1)
      = if loop_continues dp (ls_after K X dp R L b stack mem n) then
          iteration K X dp R L b (ls_after K X dp R L b stack mem n)
        else ls_after K X dp R L b stack mem n := by
  unfold ls_after
  exact while_loop_succ K X dp R L b n _

/-- After `n` passes the loop has either stopped or counted exactly `n` iterations; the
counter is never negative, never above `n`, and the entity is the selected one. -/
theorem ls_after_counter (K : Consts) (X : Externals) (dp : GpuDockparameters) (R : Draws)
    (L b : Nat) (stack : Team) (mem : Mem) (n : Nat) :
    (¬ loop_continues dp (ls_after K X dp R L b stack mem n)
        ∨ (ls_after K X dp R L b stack mem n).iteration_cnt = n)
    ∧ 0 ≤ (ls_after K X dp R L b stack mem n).iteration_cnt
    ∧ (ls_after K X dp R L b stack mem n).iteration_cnt ≤ n
    ∧ (ls_after K X dp R L b stack mem n).iteration_cnt ≤ max 0 dp.max_num_of_iters
    ∧ (ls_after K X dp R L b stack mem n).entity_id = select_entity dp b R.select := by
  induction n with
  | zero =>
    rw [ls_after_zero]
    obtain ⟨-, -, -, e4, -, -, e7, -⟩ := scalars_eq (ls_start_scalars K dp R L b stack mem)
    rw [e4, e7]
    simp [lane0_init]
  | succ k ih =>
    obtain ⟨i1, i2, i3, i4, i5⟩ := ih
    rw [ls_after_succ]
    by_cases hc : loop_continues dp (ls_after K X dp R L b stack mem k)
    · rw [if_pos hc]
      obtain ⟨f1, f2, -⟩ := iteration_fields K X dp R L b (ls_after K X dp R L b stack mem k)
      rw [f1, f2]
      have hk : (ls_after K X dp R L b stack mem k).iteration_cnt = k := by
        rcases i1 with h | h
        · exact absurd hc h
        · exact h
      have hlt : (ls_after K X dp R L b stack mem k).iteration_cnt < dp.max_num_of_iters :=
        hc.1
      refine ⟨Or.inr ?_, by omega, ?_, ?_, i5⟩
      · rw [hk]; push_cast; ring
      · rw [hk]; push_cast; omega
      · have : dp.max_num_of_iters ≤ max 0 dp.max_num_of_iters := le_max_right _ _
        omega
    · rw [if_neg hc]
      exact ⟨Or.inl hc, i2, by omega, i4, i5⟩

/-- On exit the loop condition is false. -/
theorem ls_final_stopped (K : Consts) (X : Externals) (dp : GpuDockparameters) (R : Draws)
    (L b : Nat) (stack : Team) (mem : Mem) :
    ¬ loop_continues dp (ls_final K X dp R L b stack mem) := by
  unfold ls_final
  rcases (ls_after_counter K X dp R L b stack mem dp.max_num_of_iters.toNat).1 with h | h
  · exact h
  · intro hc
    have hlt := hc.1
    rw [h] at hlt
    have := Int.self_le_toNat dp.max_num_of_iters
    omega

/-- Once the loop has stopped, further passes change nothing. -/
theorem ls_after_stopped (K : Consts) (X : Externals) (dp : GpuDockparameters) (R : Draws)
    (L b : Nat) (stack : Team) (mem : Mem) (n : Nat)
    (h : ¬ loop_continues dp (ls_after K X dp R L b stack mem n)) (extra : Nat) :
    ls_after K X dp R L b stack mem (n + extra) = ls_after K X dp R L b stack mem n := by
  induction extra with
  | zero => rfl
  | succ k ih =>
    rw [← Nat.add_assoc, ls_after_succ, ih]
    simp [h]

/-- The loop needs no more than `max_num_of_iters.toNat` passes: a larger bound gives the
same final state. -/
theorem while_loop_fuel (K : Consts) (X : Externals) (dp : GpuDockparameters) (R : Draws)
    (L b : Nat) (stack : Team) (mem : Mem) (extra : Nat) :
    ls_after K X dp R L b stack mem (dp.max_num_of_iters.toNat + extra)
      = ls_final K X dp R L b stack mem :=
  ls_after_stopped K X dp R L b stack mem _ (ls_final_stopped K X dp R L b stack mem) extra

/-- C5. The local-search loop terminates: for every configuration, evaluator, draws, lane
count, stack and memory, the loop is entered with `iteration_cnt = 0`, every pass adds exactly
one to `iteration_cnt`, the loop has stopped after `max(0, max_num_of_iters)` passes (allowing
more passes changes nothing), the number of passes made is at most `max(0, max_num_of_iters)`,
and on exit `iteration_cnt >= max_num_of_iters` or `rho <= rho_lower_bound`. -/
theorem C5_loop_terminates (K : Consts) (X : Externals) (dp : GpuDockparameters) (R : Draws)
    (L b : Nat) (stack : Team) (mem : Mem) :
    (ls_start K dp R L b stack mem).iteration_cnt = 0
    ∧ (∀ t : Team, (iteration K X dp R L b t).iteration_cnt = t.iteration_cnt + 1)
    ∧ (∀ extra : Nat,
        ls_after K X dp R L b stack mem ((max 0 dp.max_num_of_iters).toNat + extra)
          = ls_final K X dp R L b stack mem)
    ∧ 0 ≤ (ls_final K X dp R L b stack mem).iteration_cnt
    ∧ (ls_final K X dp R L b stack mem).iteration_cnt ≤ max 0 dp.max_num_of_iters
    ∧ ((ls_final K X dp R L b stack mem).iteration_cnt ≥ dp.max_num_of_iters
        ∨ (ls_final K X dp R L b stack mem).rho ≤ dp.rho_lower_bound) := by
  have hmax : (max 0 dp.max_num_of_iters).toNat = dp.max_num_of_iters.toNat := by
    rcases le_total 0 dp.max_num_of_iters with h | h
    · rw [max_eq_right h]
    · rw [max_eq_left h]
      simp [Int.toNat_eq_zero.mpr h]
  obtain ⟨-, c2, -, c4, -⟩ := ls_after_counter K X dp R L b stack mem dp.max_num_of_iters.toNat
  refine ⟨?_, fun t => (iteration_fields K X dp R L b t).1, ?_, c2, c4, ?_⟩
  · have h := (scalars_eq (ls_start_scalars K dp R L b stack mem)).2.2.2.1
    rw [h]
    rfl
  · intro extra
    rw [hmax]
    exact while_loop_fuel K X dp R L b stack mem extra
  · have h := ls_final_stopped K X dp R L b stack mem
    unfold loop_continues at h
    by_cases h1 : (ls_final K X dp R L b stack mem).iteration_cnt < dp.max_num_of_iters
    · right
      by_contra h2
      exact h ⟨h1, lt_of_not_ge h2⟩
    · left
      omega

/-! ### Publication of the energy and the evaluation count -/

/-- The write-back loop leaves the energies and the evaluation counts alone. -/
theorem writeback_preserves (K : Consts) (X : Externals) (dp : GpuDockparameters) (L b : Nat)
    (s : Team × Mem) :
    (perGene L dp.num_of_genes (writeback_body K X dp b) s).2.pMem_energies_next
        = s.2.pMem_energies_next
    ∧ (perGene L dp.num_of_genes (writeback_body K X dp b) s).2.pMem_evals_of_new_entities
        = s.2.pMem_evals_of_new_entities := by
  have h := perGene_preserve
    (fun x : Team × Mem => (x.2.pMem_energies_next, x.2.pMem_evals_of_new_entities))
    L dp.num_of_genes (writeback_body K X dp b) (fun _ _ _ => rfl) s
  simp only [Prod.mk.injEq] at h
  exact h

theorem ls_final_entity_id (K : Consts) (X : Externals) (dp : GpuDockparameters) (R : Draws)
    (L b : Nat) (stack : Team) (mem : Mem) :
    (ls_final K X dp R L b stack mem).entity_id = select_entity dp b R.select :=
  (ls_after_counter K X dp R L b stack mem dp.max_num_of_iters.toNat).2.2.2.2

/-- The energies buffer after the episode. -/
theorem episode_energies (K : Consts) (X : Externals) (dp : GpuDockparameters) (R : Draws)
    (L b : Nat) (stack : Team) (mem : Mem) :
    (episode K X dp R L b stack mem).2.pMem_energies_next
      = Function.update mem.pMem_energies_next
          (run_id dp b * dp.pop_size + select_entity dp b R.select)
          (ls_final K X dp R L b stack mem).offspring_energy := by
  unfold episode
  simp only
  rw [(writeback_preserves K X dp L b _).1]
  simp [lane0_publish, ls_final_entity_id]

/-- The evaluation-count buffer after the episode. -/
theorem episode_evals (K : Consts) (X : Externals) (dp : GpuDockparameters) (R : Draws)
    (L b : Nat) (stack : Team) (mem : Mem) :
    (episode K X dp R L b stack mem).2.pMem_evals_of_new_entities
      = Function.update mem.pMem_evals_of_new_entities
          (run_id dp b * dp.pop_size + select_entity dp b R.select)
          (mem.pMem_evals_of_new_entities
              (run_id dp b * dp.pop_size + select_entity dp b R.select)
            + (ls_final K X dp R L b stack mem).evaluation_cnt) := by
  unfold episode
  simp only
  rw [(writeback_preserves K X dp L b _).2]
  simp [lane0_publish, ls_final_entity_id]

theorem ls_start_offspring_energy (K : Consts) (dp : GpuDockparameters) (R : Draws)
    (L b : Nat) (stack : Team) (mem : Mem) :
    (ls_start K dp R L b stack mem).offspring_energy
      = mem.pMem_energies_next (run_id dp b * dp.pop_size + select_entity dp b R.select) :=
  (scalars_eq (ls_start_scalars K dp R L b stack mem)).2.2.2.2.2.1

/-- One pass of the loop body never raises `offspring_energy`. -/
theorem iteration_energy_le (K : Consts) (X : Externals) (dp : GpuDockparameters) (R : Draws)
    (L b : Nat) (t : Team) :
    (iteration K X dp R L b t).offspring_energy ≤ t.offspring_energy := by
  rw [(iteration_fields K X dp R L b t).2.2.2.2]
  by_cases h1 : positive_accepted X dp R L b t
  · rw [if_pos h1]
    exact le_of_lt h1
  · rw [if_neg h1]
    by_cases h2 : negative_accepted X dp R L b t
    · rw [if_pos h2]
      exact le_of_lt h2
    · rw [if_neg h2]

theorem ls_after_energy_step (K : Consts) (X : Externals) (dp : GpuDockparameters) (R : Draws)
    (L b : Nat) (stack : Team) (mem : Mem) (n : Nat) :
    (ls_after K X dp R L b stack mem (n + 1)).offspring_energy
      ≤ (ls_after K X dp R L b stack mem n).offspring_energy := by
  rw [ls_after_succ]
  by_cases hc : loop_continues dp (ls_after K X dp R L b stack mem n)
  · rw [if_pos hc]
    exact iteration_energy_le K X dp R L b _
  · rw [if_neg hc]

theorem ls_after_energy_le_start (K : Consts) (X : Externals) (dp : GpuDockparameters)
    (R : Draws) (L b : Nat) (stack : Team) (mem : Mem) (n : Nat) :
    (ls_after K X dp R L b stack mem n).offspring_energy
      ≤ (ls_start K dp R L b stack mem).offspring_energy := by
  induction n with
  | zero => rw [ls_after_zero]
  | succ k ih => exact le_trans (ls_after_energy_step K X dp R L b stack mem k) ih

/-- C6. Monotone improvement: one pass of the loop body never raises `offspring_energy`,
whatever the evaluator and the draws, so `offspring_energy` is non-increasing from pass to
pass of an episode; consequently the energy that the episode leaves in `pMem_energies_next`
for its entity is at most the energy stored there before the episode. -/
theorem C6_monotone_improvement (K : Consts) (X : Externals) (dp : GpuDockparameters)
    (R : Draws) (L b : Nat) (stack : Team) (mem : Mem) :
    (∀ t : Team, (iteration K X dp R L b t).offspring_energy ≤ t.offspring_energy)
    ∧ (∀ n : Nat, (ls_after K X dp R L b stack mem (n + 1)).offspring_energy
        ≤ (ls_after K X dp R L b stack mem n).offspring_energy)
    ∧ (episode K X dp R L b stack mem).2.pMem_energies_next
          (run_id dp b * dp.pop_size + select_entity dp b R.select)
        ≤ mem.pMem_energies_next (run_id dp b * dp.pop_size + select_entity dp b R.select) := by
  refine ⟨iteration_energy_le K X dp R L b, ls_after_energy_step K X dp R L b stack mem, ?_⟩
  rw [episode_energies, Function.update_same, ← ls_start_offspring_energy K dp R L b stack mem]
  exact ls_after_energy_le_start K X dp R L b stack mem _

/-! ### Evaluation accounting -/

/-- Counters after `n` passes: the evaluation counter equals the number of evaluator calls,
which lies between the number of iterations and twice that number. -/
theorem ls_after_calls (K : Consts) (X : Externals) (dp : GpuDockparameters) (R : Draws)
    (L b : Nat) (stack : Team) (mem : Mem) (n : Nat) :
    (ls_after K X dp R L b stack mem n).evaluation_cnt
        = (ls_after K X dp R L b stack mem n).energy_calls
    ∧ (ls_after K X dp R L b stack mem n).iteration_cnt
        ≤ (ls_after K X dp R L b stack mem n).energy_calls
    ∧ ((ls_after K X dp R L b stack mem n).energy_calls : Int)
        ≤ 2 * (ls_after K X dp R L b stack mem n).iteration_cnt := by
  induction n with
  | zero =>
    rw [ls_after_zero]
    obtain ⟨-, -, -, e4, e5, -, -, e8⟩ := scalars_eq (ls_start_scalars K dp R L b stack mem)
    rw [e4, e5, e8]
    simp [lane0_init]
  | succ k ih =>
    rw [ls_after_succ]
    by_cases hc : loop_continues dp (ls_after K X dp R L b stack mem k)
    · rw [if_pos hc]
      obtain ⟨f1, -, f3, f4, -⟩ :=
        iteration_fields K X dp R L b (ls_after K X dp R L b stack mem k)
      obtain ⟨i1, i2, i3⟩ := ih
      rw [f1, f3, f4]
      by_cases hp : positive_accepted X dp R L b (ls_after K X dp R L b stack mem k)
      · simp only [hp, if_true]
        push_cast
        refine ⟨by omega, by omega, by omega⟩
      · simp only [hp, if_false]
        push_cast
        refine ⟨by omega, by omega, by omega⟩
    · rw [if_neg hc]
      exact ih

/-- If the positive trial of every executed pass is accepted, calls and iterations agree. -/
theorem ls_after_calls_all_accepted (K : Consts) (X : Externals) (dp : GpuDockparameters)
    (R : Draws) (L b : Nat) (stack : Team) (mem : Mem)
    (hall : ∀ n, loop_continues dp (ls_after K X dp R L b stack mem n) →
      positive_accepted X dp R L b (ls_after K X dp R L b stack mem n)) (n : Nat) :
    ((ls_after K X dp R L b stack mem n).energy_calls : Int)
      = (ls_after K X dp R L b stack mem n).iteration_cnt := by
  induction n with
  | zero =>
    rw [ls_after_zero]
    obtain ⟨-, -, -, e4, -, -, -, e8⟩ := scalars_eq (ls_start_scalars K dp R L b stack mem)
    rw [e4, e8]
    simp [lane0_init]
  | succ k ih =>
    rw [ls_after_succ]
    by_cases hc : loop_continues dp (ls_after K X dp R L b stack mem k)
    · rw [if_pos hc]
      obtain ⟨f1, -, -, f4, -⟩ :=
        iteration_fields K X dp R L b (ls_after K X dp R L b stack mem k)
      rw [f1, f4, if_pos (hall k hc)]
      push_cast
      omega
    · rw [if_neg hc]
      exact ih

/-- If the positive trial of every executed pass is rejected, there are two calls per
iteration. -/
theorem ls_after_calls_all_rejected (K : Consts) (X : Externals) (dp : GpuDockparameters)
    (R : Draws) (L b : Nat) (stack : Team) (mem : Mem)
    (hall : ∀ n, loop_continues dp (ls_after K X dp R L b stack mem n) →
      ¬ positive_accepted X dp R L b (ls_after K X dp R L b stack mem n)) (n : Nat) :
    ((ls_after K X dp R L b stack mem n).energy_calls : Int)
      = 2 * (ls_after K X dp R L b stack mem n).iteration_cnt := by
  induction n with
  | zero =>
    rw [ls_after_zero]
    obtain ⟨-, -, -, e4, -, -, -, e8⟩ := scalars_eq (ls_start_scalars K dp R L b stack mem)
    rw [e4, e8]
    simp [lane0_init]
  | succ k ih =>
    rw [ls_after_succ]
    by_cases hc : loop_continues dp (ls_after K X dp R L b stack mem k)
    · rw [if_pos hc]
      obtain ⟨f1, -, -, f4, -⟩ :=
        iteration_fields K X dp R L b (ls_after K X dp R L b stack mem k)
      rw [f1, f4, if_neg (hall k hc)]
      push_cast
      omega
    · rw [if_neg hc]
      exact ih

/-- C7. Evaluation accounting: the episode adds to its entity's cell of
`pMem_evals_of_new_entities` the number of evaluator calls (trials) it made; a pass of the loop
body makes exactly 1 call if its positive trial is accepted and exactly 2 otherwise. Hence an
episode of `k` iterations adds between `k` and `2k`: exactly `k` when every positive trial is
accepted and exactly `2k` when every positive trial is rejected. -/
theorem C7_evaluation_accounting (K : Consts) (X : Externals) (dp : GpuDockparameters)
    (R : Draws) (L b : Nat) (stack : Team) (mem : Mem) :
    (episode K X dp R L b stack mem).2.pMem_evals_of_new_entities
          (run_id dp b * dp.pop_size + select_entity dp b R.select)
        = mem.pMem_evals_of_new_entities
            (run_id dp b * dp.pop_size + select_entity dp b R.select)
          + (ls_final K X dp R L b stack mem).energy_calls
    ∧ (ls_start K dp R L b stack mem).energy_calls = 0
    ∧ (∀ t : Team, (iteration K X dp R L b t).energy_calls
        = t.energy_calls + if positive_accepted X dp R L b t then 1 else 2)
    ∧ (ls_final K X dp R L b stack mem).iteration_cnt
        ≤ (ls_final K X dp R L b stack mem).energy_calls
    ∧ ((ls_final K X dp R L b stack mem).energy_calls : Int)
        ≤ 2 * (ls_final K X dp R L b stack mem).iteration_cnt
    ∧ ((∀ n, loop_continues dp (ls_after K X dp R L b stack mem n) →
          positive_accepted X dp R L b (ls_after K X dp R L b stack mem n)) →
        ((ls_final K X dp R L b stack mem).energy_calls : Int)
          = (ls_final K X dp R L b stack mem).iteration_cnt)
    ∧ ((∀ n, loop_continues dp (ls_after K X dp R L b stack mem n) →
          ¬ positive_accepted X dp R L b (ls_after K X dp R L b stack mem n)) →
        ((ls_final K X dp R L b stack mem).energy_calls : Int)
          = 2 * (ls_final K X dp R L b stack mem).iteration_cnt) := by
  obtain ⟨c1, c2, c3⟩ := ls_after_calls K X dp R L b stack mem dp.max_num_of_iters.toNat
  refine ⟨?_, ?_, fun t => (iteration_fields K X dp R L b t).2.2.2.1, c2, c3, ?_, ?_⟩
  · rw [episode_evals, Function.update_same]
    unfold ls_final
    rw [c1]
  · have h := (scalars_eq (ls_start_scalars K dp R L b stack mem)).2.2.2.2.2.2.2
    rw [h]
    rfl
  · intro hall
    exact ls_after_calls_all_accepted K X dp R L b stack mem hall _
  · intro hall
    exact ls_after_calls_all_rejected K X dp R L b stack mem hall _

/-- Witness for C7: one lane, one iteration allowed and an evaluator that always returns -1
against a stored energy 0, so the only positive trial is accepted and the calls equal the
iterations; and fifty iterations allowed with an evaluator that always returns 1, so every
positive trial is rejected and the calls are twice the iterations. -/
theorem C7_evaluation_accounting_witness :
    (((ls_final ⟨64, 2, 1 / 2⟩ ⟨fun _ _ => -1, fun x => x, fun x => x⟩
        ⟨10, 3, 7, 5, 80, 1 / 100, 1, 1, 4, 1⟩ ⟨0, fun _ _ => 0, fun _ _ => 0⟩ 1 1
        ⟨fun _ => 0, fun _ => 0, fun _ => 0, 0, 0, 0, 0, 0, fun _ => 0, 0, 0, 0⟩
        ⟨fun _ => 0, fun _ => 0, fun _ => 0⟩).energy_calls : Int)
      = (ls_final ⟨64, 2, 1 / 2⟩ ⟨fun _ _ => -1, fun x => x, fun x => x⟩
        ⟨10, 3, 7, 5, 80, 1 / 100, 1, 1, 4, 1⟩ ⟨0, fun _ _ => 0, fun _ _ => 0⟩ 1 1
        ⟨fun _ => 0, fun _ => 0, fun _ => 0, 0, 0, 0, 0, 0, fun _ => 0, 0, 0, 0⟩
        ⟨fun _ => 0, fun _ => 0, fun _ => 0⟩).iteration_cnt)
    ∧ (((ls_final ⟨64, 2, 1 / 2⟩ ⟨fun _ _ => 1, fun x => x, fun x => x⟩
        ⟨10, 3, 7, 5, 80, 1 / 100, 1, 1, 4, 50⟩ ⟨0, fun _ _ => 0, fun _ _ => 0⟩ 1 1
        ⟨fun _ => 0, fun _ => 0, fun _ => 0, 0, 0, 0, 0, 0, fun _ => 0, 0, 0, 0⟩
        ⟨fun _ => 0, fun _ => 0, fun _ => 0⟩).energy_calls : Int)
      = 2 * (ls_final ⟨64, 2, 1 / 2⟩ ⟨fun _ _ => 1, fun x => x, fun x => x⟩
        ⟨10, 3, 7, 5, 80, 1 / 100, 1, 1, 4, 50⟩ ⟨0, fun _ _ => 0, fun _ _ => 0⟩ 1 1
        ⟨fun _ => 0, fun _ => 0, fun _ => 0, 0, 0, 0, 0, 0, fun _ => 0, 0, 0, 0⟩
        ⟨fun _ => 0, fun _ => 0, fun _ => 0⟩).iteration_cnt) := by
  constructor
  · apply (C7_evaluation_accounting ⟨64, 2, 1 / 2⟩ ⟨fun _ _ => -1, fun x => x, fun x => x⟩
      ⟨10, 3, 7, 5, 80, 1 / 100, 1, 1, 4, 1⟩ ⟨0, fun _ _ => 0, fun _ _ => 0⟩ 1 1
      ⟨fun _ => 0, fun _ => 0, fun _ => 0, 0, 0, 0, 0, 0, fun _ => 0, 0, 0, 0⟩
      ⟨fun _ => 0, fun _ => 0, fun _ => 0⟩).2.2.2.2.2.1
    intro n hc
    cases n with
    | zero =>
      rw [ls_after_zero]
      unfold positive_accepted positive_energy
      rw [ls_start_offspring_energy]
      norm_num
    | succ k =>
      exfalso
      have hlt := hc.1
      rcases (ls_after_counter _ _ _ _ _ _ _ _ (k + 1)).1 with h | h
      · exact h hc
      · rw [h] at hlt
        simp only at hlt
        omega
  · apply (C7_evaluation_accounting ⟨64, 2, 1 / 2⟩ ⟨fun _ _ => 1, fun x => x, fun x => x⟩
      ⟨10, 3, 7, 5, 80, 1 / 100, 1, 1, 4, 50⟩ ⟨0, fun _ _ => 0, fun _ _ => 0⟩ 1 1
      ⟨fun _ => 0, fun _ => 0, fun _ => 0, 0, 0, 0, 0, 0, fun _ => 0, 0, 0, 0⟩
      ⟨fun _ => 0, fun _ => 0, fun _ => 0⟩).2.2.2.2.2.2
    intro n _ hacc
    unfold positive_accepted positive_energy at hacc
    have hle := ls_after_energy_le_start ⟨64, 2, 1 / 2⟩ ⟨fun _ _ => 1, fun x => x, fun x => x⟩
      ⟨10, 3, 7, 5, 80, 1 / 100, 1, 1, 4, 50⟩ ⟨0, fun _ _ => 0, fun _ _ => 0⟩ 1 1
      ⟨fun _ => 0, fun _ => 0, fun _ => 0, 0, 0, 0, 0, 0, fun _ => 0, 0, 0, 0⟩
      ⟨fun _ => 0, fun _ => 0, fun _ => 0⟩ n
    rw [ls_start_offspring_energy] at hle
    simp only at hle hacc
    linarith

/-! ### Step-size adaptation -/

/-- What one pass of the loop body does to `rho` and to the two streak counters. -/
theorem iteration_streaks (K : Consts) (X : Externals) (dp : GpuDockparameters) (R : Draws)
    (L b : Nat) (t : Team) :
    (iteration K X dp R L b t).rho
        = (if positive_accepted X dp R L b t ∨ negative_accepted X dp R L b t then
            (if t.cons_succ + 1 ≥ dp.cons_limit then t.rho * K.LS_EXP_FACTOR
              else if (0 : Int) ≥ dp.cons_limit then t.rho * K.LS_CONT_FACTOR else t.rho)
          else
            (if (0 : Int) ≥ dp.cons_limit then t.rho * K.LS_EXP_FACTOR
              else if t.cons_fail + 1 ≥ dp.cons_limit then t.rho * K.LS_CONT_FACTOR
              else t.rho))
    ∧ (iteration K X dp R L b t).cons_succ
        = (if positive_accepted X dp R L b t ∨ negative_accepted X dp R L b t then
            (if t.cons_succ + 1 ≥ dp.cons_limit then 0 else t.cons_succ + 1)
          else 0)
    ∧ (iteration K X dp R L b t).cons_fail
        = (if positive_accepted X dp R L b t ∨ negative_accepted X dp R L b t then 0
          else
            (if (0 : Int) ≥ dp.cons_limit then t.cons_fail + 1
              else if t.cons_fail + 1 ≥ dp.cons_limit then 0 else t.cons_fail + 1)) := by
  have h := iteration_scalars K X dp R L b t
  by_cases h1 : positive_accepted X dp R L b t
  · rw [if_pos h1] at h
    obtain ⟨e1, e2, e3, -⟩ := scalars_eq h
    rw [e1, e2, e3, if_pos (Or.inl h1), if_pos (Or.inl h1), if_pos (Or.inl h1)]
    simp only [lane0_adapt, lane0_success, count_evaluation]
    split_ifs <;> simp
  · rw [if_neg h1] at h
    by_cases h2 : negative_accepted X dp R L b t
    · rw [if_pos h2] at h
      obtain ⟨e1, e2, e3, -⟩ := scalars_eq h
      rw [e1, e2, e3, if_pos (Or.inr h2), if_pos (Or.inr h2), if_pos (Or.inr h2)]
      simp only [lane0_adapt, lane0_success, count_evaluation]
      split_ifs <;> simp
    · rw [if_neg h2] at h
      obtain ⟨e1, e2, e3, -⟩ := scalars_eq h
      have hno : ¬ (positive_accepted X dp R L b t ∨ negative_accepted X dp R L b t) := by
        rintro (hx | hx)
        · exact h1 hx
        · exact h2 hx
      rw [e1, e2, e3, if_neg hno, if_neg hno, if_neg hno]
      simp only [lane0_adapt, lane0_failure, count_evaluation]
      split_ifs <;> simp

/-- The streak counters are never negative during an episode. -/
theorem ls_after_streaks_nonneg (K : Consts) (X : Externals) (dp : GpuDockparameters)
    (R : Draws) (L b : Nat) (stack : Team) (mem : Mem) (n : Nat) :
    0 ≤ (ls_after K X dp R L b stack mem n).cons_succ
    ∧ 0 ≤ (ls_after K X dp R L b stack mem n).cons_fail := by
  induction n with
  | zero =>
    rw [ls_after_zero]
    obtain ⟨-, e2, e3, -⟩ := scalars_eq (ls_start_scalars K dp R L b stack mem)
    rw [e2, e3]
    simp [lane0_init]
  | succ k ih =>
    rw [ls_after_succ]
    by_cases hc : loop_continues dp (ls_after K X dp R L b stack mem k)
    · rw [if_pos hc]
      obtain ⟨-, s2, s3⟩ := iteration_streaks K X dp R L b (ls_after K X dp R L b stack mem k)
      obtain ⟨i1, i2⟩ := ih
      rw [s2, s3]
      constructor
      · split_ifs <;> omega
      · split_ifs <;> omega
    · rw [if_neg hc]
      exact ih

/-- C9 as stated fails for `cons_limit = 0`: with expansion factor 2, contraction factor 1/2
and a constant evaluator, the first pass of the episode is entered with `rho = 1 > 0`, rejects
both trials, and leaves `rho = 2`. -/
theorem C9_counterexample :
    (2 : ℚ) > 1 ∧ (1 / 2 : ℚ) < 1
    ∧ loop_continues ⟨10, 3, 7, 5, 80, 1 / 100, 1, 1, 0, 50⟩
        (ls_after ⟨64, 2, 1 / 2⟩ ⟨fun _ _ => 0, fun x => x, fun x => x⟩
          ⟨10, 3, 7, 5, 80, 1 / 100, 1, 1, 0, 50⟩ ⟨0, fun _ _ => 0, fun _ _ => 0⟩ 1 1
          ⟨fun _ => 0, fun _ => 0, fun _ => 0, 0, 0, 0, 0, 0, fun _ => 0, 0, 0, 0⟩
          ⟨fun _ => 0, fun _ => 0, fun _ => 0⟩ 0)
    ∧ (ls_after ⟨64, 2, 1 / 2⟩ ⟨fun _ _ => 0, fun x => x, fun x => x⟩
          ⟨10, 3, 7, 5, 80, 1 / 100, 1, 1, 0, 50⟩ ⟨0, fun _ _ => 0, fun _ _ => 0⟩ 1 1
          ⟨fun _ => 0, fun _ => 0, fun _ => 0, 0, 0, 0, 0, 0, fun _ => 0, 0, 0, 0⟩
          ⟨fun _ => 0, fun _ => 0, fun _ => 0⟩ 0).rho = 1
    ∧ ¬ positive_accepted ⟨fun _ _ => 0, fun x => x, fun x => x⟩
        ⟨10, 3, 7, 5, 80, 1 / 100, 1, 1, 0, 50⟩ ⟨0, fun _ _ => 0, fun _ _ => 0⟩ 1 1
        (ls_after ⟨64, 2, 1 / 2⟩ ⟨fun _ _ => 0, fun x => x, fun x => x⟩
          ⟨10, 3, 7, 5, 80, 1 / 100, 1, 1, 0, 50⟩ ⟨0, fun _ _ => 0, fun _ _ => 0⟩ 1 1
          ⟨fun _ => 0, fun _ => 0, fun _ => 0, 0, 0, 0, 0, 0, fun _ => 0, 0, 0, 0⟩
          ⟨fun _ => 0, fun _ => 0, fun _ => 0⟩ 0)
    ∧ ¬ negative_accepted ⟨fun _ _ => 0, fun x => x, fun x => x⟩
        ⟨10, 3, 7, 5, 80, 1 / 100, 1, 1, 0, 50⟩ ⟨0, fun _ _ => 0, fun _ _ => 0⟩ 1 1
        (ls_after ⟨64, 2, 1 / 2⟩ ⟨fun _ _ => 0, fun x => x, fun x => x⟩
          ⟨10, 3, 7, 5, 80, 1 / 100, 1, 1, 0, 50⟩ ⟨0, fun _ _ => 0, fun _ _ => 0⟩ 1 1
          ⟨fun _ => 0, fun _ => 0, fun _ => 0, 0, 0, 0, 0, 0, fun _ => 0, 0, 0, 0⟩
          ⟨fun _ => 0, fun _ => 0, fun _ => 0⟩ 0)
    ∧ (ls_after ⟨64, 2, 1 / 2⟩ ⟨fun _ _ => 0, fun x => x, fun x => x⟩
          ⟨10, 3, 7, 5, 80, 1 / 100, 1, 1, 0, 50⟩ ⟨0, fun _ _ => 0, fun _ _ => 0⟩ 1 1
          ⟨fun _ => 0, fun _ => 0, fun _ => 0, 0, 0, 0, 0, 0, fun _ => 0, 0, 0, 0⟩
          ⟨fun _ => 0, fun _ => 0, fun _ => 0⟩ 1).rho = 2 := by
  have hs := scalars_eq (ls_start_scalars ⟨64, 2, 1 / 2⟩
    ⟨10, 3, 7, 5, 80, 1 / 100, 1, 1, 0, 50⟩ ⟨0, fun _ _ => 0, fun _ _ => 0⟩ 1 1
    ⟨fun _ => 0, fun _ => 0, fun _ => 0, 0, 0, 0, 0, 0, fun _ => 0, 0, 0, 0⟩
    ⟨fun _ => 0, fun _ => 0, fun _ => 0⟩)
  obtain ⟨e1, e2, e3, e4, -, e6, -⟩ := hs
  simp only [lane0_init] at e1 e2 e3 e4 e6
  have hc : loop_continues ⟨10, 3, 7, 5, 80, 1 / 100, 1, 1, 0, 50⟩
      (ls_start ⟨64, 2, 1 / 2⟩ ⟨10, 3, 7, 5, 80, 1 / 100, 1, 1, 0, 50⟩
        ⟨0, fun _ _ => 0, fun _ _ => 0⟩ 1 1
        ⟨fun _ => 0, fun _ => 0, fun _ => 0, 0, 0, 0, 0, 0, fun _ => 0, 0, 0, 0⟩
        ⟨fun _ => 0, fun _ => 0, fun _ => 0⟩) := by
    unfold loop_continues
    rw [e1, e4]
    norm_num
  have hp : ¬ positive_accepted ⟨fun _ _ => 0, fun x => x, fun x => x⟩
      ⟨10, 3, 7, 5, 80, 1 / 100, 1, 1, 0, 50⟩ ⟨0, fun _ _ => 0, fun _ _ => 0⟩ 1 1
      (ls_start ⟨64, 2, 1 / 2⟩ ⟨10, 3, 7, 5, 80, 1 / 100, 1, 1, 0, 50⟩
        ⟨0, fun _ _ => 0, fun _ _ => 0⟩ 1 1
        ⟨fun _ => 0, fun _ => 0, fun _ => 0, 0, 0, 0, 0, 0, fun _ => 0, 0, 0, 0⟩
        ⟨fun _ => 0, fun _ => 0, fun _ => 0⟩) := by
    unfold positive_accepted positive_energy
    rw [e6]
    norm_num
  have hn : ¬ negative_accepted ⟨fun _ _ => 0, fun x => x, fun x => x⟩
      ⟨10, 3, 7, 5, 80, 1 / 100, 1, 1, 0, 50⟩ ⟨0, fun _ _ => 0, fun _ _ => 0⟩ 1 1
      (ls_start ⟨64, 2, 1 / 2⟩ ⟨10, 3, 7, 5, 80, 1 / 100, 1, 1, 0, 50⟩
        ⟨0, fun _ _ => 0, fun _ _ => 0⟩ 1 1
        ⟨fun _ => 0, fun _ => 0, fun _ => 0, 0, 0, 0, 0, 0, fun _ => 0, 0, 0, 0⟩
        ⟨fun _ => 0, fun _ => 0, fun _ => 0⟩) := by
    unfold negative_accepted negative_energy
    rw [e6]
    norm_num
  have hno : ¬ (positive_accepted ⟨fun _ _ => 0, fun x => x, fun x => x⟩
      ⟨10, 3, 7, 5, 80, 1 / 100, 1, 1, 0, 50⟩ ⟨0, fun _ _ => 0, fun _ _ => 0⟩ 1 1
      (ls_start ⟨64, 2, 1 / 2⟩ ⟨10, 3, 7, 5, 80, 1 / 100, 1, 1, 0, 50⟩
        ⟨0, fun _ _ => 0, fun _ _ => 0⟩ 1 1
        ⟨fun _ => 0, fun _ => 0, fun _ => 0, 0, 0, 0, 0, 0, fun _ => 0, 0, 0, 0⟩
        ⟨fun _ => 0, fun _ => 0, fun _ => 0⟩)
      ∨ negative_accepted ⟨fun _ _ => 0, fun x => x, fun x => x⟩
      ⟨10, 3, 7, 5, 80, 1 / 100, 1, 1, 0, 50⟩ ⟨0, fun _ _ => 0, fun _ _ => 0⟩ 1 1
      (ls_start ⟨64, 2, 1 / 2⟩ ⟨10, 3, 7, 5, 80, 1 / 100, 1, 1, 0, 50⟩
        ⟨0, fun _ _ => 0, fun _ _ => 0⟩ 1 1
        ⟨fun _ => 0, fun _ => 0, fun _ => 0, 0, 0, 0, 0, 0, fun _ => 0, 0, 0, 0⟩
        ⟨fun _ => 0, fun _ => 0, fun _ => 0⟩)) := by
    rintro (hx | hx)
    · exact hp hx
    · exact hn hx
  refine ⟨by norm_num, by norm_num, ?_, ?_, ?_, ?_, ?_⟩
  · rw [ls_after_zero]; exact hc
  · rw [ls_after_zero]; exact e1
  · rw [ls_after_zero]; exact hp
  · rw [ls_after_zero]; exact hn
  · rw [ls_after_succ, ls_after_zero, if_pos hc, (iteration_streaks _ _ _ _ _ _ _).1,
      if_neg hno, e1]
    norm_num

/-- C9 (amended). Step-size bounds per iteration: with expansion factor `> 1` and contraction
factor `< 1`, in every pass of the loop of an episode that is entered with `rho > 0`: if both
trials are rejected and `cons_limit >= 1`, `rho` after the pass is `<=` `rho` before it; if a
trial is accepted, `rho` after the pass is `>=` `rho` before it, for every `cons_limit`. -/
theorem C9_step_size_bounds (K : Consts) (X : Externals) (dp : GpuDockparameters) (R : Draws)
    (L b : Nat) (stack : Team) (mem : Mem) (n : Nat)
    (hexp : K.LS_EXP_FACTOR > 1) (hcont : K.LS_CONT_FACTOR < 1)
    (hc : loop_continues dp (ls_after K X dp R L b stack mem n))
    (hrho : (ls_after K X dp R L b stack mem n).rho > 0) :
    (¬ positive_accepted X dp R L b (ls_after K X dp R L b stack mem n) →
      ¬ negative_accepted X dp R L b (ls_after K X dp R L b stack mem n) →
      1 ≤ dp.cons_limit →
      (ls_after K X dp R L b stack mem (n + 1)).rho ≤ (ls_after K X dp R L b stack mem n).rho)
    ∧ (positive_accepted X dp R L b (ls_after K X dp R L b stack mem n)
        ∨ negative_accepted X dp R L b (ls_after K X dp R L b stack mem n) →
      (ls_after K X dp R L b stack mem (n + 1)).rho
        ≥ (ls_after K X dp R L b stack mem n).rho) := by
  have hs := (iteration_streaks K X dp R L b (ls_after K X dp R L b stack mem n)).1
  have hnn := (ls_after_streaks_nonneg K X dp R L b stack mem n).1
  rw [ls_after_succ, if_pos hc, hs]
  constructor
  · intro h1 h2 hlim
    have hno : ¬ (positive_accepted X dp R L b (ls_after K X dp R L b stack mem n)
        ∨ negative_accepted X dp R L b (ls_after K X dp R L b stack mem n)) := by
      rintro (hx | hx)
      · exact h1 hx
      · exact h2 hx
    have hz : ¬ ((0 : Int) ≥ dp.cons_limit) := by omega
    rw [if_neg hno, if_neg hz]
    split_ifs
    · nlinarith
    · exact le_refl _
  · intro hacc
    rw [if_pos hacc]
    split_ifs with ha hb
    · nlinarith
    · exfalso; omega
    · exact le_refl _

/-- Witness for C9 (amended): `cons_limit = 1`, constant evaluator; the first pass rejects
both trials and contracts `rho` from 1 to 1/2. -/
theorem C9_step_size_bounds_witness :
    (ls_after ⟨64, 2, 1 / 2⟩ ⟨fun _ _ => 0, fun x => x, fun x => x⟩
        ⟨10, 3, 7, 5, 80, 1 / 100, 1, 1, 1, 50⟩ ⟨0, fun _ _ => 0, fun _ _ => 0⟩ 1 1
        ⟨fun _ => 0, fun _ => 0, fun _ => 0, 0, 0, 0, 0, 0, fun _ => 0, 0, 0, 0⟩
        ⟨fun _ => 0, fun _ => 0, fun _ => 0⟩ (0 + 1)).rho
      ≤ (ls_after ⟨64, 2, 1 / 2⟩ ⟨fun _ _ => 0, fun x => x, fun x => x⟩
        ⟨10, 3, 7, 5, 80, 1 / 100, 1, 1, 1, 50⟩ ⟨0, fun _ _ => 0, fun _ _ => 0⟩ 1 1
        ⟨fun _ => 0, fun _ => 0, fun _ => 0, 0, 0, 0, 0, 0, fun _ => 0, 0, 0, 0⟩
        ⟨fun _ => 0, fun _ => 0, fun _ => 0⟩ 0).rho := by
  have hs := scalars_eq (ls_start_scalars ⟨64, 2, 1 / 2⟩
    ⟨10, 3, 7, 5, 80, 1 / 100, 1, 1, 1, 50⟩ ⟨0, fun _ _ => 0, fun _ _ => 0⟩ 1 1
    ⟨fun _ => 0, fun _ => 0, fun _ => 0, 0, 0, 0, 0, 0, fun _ => 0, 0, 0, 0⟩
    ⟨fun _ => 0, fun _ => 0, fun _ => 0⟩)
  obtain ⟨e1, -, -, e4, -, e6, -⟩ := hs
  simp only [lane0_init] at e1 e4 e6
  refine (C9_step_size_bounds ⟨64, 2, 1 / 2⟩ ⟨fun _ _ => 0, fun x => x, fun x => x⟩
    ⟨10, 3, 7, 5, 80, 1 / 100, 1, 1, 1, 50⟩ ⟨0, fun _ _ => 0, fun _ _ => 0⟩ 1 1
    ⟨fun _ => 0, fun _ => 0, fun _ => 0, 0, 0, 0, 0, 0, fun _ => 0, 0, 0, 0⟩
    ⟨fun _ => 0, fun _ => 0, fun _ => 0⟩ 0 (by norm_num) (by norm_num) ?_ ?_).1 ?_ ?_ ?_
  · rw [ls_after_zero]
    unfold loop_continues
    rw [e1, e4]
    norm_num
  · rw [ls_after_zero, e1]
    norm_num
  · rw [ls_after_zero]
    unfold positive_accepted positive_energy
    rw [e6]
    norm_num
  · rw [ls_after_zero]
    unfold negative_accepted negative_energy
    rw [e6]
    norm_num
  · norm_num

/-! ### The gene arrays -/

/-- Effect of the load phase (lines 93-98) on the cells of the team. -/
theorem load_cell (K : Consts) (dp : GpuDockparameters) (b : Nat) (mem : Mem) (L : Nat)
    (hL : 1 ≤ L) (t : Team) (k : Nat) (hk : k < dp.num_of_genes) :
    (perGene L dp.num_of_genes (load_body K dp b mem) t).offspring_genotype k
        = mem.pMem_conformations_next (offset K dp b t + k)
    ∧ (perGene L dp.num_of_genes (load_body K dp b mem) t).genotype_bias k = 0 := by
  have h := perGene_cell
    (fun (x : Team) (i : Nat) => (x.offspring_genotype i, x.genotype_bias i, x.entity_id))
    (fun (g : Nat) (c : ℚ × ℚ × Nat) =>
      (mem.pMem_conformations_next
        ((run_id dp b * dp.pop_size + c.2.2) * K.GENOTYPE_LENGTH_IN_GLOBMEM + g), (0 : ℚ), c.2.2))
    L dp.num_of_genes hL (load_body K dp b mem)
    (by
      intro g _ x i
      by_cases hi : i = g
      · subst hi
        simp [load_body, offset]
      · simp [load_body, offset, Function.update_noteq hi, hi])
    t k
  simp only [hk, if_true, Prod.mk.injEq] at h
  exact ⟨h.1, h.2.1⟩

/-- The genotype held by the team on entry to the `while` loop is the genotype of the
selected entity. -/
theorem ls_start_genotype (K : Consts) (dp : GpuDockparameters) (R : Draws) (L b : Nat)
    (hL : 1 ≤ L) (stack : Team) (mem : Mem) (k : Nat) (hk : k < dp.num_of_genes) :
    (ls_start K dp R L b stack mem).offspring_genotype k
      = mem.pMem_conformations_next
          ((run_id dp b * dp.pop_size + select_entity dp b R.select)
            * K.GENOTYPE_LENGTH_IN_GLOBMEM + k) := by
  unfold ls_start
  rw [(load_cell K dp b mem L hL _ k hk).1]
  rfl

/-- Effect of the write-back phase (lines 302-309) on the cells of the entity. -/
theorem writeback_cell (K : Consts) (X : Externals) (dp : GpuDockparameters) (L b : Nat)
    (hL : 1 ≤ L) (s : Team × Mem) (k : Nat) (hk : k < dp.num_of_genes) :
    (perGene L dp.num_of_genes (writeback_body K X dp b) s).2.pMem_conformations_next
        (offset K dp b s.1 + k)
      = if k ≥ 3 then X.map_angle (s.1.offspring_genotype k) else s.1.offspring_genotype k := by
  have h := perGene_cell
    (fun (x : Team × Mem) (i : Nat) =>
      (x.1.offspring_genotype i, x.2.pMem_conformations_next (offset K dp b x.1 + i),
        x.1.entity_id))
    (fun (g : Nat) (c : ℚ × ℚ × Nat) =>
      (if g ≥ 3 then X.map_angle c.1 else c.1, if g ≥ 3 then X.map_angle c.1 else c.1, c.2.2))
    L dp.num_of_genes hL (writeback_body K X dp b)
    (by
      intro g _ x i
      by_cases hi : i = g
      · subst hi
        by_cases h3 : i ≥ 3
        · simp [writeback_body, offset, h3]
        · simp [writeback_body, offset, h3]
      · have hoff : ∀ o : Nat, o + i ≠ o + g := fun o ho => hi (Nat.add_left_cancel ho)
        by_cases h3 : g ≥ 3
        · simp [writeback_body, offset, h3, Function.update_noteq hi,
            Function.update_noteq (hoff _), hi]
        · simp [writeback_body, offset, h3, Function.update_noteq (hoff _), hi])
    s k
  simp only [hk, if_true, Prod.mk.injEq] at h
  obtain ⟨-, h2, h3⟩ := h
  have hoff : offset K dp b (perGene L dp.num_of_genes (writeback_body K X dp b) s).1
      = offset K dp b s.1 := by
    unfold offset
    rw [h3]
  rw [hoff] at h2
  exact h2

/-- The genes written back by the episode. -/
theorem episode_conformations (K : Consts) (X : Externals) (dp : GpuDockparameters)
    (R : Draws) (L b : Nat) (hL : 1 ≤ L) (stack : Team) (mem : Mem) (k : Nat)
    (hk : k < dp.num_of_genes) :
    (episode K X dp R L b stack mem).2.pMem_conformations_next
        ((run_id dp b * dp.pop_size + select_entity dp b R.select)
          * K.GENOTYPE_LENGTH_IN_GLOBMEM + k)
      = if k ≥ 3 then X.map_angle ((ls_final K X dp R L b stack mem).offspring_genotype k)
        else (ls_final K X dp R L b stack mem).offspring_genotype k := by
  have h := writeback_cell K X dp L b hL
    (ls_final K X dp R L b stack mem,
      lane0_publish dp b (ls_final K X dp R L b stack mem) mem) k hk
  simp only [offset, ls_final_entity_id] at h
  exact h

/-- With `max_num_of_iters <= 0` the loop is not entered. -/
theorem ls_final_zero (K : Consts) (X : Externals) (dp : GpuDockparameters) (R : Draws)
    (L b : Nat) (stack : Team) (mem : Mem) (hmax : dp.max_num_of_iters ≤ 0) :
    ls_final K X dp R L b stack mem = ls_start K dp R L b stack mem := by
  unfold ls_final
  rw [Int.toNat_eq_zero.mpr hmax, ls_after_zero]

/-- The memory after an episode that makes no iteration. -/
theorem episode_zero_iterations (K : Consts) (X : Externals) (dp : GpuDockparameters)
    (R : Draws) (L b : Nat) (stack : Team) (mem : Mem) (hmax : dp.max_num_of_iters ≤ 0)
    (hL : 1 ≤ L) :
    (ls_final K X dp R L b stack mem).energy_calls = 0
    ∧ (episode K X dp R L b stack mem).2.pMem_energies_next = mem.pMem_energies_next
    ∧ (episode K X dp R L b stack mem).2.pMem_evals_of_new_entities
        = mem.pMem_evals_of_new_entities
    ∧ ∀ g, g < dp.num_of_genes →
        (episode K X dp R L b stack mem).2.pMem_conformations_next
            ((run_id dp b * dp.pop_size + select_entity dp b R.select)
              * K.GENOTYPE_LENGTH_IN_GLOBMEM + g)
          = if g ≥ 3 then
              X.map_angle (mem.pMem_conformations_next
                ((run_id dp b * dp.pop_size + select_entity dp b R.select)
                  * K.GENOTYPE_LENGTH_IN_GLOBMEM + g))
            else
              mem.pMem_conformations_next
                ((run_id dp b * dp.pop_size + select_entity dp b R.select)
                  * K.GENOTYPE_LENGTH_IN_GLOBMEM + g) := by
  have hz := ls_final_zero K X dp R L b stack mem hmax
  obtain ⟨-, -, -, -, e5, e6, -, e8⟩ := scalars_eq (ls_start_scalars K dp R L b stack mem)
  simp only [lane0_init] at e5 e6 e8
  refine ⟨?_, ?_, ?_, ?_⟩
  · rw [hz, e8]
  · rw [episode_energies, hz, e6]
    exact Function.update_eq_self _ _
  · rw [episode_evals, hz, e5, add_zero]
    exact Function.update_eq_self _ _
  · intro g hg
    rw [episode_conformations K X dp R L b hL stack mem g hg, hz,
      ls_start_genotype K dp R L b hL stack mem g hg]

/-- C8 as stated fails: with `max_num_of_iters = 0` and `map_angle` the wrap into
`(-180, 180]`, an entity whose gene 3 is 400 before the episode has gene 3 equal to 40 after
it. -/
theorem C8_counterexample :
    (⟨10, 3, 7, 5, 80, 1 / 100, 1, 1, 4, 0⟩ : GpuDockparameters).max_num_of_iters ≤ 0
    ∧ (⟨fun i => if i = 67 then 400 else 0, fun _ => 0, fun _ => 0⟩ : Mem).pMem_conformations_next
        67 = 400
    ∧ (episode ⟨64, 2, 1 / 2⟩ ⟨fun _ _ => 0, sqrt_exact, map_angle_spec⟩
        ⟨10, 3, 7, 5, 80, 1 / 100, 1, 1, 4, 0⟩ ⟨0, fun _ _ => 0, fun _ _ => 0⟩ 1 1
        ⟨fun _ => 0, fun _ => 0, fun _ => 0, 0, 0, 0, 0, 0, fun _ => 0, 0, 0, 0⟩
        ⟨fun i => if i = 67 then 400 else 0, fun _ => 0, fun _ => 0⟩).2.pMem_conformations_next
        67 = 40 := by
  refine ⟨by decide, by simp, ?_⟩
  have h := (episode_zero_iterations ⟨64, 2, 1 / 2⟩ ⟨fun _ _ => 0, sqrt_exact, map_angle_spec⟩
    ⟨10, 3, 7, 5, 80, 1 / 100, 1, 1, 4, 0⟩ ⟨0, fun _ _ => 0, fun _ _ => 0⟩ 1 1
    ⟨fun _ => 0, fun _ => 0, fun _ => 0, 0, 0, 0, 0, 0, fun _ => 0, 0, 0, 0⟩
    ⟨fun i => if i = 67 then 400 else 0, fun _ => 0, fun _ => 0⟩ (by decide) (by decide)).2.2.2
    3 (by decide)
  have hidx : (run_id ⟨10, 3, 7, 5, 80, 1 / 100, 1, 1, 4, 0⟩ 1 * 10
      + select_entity ⟨10, 3, 7, 5, 80, 1 / 100, 1, 1, 4, 0⟩ 1 0) * 64 + 3 = 67 := by
    simp [run_id, select_entity]
  simp only [hidx] at h
  rw [h]
  have hceil : ⌈((400 : ℚ) - 180) / 360⌉ = 1 := by
    rw [Int.ceil_eq_iff]
    norm_num
  simp [map_angle_spec, hceil]
  norm_num

/-- C8 (amended). Zero-iteration episode: with `max_num_of_iters <= 0` and at least one lane,
the episode makes no evaluator call, leaves the energies buffer and the evaluation-count buffer
as they were, and writes back, for every gene `g < num_of_genes` of the selected entity, the
prior gene for `g < 3` and `map_angle` of the prior gene for `g >= 3`; so the written-back gene
equals the prior gene wherever `map_angle` leaves the prior gene fixed. -/
theorem C8_zero_iteration_episode (K : Consts) (X : Externals) (dp : GpuDockparameters)
    (R : Draws) (L b : Nat) (stack : Team) (mem : Mem) (hmax : dp.max_num_of_iters ≤ 0)
    (hL : 1 ≤ L) :
    (ls_final K X dp R L b stack mem).energy_calls = 0
    ∧ (episode K X dp R L b stack mem).2.pMem_energies_next = mem.pMem_energies_next
    ∧ (episode K X dp R L b stack mem).2.pMem_evals_of_new_entities
        = mem.pMem_evals_of_new_entities
    ∧ (∀ g, g < dp.num_of_genes →
        (episode K X dp R L b stack mem).2.pMem_conformations_next
            ((run_id dp b * dp.pop_size + select_entity dp b R.select)
              * K.GENOTYPE_LENGTH_IN_GLOBMEM + g)
          = if g ≥ 3 then
              X.map_angle (mem.pMem_conformations_next
                ((run_id dp b * dp.pop_size + select_entity dp b R.select)
                  * K.GENOTYPE_LENGTH_IN_GLOBMEM + g))
            else
              mem.pMem_conformations_next
                ((run_id dp b * dp.pop_size + select_entity dp b R.select)
                  * K.GENOTYPE_LENGTH_IN_GLOBMEM + g))
    ∧ (∀ g, g < dp.num_of_genes →
        (g ≥ 3 →
          X.map_angle (mem.pMem_conformations_next
              ((run_id dp b * dp.pop_size + select_entity dp b R.select)
                * K.GENOTYPE_LENGTH_IN_GLOBMEM + g))
            = mem.pMem_conformations_next
              ((run_id dp b * dp.pop_size + select_entity dp b R.select)
                * K.GENOTYPE_LENGTH_IN_GLOBMEM + g)) →
        (episode K X dp R L b stack mem).2.pMem_conformations_next
            ((run_id dp b * dp.pop_size + select_entity dp b R.select)
              * K.GENOTYPE_LENGTH_IN_GLOBMEM + g)
          = mem.pMem_conformations_next
              ((run_id dp b * dp.pop_size + select_entity dp b R.select)
                * K.GENOTYPE_LENGTH_IN_GLOBMEM + g)) := by
  obtain ⟨h1, h2, h3, h4⟩ := episode_zero_iterations K X dp R L b stack mem hmax hL
  refine ⟨h1, h2, h3, h4, ?_⟩
  intro g hg hfix
  rw [h4 g hg]
  by_cases h3 : g ≥ 3
  · rw [if_pos h3, hfix h3]
  · rw [if_neg h3]

/-- Witness for C8 (amended): the entity of team 1 with gene 3 equal to 400 and
`max_num_of_iters = 0`; gene 3 is written back as `map_angle_spec 400`. -/
theorem C8_zero_iteration_episode_witness :
    (episode ⟨64, 2, 1 / 2⟩ ⟨fun _ _ => 0, sqrt_exact, map_angle_spec⟩
        ⟨10, 3, 7, 5, 80, 1 / 100, 1, 1, 4, 0⟩ ⟨0, fun _ _ => 0, fun _ _ => 0⟩ 1 1
        ⟨fun _ => 0, fun _ => 0, fun _ => 0, 0, 0, 0, 0, 0, fun _ => 0, 0, 0, 0⟩
        ⟨fun i => if i = 67 then 400 else 0, fun _ => 5, fun _ => 2⟩).2.pMem_evals_of_new_entities
      = fun _ => 2 :=
  (C8_zero_iteration_episode ⟨64, 2, 1 / 2⟩ ⟨fun _ _ => 0, sqrt_exact, map_angle_spec⟩
    ⟨10, 3, 7, 5, 80, 1 / 100, 1, 1, 4, 0⟩ ⟨0, fun _ _ => 0, fun _ _ => 0⟩ 1 1
    ⟨fun _ => 0, fun _ => 0, fun _ => 0, 0, 0, 0, 0, 0, fun _ => 0, 0, 0, 0⟩
    ⟨fun i => if i = 67 then 400 else 0, fun _ => 5, fun _ => 2⟩ (by decide) (by decide)).2.2.1

/-! ### The deviate -/

/-- Effect of the deviate phase (lines 110-141) on the cells of `genotype_deviate`. -/
theorem deviate_cell (X : Externals) (dp : GpuDockparameters) (R : Draws) (L : Nat)
    (hL : 1 ≤ L) (t : Team) (k : Nat) (hk : k < dp.num_of_genes) :
    (perGene L dp.num_of_genes (deviate_body X dp R) t).genotype_deviate k
      = deviate_gene X dp t.rho (R.u t.iteration_cnt.toNat k) (R.v t.iteration_cnt.toNat k) k := by
  have h := perGene_cell
    (fun (x : Team) (i : Nat) => (x.genotype_deviate i, x.rho, x.iteration_cnt))
    (fun (g : Nat) (c : ℚ × ℚ × Int) =>
      (deviate_gene X dp c.2.1 (R.u c.2.2.toNat g) (R.v c.2.2.toNat g) g, c.2.1, c.2.2))
    L dp.num_of_genes hL (deviate_body X dp R)
    (by
      intro g _ x i
      by_cases hi : i = g
      · subst hi
        simp [deviate_body]
      · simp [deviate_body, Function.update_noteq hi, hi])
    t k
  simp only [hk, if_true, Prod.mk.injEq] at h
  exact h.1

/-- The deviate in use when the positive trial is evaluated. -/
theorem positive_trial_deviate (X : Externals) (dp : GpuDockparameters) (R : Draws) (L : Nat)
    (hL : 1 ≤ L) (t : Team) (k : Nat) (hk : k < dp.num_of_genes) :
    (positive_trial X dp R L t).genotype_deviate k
      = deviate_gene X dp t.rho (R.u t.iteration_cnt.toNat k) (R.v t.iteration_cnt.toNat k) k := by
  have hpres := perGene_preserve (fun x : Team => x.genotype_deviate) L dp.num_of_genes
    candidate_pos_body (fun _ _ _ => rfl)
    (perGene L dp.num_of_genes (deviate_body X dp R) t)
  have hunf : (positive_trial X dp R L t).genotype_deviate
      = (perGene L dp.num_of_genes candidate_pos_body
          (perGene L dp.num_of_genes (deviate_body X dp R) t)).genotype_deviate := rfl
  rw [hunf, hpres]
  exact deviate_cell X dp R L hL t k hk

/-- C10 as stated fails: with 16 genes, 4 atoms, `rho = 1`, `u = 3/4`, mask 1 and
`base_dang_mul_sqrt3 = 1`, the deviate of the orientation gene 3 is `1/4`, not
`rho*(2u-1)*m*base_dang_mul_sqrt3 / sqrt(num_of_genes) = 1/8`, and the deviate of the torsion
gene 6 is `1/8`, not `rho*(2u-1)*m*base_dang_mul_sqrt3 / sqrt(num_of_atoms) = 1/4`. -/
theorem C10_counterexample :
    (positive_trial ⟨fun _ _ => 0, sqrt_exact, map_angle_spec⟩
        ⟨10, 3, 16, 4, 80, 1 / 100, 1, 1, 4, 50⟩ ⟨0, fun _ _ => 3 / 4, fun _ _ => 0⟩ 1
        ⟨fun _ => 0, fun _ => 0, fun _ => 0, 1, 0, 0, 0, 0, fun _ => 0, 0, 0, 0⟩).genotype_deviate 3
      = 1 / 4
    ∧ (positive_trial ⟨fun _ _ => 0, sqrt_exact, map_angle_spec⟩
        ⟨10, 3, 16, 4, 80, 1 / 100, 1, 1, 4, 50⟩ ⟨0, fun _ _ => 3 / 4, fun _ _ => 0⟩ 1
        ⟨fun _ => 0, fun _ => 0, fun _ => 0, 1, 0, 0, 0, 0, fun _ => 0, 0, 0, 0⟩).genotype_deviate 3
      ≠ (1 : ℚ) * (2 * (3 / 4) - 1) * 1 * 1 / sqrt_exact ((16 : Nat) : ℚ)
    ∧ (positive_trial ⟨fun _ _ => 0, sqrt_exact, map_angle_spec⟩
        ⟨10, 3, 16, 4, 80, 1 / 100, 1, 1, 4, 50⟩ ⟨0, fun _ _ => 3 / 4, fun _ _ => 0⟩ 1
        ⟨fun _ => 0, fun _ => 0, fun _ => 0, 1, 0, 0, 0, 0, fun _ => 0, 0, 0, 0⟩).genotype_deviate 6
      = 1 / 8
    ∧ (positive_trial ⟨fun _ _ => 0, sqrt_exact, map_angle_spec⟩
        ⟨10, 3, 16, 4, 80, 1 / 100, 1, 1, 4, 50⟩ ⟨0, fun _ _ => 3 / 4, fun _ _ => 0⟩ 1
        ⟨fun _ => 0, fun _ => 0, fun _ => 0, 1, 0, 0, 0, 0, fun _ => 0, 0, 0, 0⟩).genotype_deviate 6
      ≠ (1 : ℚ) * (2 * (3 / 4) - 1) * 1 * 1 / sqrt_exact ((4 : Nat) : ℚ) := by
  have h16 : sqrt_exact 16 = 4 := by
    have h1 : ((16 : ℚ)).num = 16 := by norm_num
    have h2 : ((16 : ℚ)).den = 1 := by norm_num
    have h3 : Nat.sqrt 16 = 4 := by norm_num [Nat.sqrt]
    have h4 : Nat.sqrt 1 = 1 := by norm_num [Nat.sqrt]
    unfold sqrt_exact
    rw [h1, h2, h4]
    simp [h3]
  have h4 : sqrt_exact 4 = 2 := by
    have h1 : ((4 : ℚ)).num = 4 := by norm_num
    have h2 : ((4 : ℚ)).den = 1 := by norm_num
    have h3 : Nat.sqrt 4 = 2 := by norm_num [Nat.sqrt]
    have h5 : Nat.sqrt 1 = 1 := by norm_num [Nat.sqrt]
    unfold sqrt_exact
    rw [h1, h2, h5]
    simp [h3]
  have d3 : (positive_trial ⟨fun _ _ => 0, sqrt_exact, map_angle_spec⟩
        ⟨10, 3, 16, 4, 80, 1 / 100, 1, 1, 4, 50⟩ ⟨0, fun _ _ => 3 / 4, fun _ _ => 0⟩ 1
        ⟨fun _ => 0, fun _ => 0, fun _ => 0, 1, 0, 0, 0, 0, fun _ => 0, 0, 0, 0⟩).genotype_deviate 3
      = 1 / 4 := by
    rw [positive_trial_deviate _ _ _ 1 (by decide) _ 3 (by decide)]
    simp only [deviate_gene, Nat.cast_ofNat, h16, h4]
    norm_num
  have d6 : (positive_trial ⟨fun _ _ => 0, sqrt_exact, map_angle_spec⟩
        ⟨10, 3, 16, 4, 80, 1 / 100, 1, 1, 4, 50⟩ ⟨0, fun _ _ => 3 / 4, fun _ _ => 0⟩ 1
        ⟨fun _ => 0, fun _ => 0, fun _ => 0, 1, 0, 0, 0, 0, fun _ => 0, 0, 0, 0⟩).genotype_deviate 6
      = 1 / 8 := by
    rw [positive_trial_deviate _ _ _ 1 (by decide) _ 6 (by decide)]
    simp only [deviate_gene, Nat.cast_ofNat, h16, h4]
    norm_num
  refine ⟨d3, ?_, d6, ?_⟩
  · rw [d3]
    simp only [Nat.cast_ofNat, h16]
    norm_num
  · rw [d6]
    simp only [Nat.cast_ofNat, h4]
    norm_num

/-- C10 (amended). Gene-class scaling of the deviate in `SWAT3` mode, for a team of at least
one lane: with `u`, `v` the two draws of gene `g < num_of_genes` and mask `m = 1` if
`v < 1/sqrt(num_of_genes)` and `0` otherwise, the deviate of gene `g < 3` is
`rho*(2u-1)*m*base_dmov_mul_sqrt3`; the deviate of gene `3 <= g < 6` (orientation) is
`rho*(2u-1)*m*base_dang_mul_sqrt3 / sqrt(num_of_atoms)`; and the deviate of gene `g >= 6`
(torsion) is `rho*(2u-1)*m*base_dang_mul_sqrt3 / sqrt(num_of_genes)`. -/
theorem C10_gene_class_scaling (X : Externals) (dp : GpuDockparameters) (R : Draws) (L : Nat)
    (hL : 1 ≤ L) (t : Team) (g : Nat) (hg : g < dp.num_of_genes) :
    (g < 3 →
      (positive_trial X dp R L t).genotype_deviate g
        = t.rho * (2 * R.u t.iteration_cnt.toNat g - 1)
            * (if R.v t.iteration_cnt.toNat g < 1 / X.sqrt (dp.num_of_genes : ℚ) then 1 else 0)
            * dp.base_dmov_mul_sqrt3)
    ∧ (3 ≤ g → g < 6 →
      (positive_trial X dp R L t).genotype_deviate g
        = t.rho * (2 * R.u t.iteration_cnt.toNat g - 1)
            * (if R.v t.iteration_cnt.toNat g < 1 / X.sqrt (dp.num_of_genes : ℚ) then 1 else 0)
            * dp.base_dang_mul_sqrt3 / X.sqrt (dp.num_of_atoms : ℚ))
    ∧ (6 ≤ g →
      (positive_trial X dp R L t).genotype_deviate g
        = t.rho * (2 * R.u t.iteration_cnt.toNat g - 1)
            * (if R.v t.iteration_cnt.toNat g < 1 / X.sqrt (dp.num_of_genes : ℚ) then 1 else 0)
            * dp.base_dang_mul_sqrt3 / X.sqrt (dp.num_of_genes : ℚ)) := by
  rw [positive_trial_deviate X dp R L hL t g hg]
  refine ⟨?_, ?_, ?_⟩
  · intro h3
    simp [deviate_gene, h3]
  · intro h3 h6
    have h3' : ¬ g < 3 := by omega
    simp only [deviate_gene, h3', h6, if_true, if_false]
    ring
  · intro h6
    have h3' : ¬ g < 3 := by omega
    have h6' : ¬ g < 6 := by omega
    simp only [deviate_gene, h3', h6', if_false]
    ring

/-- Witness for C10 (amended): 16 genes, 4 atoms, `rho = 1`, `u = 3/4`, `v = 0`; the deviate
of the orientation gene 3 is `1 * (1/2) * 1 * 1 / sqrt 4`. -/
theorem C10_gene_class_scaling_witness :
    (positive_trial ⟨fun _ _ => 0, sqrt_exact, map_angle_spec⟩
        ⟨10, 3, 16, 4, 80, 1 / 100, 1, 1, 4, 50⟩ ⟨0, fun _ _ => 3 / 4, fun _ _ => 0⟩ 1
        ⟨fun _ => 0, fun _ => 0, fun _ => 0, 1, 0, 0, 0, 0, fun _ => 0, 0, 0, 0⟩).genotype_deviate 3
      = (1 : ℚ) * (2 * (3 / 4) - 1)
          * (if (0 : ℚ) < 1 / sqrt_exact ((16 : Nat) : ℚ) then 1 else 0)
          * 1 / sqrt_exact ((4 : Nat) : ℚ) :=
  (C10_gene_class_scaling ⟨fun _ _ => 0, sqrt_exact, map_angle_spec⟩
    ⟨10, 3, 16, 4, 80, 1 / 100, 1, 1, 4, 50⟩ ⟨0, fun _ _ => 3 / 4, fun _ _ => 0⟩ 1 (by decide)
    ⟨fun _ => 0, fun _ => 0, fun _ => 0, 1, 0, 0, 0, 0, fun _ => 0, 0, 0, 0⟩ 3
    (by decide)).2.1 (by decide) (by decide)

/-! ### Write-back and frame of one episode -/

/-- A cell of the population buffer that is not one of the `num_of_genes` cells of the team's
entity is left alone by the write-back loop. -/
theorem writeback_frame (K : Consts) (X : Externals) (dp : GpuDockparameters) (L b : Nat)
    (s : Team × Mem) (c : Nat)
    (hc : ∀ g, g < dp.num_of_genes → c ≠ offset K dp b s.1 + g) :
    (perGene L dp.num_of_genes (writeback_body K X dp b) s).2.pMem_conformations_next c
      = s.2.pMem_conformations_next c := by
  have h := perGene_preserve
    (fun x : Team × Mem =>
      if x.1.entity_id = s.1.entity_id then some (x.2.pMem_conformations_next c) else none)
    L dp.num_of_genes (writeback_body K X dp b)
    (by
      intro g hg x
      have hid : (writeback_body K X dp b g x).1.entity_id = x.1.entity_id := by
        unfold writeback_body
        simp only
        split_ifs <;> rfl
      simp only [hid]
      by_cases he : x.1.entity_id = s.1.entity_id
      · have hoff : ∀ y : Team, y.entity_id = s.1.entity_id →
            c ≠ offset K dp b y + g := by
          intro y hy
          have : offset K dp b y = offset K dp b s.1 := by
            unfold offset
            rw [hy]
          rw [this]
          exact hc g hg
        simp only [he, if_true, Option.some.injEq]
        unfold writeback_body
        simp only
        apply Function.update_noteq
        have hsame : ∀ y : Team, y.entity_id = x.1.entity_id →
            offset K dp b y = offset K dp b x.1 := by
          intro y hy
          unfold offset
          rw [hy]
        rw [hsame _ (by split_ifs <;> rfl)]
        exact hoff x.1 he
      · simp only [he, if_false])
    s
  simp only [eq_self_iff_true, if_true] at h
  split_ifs at h
  exact Option.some.inj h

/-- The population buffer after the episode, away from the genes of the selected entity. -/
theorem episode_conformations_frame (K : Consts) (X : Externals) (dp : GpuDockparameters)
    (R : Draws) (L b : Nat) (stack : Team) (mem : Mem) (c : Nat)
    (hc : ∀ g, g < dp.num_of_genes →
      c ≠ (run_id dp b * dp.pop_size + select_entity dp b R.select)
            * K.GENOTYPE_LENGTH_IN_GLOBMEM + g) :
    (episode K X dp R L b stack mem).2.pMem_conformations_next c
      = mem.pMem_conformations_next c := by
  unfold episode
  simp only
  rw [writeback_frame K X dp L b _ c (by
    intro g hg
    simp only [offset, ls_final_entity_id]
    exact hc g hg)]
  rfl

/-- C11. Write-back and frame of one episode (at least one lane): on exit the cells
`e*GENOTYPE_LENGTH_IN_GLOBMEM + g` of the selected entity `e = run_id*pop_size + entity_id`
hold the final offspring gene `g` for `g < 3` and `map_angle` of it for
`3 <= g < num_of_genes`, and `pMem_energies_next[e]` holds the final `offspring_energy`. The
energy and evaluation-count cells of every other entity are unchanged; every population cell
other than those `num_of_genes` cells is unchanged, in particular the entity's own cells at
index `>= num_of_genes` and, as genotypes do not exceed the stride
(`num_of_genes <= GENOTYPE_LENGTH_IN_GLOBMEM`), every genotype cell of every other entity. -/
theorem C11_writeback_and_frame (K : Consts) (X : Externals) (dp : GpuDockparameters)
    (R : Draws) (L b : Nat) (stack : Team) (mem : Mem) (hL : 1 ≤ L) :
    (∀ g, g < 3 → g < dp.num_of_genes →
      (episode K X dp R L b stack mem).2.pMem_conformations_next
          ((run_id dp b * dp.pop_size + select_entity dp b R.select)
            * K.GENOTYPE_LENGTH_IN_GLOBMEM + g)
        = (ls_final K X dp R L b stack mem).offspring_genotype g)
    ∧ (∀ g, 3 ≤ g → g < dp.num_of_genes →
      (episode K X dp R L b stack mem).2.pMem_conformations_next
          ((run_id dp b * dp.pop_size + select_entity dp b R.select)
            * K.GENOTYPE_LENGTH_IN_GLOBMEM + g)
        = X.map_angle ((ls_final K X dp R L b stack mem).offspring_genotype g))
    ∧ (episode K X dp R L b stack mem).2.pMem_energies_next
          (run_id dp b * dp.pop_size + select_entity dp b R.select)
        = (ls_final K X dp R L b stack mem).offspring_energy
    ∧ (∀ i, i ≠ run_id dp b * dp.pop_size + select_entity dp b R.select →
        (episode K X dp R L b stack mem).2.pMem_energies_next i = mem.pMem_energies_next i
        ∧ (episode K X dp R L b stack mem).2.pMem_evals_of_new_entities i
            = mem.pMem_evals_of_new_entities i)
    ∧ (∀ c, (∀ g, g < dp.num_of_genes →
          c ≠ (run_id dp b * dp.pop_size + select_entity dp b R.select)
                * K.GENOTYPE_LENGTH_IN_GLOBMEM + g) →
        (episode K X dp R L b stack mem).2.pMem_conformations_next c
          = mem.pMem_conformations_next c)
    ∧ (∀ g, dp.num_of_genes ≤ g →
        (episode K X dp R L b stack mem).2.pMem_conformations_next
            ((run_id dp b * dp.pop_size + select_entity dp b R.select)
              * K.GENOTYPE_LENGTH_IN_GLOBMEM + g)
          = mem.pMem_conformations_next
              ((run_id dp b * dp.pop_size + select_entity dp b R.select)
                * K.GENOTYPE_LENGTH_IN_GLOBMEM + g))
    ∧ (dp.num_of_genes ≤ K.GENOTYPE_LENGTH_IN_GLOBMEM →
        ∀ i, i ≠ run_id dp b * dp.pop_size + select_entity dp b R.select →
        ∀ g, g < K.GENOTYPE_LENGTH_IN_GLOBMEM →
          (episode K X dp R L b stack mem).2.pMem_conformations_next
              (i * K.GENOTYPE_LENGTH_IN_GLOBMEM + g)
            = mem.pMem_conformations_next (i * K.GENOTYPE_LENGTH_IN_GLOBMEM + g)) := by
  refine ⟨?_, ?_, ?_, ?_, ?_, ?_, ?_⟩
  · intro g h3 hg
    rw [episode_conformations K X dp R L b hL stack mem g hg]
    have : ¬ g ≥ 3 := by omega
    rw [if_neg this]
  · intro g h3 hg
    rw [episode_conformations K X dp R L b hL stack mem g hg, if_pos h3]
  · rw [episode_energies, Function.update_same]
  · intro i hi
    rw [episode_energies, episode_evals]
    exact ⟨Function.update_noteq hi _ _, Function.update_noteq hi _ _⟩
  · intro c hc
    exact episode_conformations_frame K X dp R L b stack mem c hc
  · intro g hg
    apply episode_conformations_frame
    intro k hk
    omega
  · intro hlen i hi g hg
    apply episode_conformations_frame
    intro k hk heq
    apply hi
    have hk' : k < K.GENOTYPE_LENGTH_IN_GLOBMEM := by omega
    have h1 : (i * K.GENOTYPE_LENGTH_IN_GLOBMEM + g) / K.GENOTYPE_LENGTH_IN_GLOBMEM = i := by
      rw [Nat.add_comm, Nat.add_mul_div_right _ _ (by omega), Nat.div_eq_of_lt hg]
      omega
    have h2 : ((run_id dp b * dp.pop_size + select_entity dp b R.select)
        * K.GENOTYPE_LENGTH_IN_GLOBMEM + k) / K.GENOTYPE_LENGTH_IN_GLOBMEM
        = run_id dp b * dp.pop_size + select_entity dp b R.select := by
      rw [Nat.add_comm, Nat.add_mul_div_right _ _ (by omega), Nat.div_eq_of_lt hk']
      omega
    rw [← h1, ← h2, heq]

/-- Witness for C11: team 1 (entity 1, cells from 64), seven genes, no iteration; the energy
cell of entity 1 holds the final `offspring_energy` and the energy cell of entity 2 is
untouched. -/
theorem C11_writeback_and_frame_witness :
    (1 : Nat) ≤ 2
    ∧ (episode ⟨64, 2, 1 / 2⟩ ⟨fun _ _ => 0, sqrt_exact, map_angle_spec⟩
        ⟨10, 3, 7, 5, 80, 1 / 100, 1, 1, 4, 0⟩ ⟨0, fun _ _ => 0, fun _ _ => 0⟩ 2 1
        ⟨fun _ => 0, fun _ => 0, fun _ => 0, 0, 0, 0, 0, 0, fun _ => 0, 0, 0, 0⟩
        ⟨fun i => i, fun i => i, fun _ => 2⟩).2.pMem_energies_next 2 = 2 := by
  have h := (C11_writeback_and_frame ⟨64, 2, 1 / 2⟩ ⟨fun _ _ => 0, sqrt_exact, map_angle_spec⟩
    ⟨10, 3, 7, 5, 80, 1 / 100, 1, 1, 4, 0⟩ ⟨0, fun _ _ => 0, fun _ _ => 0⟩ 2 1
    ⟨fun _ => 0, fun _ => 0, fun _ => 0, 0, 0, 0, 0, 0, fun _ => 0, 0, 0, 0⟩
    ⟨fun i => i, fun i => i, fun _ => 2⟩ (by decide)).2.2.2.1 2
    (by simp [run_id, select_entity])
  refine ⟨by decide, ?_⟩
  rw [h.1]
  norm_num

/-! ### Angle normalisation -/

/-- The wrap lands in `(-180, 180]`. -/
theorem map_angle_spec_range (x : ℚ) : -180 < map_angle_spec x ∧ map_angle_spec x ≤ 180 := by
  unfold map_angle_spec
  have h1 := Int.le_ceil ((x - 180) / 360)
  have h2 := Int.ceil_lt_add_one ((x - 180) / 360)
  constructor
  · linarith
  · linarith

/-- The wrap leaves every angle of `(-180, 180]` where it is. -/
theorem map_angle_spec_fixed (y : ℚ) (h1 : -180 < y) (h2 : y ≤ 180) : map_angle_spec y = y := by
  unfold map_angle_spec
  have hc : ⌈(y - 180) / 360⌉ = 0 := by
    rw [Int.ceil_eq_iff]
    constructor
    · push_cast
      linarith
    · push_cast
      linarith
  rw [hc]
  simp

theorem map_angle_spec_idem (x : ℚ) : map_angle_spec (map_angle_spec x) = map_angle_spec x :=
  map_angle_spec_fixed _ (map_angle_spec_range x).1 (map_angle_spec_range x).2

/-- The write-back loop keeps the entity of the team. -/
theorem writeback_entity_id (K : Consts) (X : Externals) (dp : GpuDockparameters) (L b : Nat)
    (s : Team × Mem) :
    (perGene L dp.num_of_genes (writeback_body K X dp b) s).1.entity_id = s.1.entity_id :=
  perGene_preserve (fun x : Team × Mem => x.1.entity_id) L dp.num_of_genes
    (writeback_body K X dp b)
    (by
      intro g _ x
      unfold writeback_body
      simp only
      split_ifs <;> rfl)
    s

/-- The write-back loop wraps the angular genes of the team-local genotype in place. -/
theorem writeback_offspring (K : Consts) (X : Externals) (dp : GpuDockparameters) (L b : Nat)
    (hL : 1 ≤ L) (s : Team × Mem) (k : Nat) (hk : k < dp.num_of_genes) :
    (perGene L dp.num_of_genes (writeback_body K X dp b) s).1.offspring_genotype k
      = if k ≥ 3 then X.map_angle (s.1.offspring_genotype k) else s.1.offspring_genotype k := by
  have h := perGene_cell
    (fun (x : Team × Mem) (i : Nat) => x.1.offspring_genotype i)
    (fun (g : Nat) (c : ℚ) => if g ≥ 3 then X.map_angle c else c)
    L dp.num_of_genes hL (writeback_body K X dp b)
    (by
      intro g _ x i
      by_cases hi : i = g
      · subst hi
        by_cases h3 : i ≥ 3
        · simp [writeback_body, h3]
        · simp [writeback_body, h3]
      · by_cases h3 : g ≥ 3
        · simp [writeback_body, h3, Function.update_noteq hi, hi]
        · simp [writeback_body, h3, hi])
    s k
  simp only [hk, if_true] at h
  exact h

/-- C12. Angle wrap idempotence: the angle normalisation `map_angle` (the wrap into
`(-180, 180]` described by the spec) applied twice gives the same value as applied once, for
every gene value; hence, with at least one lane, running the write-back loop of
`gpu_perform_LS` again on an already written-back genotype leaves the population buffer as the
first write-back left it. -/
theorem C12_angle_wrap_idempotent (K : Consts) (X : Externals) (dp : GpuDockparameters)
    (L b : Nat) (s : Team × Mem) (hX : X.map_angle = map_angle_spec) (hL : 1 ≤ L) :
    (∀ x : ℚ, map_angle_spec (map_angle_spec x) = map_angle_spec x)
    ∧ (perGene L dp.num_of_genes (writeback_body K X dp b)
          (perGene L dp.num_of_genes (writeback_body K X dp b) s)).2.pMem_conformations_next
        = (perGene L dp.num_of_genes (writeback_body K X dp b) s).2.pMem_conformations_next := by
  refine ⟨map_angle_spec_idem, ?_⟩
  funext c
  have hoff : offset K dp b (perGene L dp.num_of_genes (writeback_body K X dp b) s).1
      = offset K dp b s.1 := by
    unfold offset
    rw [writeback_entity_id]
  by_cases hc : ∃ k, k < dp.num_of_genes ∧ c = offset K dp b s.1 + k
  · obtain ⟨k, hk, rfl⟩ := hc
    have h2 := writeback_cell K X dp L b hL
      (perGene L dp.num_of_genes (writeback_body K X dp b) s) k hk
    rw [hoff] at h2
    rw [h2, writeback_cell K X dp L b hL s k hk, writeback_offspring K X dp L b hL s k hk]
    by_cases h3 : k ≥ 3
    · simp only [h3, if_true]
      rw [hX]
      exact map_angle_spec_idem _
    · simp only [h3, if_false]
  · apply writeback_frame
    intro g hg heq
    apply hc
    rw [hoff] at heq
    exact ⟨g, hg, heq⟩

/-- Witness for C12: two lanes, seven genes, gene 3 equal to 400. -/
theorem C12_angle_wrap_idempotent_witness :
    map_angle_spec (map_angle_spec 400) = map_angle_spec 400
    ∧ (perGene 2 7 (writeback_body ⟨64, 2, 1 / 2⟩ ⟨fun _ _ => 0, sqrt_exact, map_angle_spec⟩
          ⟨10, 3, 7, 5, 80, 1 / 100, 1, 1, 4, 0⟩ 1)
        (perGene 2 7 (writeback_body ⟨64, 2, 1 / 2⟩ ⟨fun _ _ => 0, sqrt_exact, map_angle_spec⟩
            ⟨10, 3, 7, 5, 80, 1 / 100, 1, 1, 4, 0⟩ 1)
          (⟨fun _ => 0, fun _ => 0, fun _ => 0, 0, 0, 0, 0, 0, fun _ => 400, 0, 1, 0⟩,
            ⟨fun _ => 0, fun _ => 0, fun _ => 0⟩))).2.pMem_conformations_next
      = (perGene 2 7 (writeback_body ⟨64, 2, 1 / 2⟩ ⟨fun _ _ => 0, sqrt_exact, map_angle_spec⟩
            ⟨10, 3, 7, 5, 80, 1 / 100, 1, 1, 4, 0⟩ 1)
          (⟨fun _ => 0, fun _ => 0, fun _ => 0, 0, 0, 0, 0, 0, fun _ => 400, 0, 1, 0⟩,
            ⟨fun _ => 0, fun _ => 0, fun _ => 0⟩)).2.pMem_conformations_next :=
  ⟨(C12_angle_wrap_idempotent ⟨64, 2, 1 / 2⟩ ⟨fun _ _ => 0, sqrt_exact, map_angle_spec⟩
      ⟨10, 3, 7, 5, 80, 1 / 100, 1, 1, 4, 0⟩ 2 1
      (⟨fun _ => 0, fun _ => 0, fun _ => 0, 0, 0, 0, 0, 0, fun _ => 400, 0, 1, 0⟩,
        ⟨fun _ => 0, fun _ => 0, fun _ => 0⟩) rfl (by decide)).1 400,
    (C12_angle_wrap_idempotent ⟨64, 2, 1 / 2⟩ ⟨fun _ _ => 0, sqrt_exact, map_angle_spec⟩
      ⟨10, 3, 7, 5, 80, 1 / 100, 1, 1, 4, 0⟩ 2 1
      (⟨fun _ => 0, fun _ => 0, fun _ => 0, 0, 0, 0, 0, 0, fun _ => 400, 0, 1, 0⟩,
        ⟨fun _ => 0, fun _ => 0, fun _ => 0⟩) rfl (by decide)).2⟩

/-! ### One iteration, seen on the gene arrays -/

/-- Components of equal gene tuples. -/
theorem gene_eq {t : Team} {k : Nat} {c d bi o : ℚ} (h : t.gene k = (c, d, bi, o)) :
    t.genotype_candidate k = c ∧ t.genotype_deviate k = d ∧ t.genotype_bias k = bi
    ∧ t.offspring_genotype k = o := by
  simp only [Team.gene, Prod.mk.injEq] at h
  exact h

theorem gene_deviate (X : Externals) (dp : GpuDockparameters) (R : Draws) (L : Nat)
    (hL : 1 ≤ L) (t : Team) (k : Nat) :
    (perGene L dp.num_of_genes (deviate_body X dp R) t).gene k
      = if k < dp.num_of_genes then
          (t.genotype_candidate k,
            deviate_gene X dp t.rho (R.u t.iteration_cnt.toNat k) (R.v t.iteration_cnt.toNat k) k,
            t.genotype_bias k, t.offspring_genotype k)
        else t.gene k := by
  have h := perGene_cell
    (fun (x : Team) (i : Nat) => (x.gene i, x.rho, x.iteration_cnt))
    (fun (g : Nat) (c : (ℚ × ℚ × ℚ × ℚ) × ℚ × Int) =>
      ((c.1.1, deviate_gene X dp c.2.1 (R.u c.2.2.toNat g) (R.v c.2.2.toNat g) g,
        c.1.2.2.1, c.1.2.2.2), c.2.1, c.2.2))
    L dp.num_of_genes hL (deviate_body X dp R)
    (by
      intro g _ x i
      by_cases hi : i = g
      · subst hi
        simp [deviate_body, Team.gene]
      · simp [deviate_body, Team.gene, Function.update_noteq hi, hi])
    t k
  by_cases hk : k < dp.num_of_genes
  · simp only [hk, if_true, Prod.mk.injEq] at h
    rw [if_pos hk]
    exact h.1
  · simp only [hk, if_false, Prod.mk.injEq] at h
    rw [if_neg hk]
    exact h.1

theorem gene_candidate_pos (L G : Nat) (hL : 1 ≤ L) (t : Team) (k : Nat) :
    (perGene L G candidate_pos_body t).gene k
      = if k < G then
          (t.offspring_genotype k + t.genotype_deviate k + t.genotype_bias k,
            t.genotype_deviate k, t.genotype_bias k, t.offspring_genotype k)
        else t.gene k :=
  perGene_cell Team.gene
    (fun (_ : Nat) (c : ℚ × ℚ × ℚ × ℚ) => (c.2.2.2 + c.2.1 + c.2.2.1, c.2.1, c.2.2.1, c.2.2.2))
    L G hL candidate_pos_body
    (by
      intro g _ x i
      by_cases hi : i = g
      · subst hi
        simp [candidate_pos_body, Team.gene]
      · simp [candidate_pos_body, Team.gene, Function.update_noteq hi, hi])
    t k

theorem gene_candidate_neg (L G : Nat) (hL : 1 ≤ L) (t : Team) (k : Nat) :
    (perGene L G candidate_neg_body t).gene k
      = if k < G then
          (t.offspring_genotype k - t.genotype_deviate k - t.genotype_bias k,
            t.genotype_deviate k, t.genotype_bias k, t.offspring_genotype k)
        else t.gene k :=
  perGene_cell Team.gene
    (fun (_ : Nat) (c : ℚ × ℚ × ℚ × ℚ) => (c.2.2.2 - c.2.1 - c.2.2.1, c.2.1, c.2.2.1, c.2.2.2))
    L G hL candidate_neg_body
    (by
      intro g _ x i
      by_cases hi : i = g
      · subst hi
        simp [candidate_neg_body, Team.gene]
      · simp [candidate_neg_body, Team.gene, Function.update_noteq hi, hi])
    t k

theorem gene_commit_pos (L G : Nat) (hL : 1 ≤ L) (t : Team) (k : Nat) :
    (perGene L G commit_pos_body t).gene k
      = if k < G then
          (t.genotype_candidate k, t.genotype_deviate k,
            6 / 10 * t.genotype_bias k + 4 / 10 * t.genotype_deviate k, t.genotype_candidate k)
        else t.gene k :=
  perGene_cell Team.gene
    (fun (_ : Nat) (c : ℚ × ℚ × ℚ × ℚ) =>
      (c.1, c.2.1, 6 / 10 * c.2.2.1 + 4 / 10 * c.2.1, c.1))
    L G hL commit_pos_body
    (by
      intro g _ x i
      by_cases hi : i = g
      · subst hi
        simp [commit_pos_body, Team.gene]
      · simp [commit_pos_body, Team.gene, Function.update_noteq hi, hi])
    t k

theorem gene_commit_neg (L G : Nat) (hL : 1 ≤ L) (t : Team) (k : Nat) :
    (perGene L G commit_neg_body t).gene k
      = if k < G then
          (t.genotype_candidate k, t.genotype_deviate k,
            6 / 10 * t.genotype_bias k - 4 / 10 * t.genotype_deviate k, t.genotype_candidate k)
        else t.gene k :=
  perGene_cell Team.gene
    (fun (_ : Nat) (c : ℚ × ℚ × ℚ × ℚ) =>
      (c.1, c.2.1, 6 / 10 * c.2.2.1 - 4 / 10 * c.2.1, c.1))
    L G hL commit_neg_body
    (by
      intro g _ x i
      by_cases hi : i = g
      · subst hi
        simp [commit_neg_body, Team.gene]
      · simp [commit_neg_body, Team.gene, Function.update_noteq hi, hi])
    t k

theorem gene_decay (L G : Nat) (hL : 1 ≤ L) (t : Team) (k : Nat) :
    (perGene L G decay_body t).gene k
      = if k < G then
          (t.genotype_candidate k, t.genotype_deviate k, 5 / 10 * t.genotype_bias k,
            t.offspring_genotype k)
        else t.gene k :=
  perGene_cell Team.gene
    (fun (_ : Nat) (c : ℚ × ℚ × ℚ × ℚ) => (c.1, c.2.1, 5 / 10 * c.2.2.1, c.2.2.2))
    L G hL decay_body
    (by
      intro g _ x i
      by_cases hi : i = g
      · subst hi
        simp [decay_body, Team.gene]
      · simp [decay_body, Team.gene, Function.update_noteq hi, hi])
    t k

theorem gene_lane0_adapt (K : Consts) (dp : GpuDockparameters) (t : Team) (k : Nat) :
    (lane0_adapt K dp t).gene k = t.gene k := by
  unfold lane0_adapt
  simp only
  split_ifs <;> rfl

/-- The gene arrays when the positive trial is evaluated. -/
theorem positive_trial_gene (X : Externals) (dp : GpuDockparameters) (R : Draws) (L : Nat)
    (hL : 1 ≤ L) (t : Team) (k : Nat) :
    (positive_trial X dp R L t).gene k
      = if k < dp.num_of_genes then
          (t.offspring_genotype k
              + deviate_gene X dp t.rho (R.u t.iteration_cnt.toNat k)
                  (R.v t.iteration_cnt.toNat k) k
              + t.genotype_bias k,
            deviate_gene X dp t.rho (R.u t.iteration_cnt.toNat k) (R.v t.iteration_cnt.toNat k) k,
            t.genotype_bias k, t.offspring_genotype k)
        else t.gene k := by
  have hunf : (positive_trial X dp R L t).gene k
      = (perGene L dp.num_of_genes candidate_pos_body
          (perGene L dp.num_of_genes (deviate_body X dp R) t)).gene k := rfl
  rw [hunf, gene_candidate_pos L dp.num_of_genes hL]
  have hd := gene_deviate X dp R L hL t k
  by_cases hk : k < dp.num_of_genes
  · rw [if_pos hk] at hd
    obtain ⟨-, d2, d3, d4⟩ := gene_eq hd
    rw [if_pos hk, if_pos hk, d2, d3, d4]
  · rw [if_neg hk] at hd
    rw [if_neg hk, if_neg hk, hd]

/-- The gene arrays when the negative trial is evaluated. -/
theorem negative_trial_gene (X : Externals) (dp : GpuDockparameters) (R : Draws) (L : Nat)
    (hL : 1 ≤ L) (t : Team) (k : Nat) :
    (negative_trial dp L (positive_trial X dp R L t)).gene k
      = if k < dp.num_of_genes then
          (t.offspring_genotype k
              - deviate_gene X dp t.rho (R.u t.iteration_cnt.toNat k)
                  (R.v t.iteration_cnt.toNat k) k
              - t.genotype_bias k,
            deviate_gene X dp t.rho (R.u t.iteration_cnt.toNat k) (R.v t.iteration_cnt.toNat k) k,
            t.genotype_bias k, t.offspring_genotype k)
        else t.gene k := by
  have hunf : (negative_trial dp L (positive_trial X dp R L t)).gene k
      = (perGene L dp.num_of_genes candidate_neg_body (positive_trial X dp R L t)).gene k := rfl
  rw [hunf, gene_candidate_neg L dp.num_of_genes hL]
  have hp := positive_trial_gene X dp R L hL t k
  by_cases hk : k < dp.num_of_genes
  · rw [if_pos hk] at hp
    obtain ⟨-, d2, d3, d4⟩ := gene_eq hp
    rw [if_pos hk, if_pos hk, d2, d3, d4]
  · rw [if_neg hk] at hp
    rw [if_neg hk, if_neg hk, hp]

/-- One pass of the loop body is the trials of lines 108-271 followed by the adaptation of
lines 273-289. -/
theorem iteration_eq_adapt (K : Consts) (X : Externals) (dp : GpuDockparameters) (R : Draws)
    (L b : Nat) (t : Team) :
    iteration K X dp R L b t = lane0_adapt K dp (before_adapt X dp R L b t) := by
  have he1 : (positive_trial X dp R L t).offspring_energy = t.offspring_energy :=
    (scalars_eq (positive_trial_scalars X dp R L t)).2.2.2.2.2.1
  have he2 : (negative_trial dp L (positive_trial X dp R L t)).offspring_energy
      = (positive_trial X dp R L t).offspring_energy :=
    (scalars_eq (negative_trial_scalars dp L (positive_trial X dp R L t))).2.2.2.2.2.1
  unfold iteration before_adapt positive_accepted negative_accepted positive_energy
    negative_energy
  simp only [he2, he1]
  split_ifs <;> rfl

/-- The gene arrays after one pass of the loop body, by the outcome of the two trials. -/
theorem iteration_gene (K : Consts) (X : Externals) (dp : GpuDockparameters) (R : Draws)
    (L b : Nat) (hL : 1 ≤ L) (t : Team) (k : Nat) (hk : k < dp.num_of_genes) :
    (iteration K X dp R L b t).gene k
      = if positive_accepted X dp R L b t then
          (t.offspring_genotype k
              + deviate_gene X dp t.rho (R.u t.iteration_cnt.toNat k)
                  (R.v t.iteration_cnt.toNat k) k
              + t.genotype_bias k,
            deviate_gene X dp t.rho (R.u t.iteration_cnt.toNat k) (R.v t.iteration_cnt.toNat k) k,
            6 / 10 * t.genotype_bias k
              + 4 / 10 * deviate_gene X dp t.rho (R.u t.iteration_cnt.toNat k)
                  (R.v t.iteration_cnt.toNat k) k,
            t.offspring_genotype k
              + deviate_gene X dp t.rho (R.u t.iteration_cnt.toNat k)
                  (R.v t.iteration_cnt.toNat k) k
              + t.genotype_bias k)
        else if negative_accepted X dp R L b t then
          (t.offspring_genotype k
              - deviate_gene X dp t.rho (R.u t.iteration_cnt.toNat k)
                  (R.v t.iteration_cnt.toNat k) k
              - t.genotype_bias k,
            deviate_gene X dp t.rho (R.u t.iteration_cnt.toNat k) (R.v t.iteration_cnt.toNat k) k,
            6 / 10 * t.genotype_bias k
              - 4 / 10 * deviate_gene X dp t.rho (R.u t.iteration_cnt.toNat k)
                  (R.v t.iteration_cnt.toNat k) k,
            t.offspring_genotype k
              - deviate_gene X dp t.rho (R.u t.iteration_cnt.toNat k)
                  (R.v t.iteration_cnt.toNat k) k
              - t.genotype_bias k)
        else
          (t.offspring_genotype k
              - deviate_gene X dp t.rho (R.u t.iteration_cnt.toNat k)
                  (R.v t.iteration_cnt.toNat k) k
              - t.genotype_bias k,
            deviate_gene X dp t.rho (R.u t.iteration_cnt.toNat k) (R.v t.iteration_cnt.toNat k) k,
            5 / 10 * t.genotype_bias k, t.offspring_genotype k) := by
  have hp := positive_trial_gene X dp R L hL t k
  have hn := negative_trial_gene X dp R L hL t k
  rw [if_pos hk] at hp hn
  obtain ⟨p1, p2, p3, p4⟩ := gene_eq hp
  obtain ⟨n1, n2, n3, n4⟩ := gene_eq hn
  rw [iteration_eq_adapt, gene_lane0_adapt]
  unfold before_adapt
  by_cases h1 : positive_accepted X dp R L b t
  · rw [if_pos h1, if_pos h1]
    have h := gene_commit_pos L dp.num_of_genes hL (positive_trial X dp R L t) k
    rw [if_pos hk, p1, p2, p3] at h
    exact h
  · rw [if_neg h1, if_neg h1]
    by_cases h2 : negative_accepted X dp R L b t
    · rw [if_pos h2, if_pos h2]
      have h := gene_commit_neg L dp.num_of_genes hL
        (negative_trial dp L (positive_trial X dp R L t)) k
      rw [if_pos hk, n1, n2, n3] at h
      exact h
    · rw [if_neg h2, if_neg h2]
      have h := gene_decay L dp.num_of_genes hL
        (negative_trial dp L (positive_trial X dp R L t)) k
      rw [if_pos hk, n1, n2, n3, n4] at h
      exact h

/-- C13. One pass of the loop body of `gpu_perform_LS` (at least one lane), for every gene
`g < num_of_genes` with `deviate[g]` the new deviate of the pass: the positive trial evaluates
`offspring + deviate + bias` and the negative trial `offspring - deviate - bias`. If the
positive energy is below `offspring_energy`, then `offspring'[g] = offspring[g] + deviate[g] +
bias[g]`, `bias'[g] = 0.6*bias[g] + 0.4*deviate[g]`, `energy'` is the positive energy, and the
negative trial is not evaluated (one evaluator call). Otherwise, if the negative energy is
below `offspring_energy`, then `offspring'[g] = offspring[g] - deviate[g] - bias[g]`,
`bias'[g] = 0.6*bias[g] - 0.4*deviate[g]` and `energy'` is the negative energy. Otherwise
offspring and energy are unchanged and `bias'[g] = 0.5*bias[g]`. A candidate with energy equal
to `offspring_energy` is rejected. -/
theorem C13_iteration_update (K : Consts) (X : Externals) (dp : GpuDockparameters) (R : Draws)
    (L b : Nat) (t : Team) (g : Nat) (hL : 1 ≤ L) (hg : g < dp.num_of_genes) :
    (positive_trial X dp R L t).genotype_candidate g
        = t.offspring_genotype g + (positive_trial X dp R L t).genotype_deviate g
          + t.genotype_bias g
    ∧ (negative_trial dp L (positive_trial X dp R L t)).genotype_candidate g
        = t.offspring_genotype g - (positive_trial X dp R L t).genotype_deviate g
          - t.genotype_bias g
    ∧ (positive_accepted X dp R L b t →
        (iteration K X dp R L b t).offspring_genotype g
            = t.offspring_genotype g + (positive_trial X dp R L t).genotype_deviate g
              + t.genotype_bias g
        ∧ (iteration K X dp R L b t).genotype_bias g
            = 6 / 10 * t.genotype_bias g
              + 4 / 10 * (positive_trial X dp R L t).genotype_deviate g
        ∧ (iteration K X dp R L b t).offspring_energy = positive_energy X dp R L b t
        ∧ (iteration K X dp R L b t).energy_calls = t.energy_calls + 1)
    ∧ (¬ positive_accepted X dp R L b t → negative_accepted X dp R L b t →
        (iteration K X dp R L b t).offspring_genotype g
            = t.offspring_genotype g - (positive_trial X dp R L t).genotype_deviate g
              - t.genotype_bias g
        ∧ (iteration K X dp R L b t).genotype_bias g
            = 6 / 10 * t.genotype_bias g
              - 4 / 10 * (positive_trial X dp R L t).genotype_deviate g
        ∧ (iteration K X dp R L b t).offspring_energy = negative_energy X dp R L b t
        ∧ (iteration K X dp R L b t).energy_calls = t.energy_calls + 2)
    ∧ (¬ positive_accepted X dp R L b t → ¬ negative_accepted X dp R L b t →
        (iteration K X dp R L b t).offspring_genotype g = t.offspring_genotype g
        ∧ (iteration K X dp R L b t).genotype_bias g = 5 / 10 * t.genotype_bias g
        ∧ (iteration K X dp R L b t).offspring_energy = t.offspring_energy
        ∧ (iteration K X dp R L b t).energy_calls = t.energy_calls + 2)
    ∧ (positive_energy X dp R L b t = t.offspring_energy → ¬ positive_accepted X dp R L b t)
    ∧ (negative_energy X dp R L b t = t.offspring_energy →
        ¬ negative_accepted X dp R L b t) := by
  have hp := positive_trial_gene X dp R L hL t g
  have hn := negative_trial_gene X dp R L hL t g
  rw [if_pos hg] at hp hn
  obtain ⟨p1, p2, -, -⟩ := gene_eq hp
  obtain ⟨n1, -, -, -⟩ := gene_eq hn
  have hi := iteration_gene K X dp R L b hL t g hg
  obtain ⟨-, -, -, f4, f5⟩ := iteration_fields K X dp R L b t
  rw [p2]
  refine ⟨p1, n1, ?_, ?_, ?_, ?_, ?_⟩
  · intro h1
    rw [if_pos h1] at hi f4 f5
    obtain ⟨-, -, g3, g4⟩ := gene_eq hi
    exact ⟨g4, g3, f5, f4⟩
  · intro h1 h2
    rw [if_neg h1] at hi f4 f5
    rw [if_pos h2] at hi f5
    obtain ⟨-, -, g3, g4⟩ := gene_eq hi
    exact ⟨g4, g3, f5, f4⟩
  · intro h1 h2
    rw [if_neg h1] at hi f4 f5
    rw [if_neg h2] at hi f5
    obtain ⟨-, -, g3, g4⟩ := gene_eq hi
    exact ⟨g4, g3, f5, f4⟩
  · intro heq hacc
    unfold positive_accepted at hacc
    rw [heq] at hacc
    exact lt_irrefl _ hacc
  · intro heq hacc
    unfold negative_accepted at hacc
    rw [heq] at hacc
    exact lt_irrefl _ hacc

/-- Witness for C13: one lane, seven genes, an evaluator that always returns -1 against
`offspring_energy = 0`: the positive trial is accepted and the new energy is -1. -/
theorem C13_iteration_update_witness :
    (iteration ⟨64, 2, 1 / 2⟩ ⟨fun _ _ => -1, sqrt_exact, map_angle_spec⟩
        ⟨10, 3, 7, 5, 80, 1 / 100, 1, 1, 4, 50⟩ ⟨0, fun _ _ => 3 / 4, fun _ _ => 0⟩ 1 1
        ⟨fun _ => 0, fun _ => 0, fun _ => 0, 1, 0, 0, 0, 0, fun _ => 0, 0, 1, 0⟩).offspring_energy
      = -1 :=
  ((C13_iteration_update ⟨64, 2, 1 / 2⟩ ⟨fun _ _ => -1, sqrt_exact, map_angle_spec⟩
      ⟨10, 3, 7, 5, 80, 1 / 100, 1, 1, 4, 50⟩ ⟨0, fun _ _ => 3 / 4, fun _ _ => 0⟩ 1 1
      ⟨fun _ => 0, fun _ => 0, fun _ => 0, 1, 0, 0, 0, 0, fun _ => 0, 0, 1, 0⟩ 0
      (by decide) (by decide)).2.2.1
    (by unfold positive_accepted positive_energy; norm_num)).2.2.1

/-! ### The adaptation rule and the streak counters -/

/-- The scalars when lane 0 reaches the adaptation of `rho`. -/
theorem before_adapt_fields (X : Externals) (dp : GpuDockparameters) (R : Draws)
    (L b : Nat) (t : Team) :
    (before_adapt X dp R L b t).rho = t.rho
    ∧ (before_adapt X dp R L b t).cons_succ
        = (if positive_accepted X dp R L b t ∨ negative_accepted X dp R L b t then
            t.cons_succ + 1 else 0)
    ∧ (before_adapt X dp R L b t).cons_fail
        = (if positive_accepted X dp R L b t ∨ negative_accepted X dp R L b t then 0
            else t.cons_fail + 1) := by
  have hp := scalars_eq (positive_trial_scalars X dp R L t)
  have hn := scalars_eq (negative_trial_scalars dp L (positive_trial X dp R L t))
  unfold before_adapt
  by_cases h1 : positive_accepted X dp R L b t
  · rw [if_pos h1, if_pos (Or.inl h1), if_pos (Or.inl h1)]
    obtain ⟨c1, c2, c3, -⟩ := scalars_eq
      (scalars_commit_pos L dp.num_of_genes (positive_trial X dp R L t))
    simp only [lane0_success]
    rw [c1, c2, hp.1, hp.2.1]
    simp [count_evaluation]
  · rw [if_neg h1]
    by_cases h2 : negative_accepted X dp R L b t
    · rw [if_pos h2, if_pos (Or.inr h2), if_pos (Or.inr h2)]
      obtain ⟨c1, c2, c3, -⟩ := scalars_eq
        (scalars_commit_neg L dp.num_of_genes (negative_trial dp L (positive_trial X dp R L t)))
      simp only [lane0_success]
      rw [c1, c2, hn.1, hn.2.1]
      simp only [count_evaluation]
      rw [hp.1, hp.2.1]
      simp [count_evaluation]
    · have hno : ¬ (positive_accepted X dp R L b t ∨ negative_accepted X dp R L b t) := by
        rintro (hx | hx)
        · exact h1 hx
        · exact h2 hx
      rw [if_neg h2, if_neg hno, if_neg hno]
      obtain ⟨c1, c2, c3, -⟩ := scalars_eq
        (scalars_decay L dp.num_of_genes (negative_trial dp L (positive_trial X dp R L t)))
      simp only [lane0_failure]
      rw [c1, c3, hn.1, hn.2.2.1]
      simp only [count_evaluation]
      rw [hp.1, hp.2.2.1]
      simp [count_evaluation]

/-- Lines 278-288 on `rho` and the two streak counters. -/
theorem lane0_adapt_rule (K : Consts) (dp : GpuDockparameters) (t : Team) :
    (lane0_adapt K dp t).rho
        = (if t.cons_succ ≥ dp.cons_limit then t.rho * K.LS_EXP_FACTOR
            else if t.cons_fail ≥ dp.cons_limit then t.rho * K.LS_CONT_FACTOR else t.rho)
    ∧ (lane0_adapt K dp t).cons_succ = (if t.cons_succ ≥ dp.cons_limit then 0 else t.cons_succ)
    ∧ (lane0_adapt K dp t).cons_fail
        = (if t.cons_succ ≥ dp.cons_limit then t.cons_fail
            else if t.cons_fail ≥ dp.cons_limit then 0 else t.cons_fail) := by
  unfold lane0_adapt
  simp only
  split_ifs <;> simp

/-- After `n` passes `rho` is a product of at most `iteration_cnt` factors, each the
expansion or the contraction factor. -/
theorem ls_after_rho_powers (K : Consts) (X : Externals) (dp : GpuDockparameters) (R : Draws)
    (L b : Nat) (stack : Team) (mem : Mem) (n : Nat) :
    ∃ a c : Nat, ((a + c : Nat) : Int) ≤ (ls_after K X dp R L b stack mem n).iteration_cnt
      ∧ (ls_after K X dp R L b stack mem n).rho
          = K.LS_EXP_FACTOR ^ a * K.LS_CONT_FACTOR ^ c := by
  induction n with
  | zero =>
    refine ⟨0, 0, ?_, ?_⟩
    · rw [ls_after_zero, (scalars_eq (ls_start_scalars K dp R L b stack mem)).2.2.2.1]
      simp [lane0_init]
    · rw [ls_after_zero, (scalars_eq (ls_start_scalars K dp R L b stack mem)).1]
      simp [lane0_init]
  | succ k ih =>
    obtain ⟨a, c, h1, h2⟩ := ih
    rw [ls_after_succ]
    by_cases hc : loop_continues dp (ls_after K X dp R L b stack mem k)
    · rw [if_pos hc, (iteration_streaks K X dp R L b _).1, (iteration_fields K X dp R L b _).1,
        h2]
      split_ifs
      · exact ⟨a + 1, c, by push_cast at h1 ⊢; omega, by ring⟩
      · exact ⟨a, c + 1, by push_cast at h1 ⊢; omega, by ring⟩
      · exact ⟨a, c, by omega, rfl⟩
      · exact ⟨a + 1, c, by push_cast at h1 ⊢; omega, by ring⟩
      · exact ⟨a, c + 1, by push_cast at h1 ⊢; omega, by ring⟩
      · exact ⟨a, c, by omega, rfl⟩
    · rw [if_neg hc]
      exact ⟨a, c, h1, h2⟩

/-- C14. Step-size adaptation rule of `gpu_perform_LS`: `rho` is 1 on entry to the loop; in a
pass of the loop body it is not changed before the adaptation at the end of the pass, where
the new value is `rho*LS_EXP_FACTOR` with `cons_succ` reset to 0 if `cons_succ >= cons_limit`,
else `rho*LS_CONT_FACTOR` with `cons_fail` reset to 0 if `cons_fail >= cons_limit`, else `rho`
unchanged. Hence after `k` iterations `rho = LS_EXP_FACTOR^a * LS_CONT_FACTOR^c` for naturals
`a`, `c` with `a + c <= k`. -/
theorem C14_step_size_adaptation (K : Consts) (X : Externals) (dp : GpuDockparameters)
    (R : Draws) (L b : Nat) (stack : Team) (mem : Mem) :
    (ls_start K dp R L b stack mem).rho = 1
    ∧ (∀ t : Team, (before_adapt X dp R L b t).rho = t.rho
        ∧ iteration K X dp R L b t = lane0_adapt K dp (before_adapt X dp R L b t))
    ∧ (∀ t : Team,
        (lane0_adapt K dp t).rho
            = (if t.cons_succ ≥ dp.cons_limit then t.rho * K.LS_EXP_FACTOR
                else if t.cons_fail ≥ dp.cons_limit then t.rho * K.LS_CONT_FACTOR else t.rho)
        ∧ (lane0_adapt K dp t).cons_succ
            = (if t.cons_succ ≥ dp.cons_limit then 0 else t.cons_succ)
        ∧ (lane0_adapt K dp t).cons_fail
            = (if t.cons_succ ≥ dp.cons_limit then t.cons_fail
                else if t.cons_fail ≥ dp.cons_limit then 0 else t.cons_fail))
    ∧ (∀ n : Nat, ∃ a c : Nat,
        ((a + c : Nat) : Int) ≤ (ls_after K X dp R L b stack mem n).iteration_cnt
        ∧ (ls_after K X dp R L b stack mem n).iteration_cnt ≤ n
        ∧ (ls_after K X dp R L b stack mem n).rho
            = K.LS_EXP_FACTOR ^ a * K.LS_CONT_FACTOR ^ c) := by
  refine ⟨?_, ?_, lane0_adapt_rule K dp, ?_⟩
  · rw [(scalars_eq (ls_start_scalars K dp R L b stack mem)).1]
    rfl
  · intro t
    exact ⟨(before_adapt_fields X dp R L b t).1, iteration_eq_adapt K X dp R L b t⟩
  · intro n
    obtain ⟨a, c, h1, h2⟩ := ls_after_rho_powers K X dp R L b stack mem n
    exact ⟨a, c, h1, (ls_after_counter K X dp R L b stack mem n).2.2.1, h2⟩

/-- The streak counters after `n` passes, for `cons_limit >= 1`. -/
theorem ls_after_streaks (K : Consts) (X : Externals) (dp : GpuDockparameters) (R : Draws)
    (L b : Nat) (stack : Team) (mem : Mem) (hlim : 1 ≤ dp.cons_limit) (n : Nat) :
    ((ls_after K X dp R L b stack mem n).cons_succ = 0
        ∨ (ls_after K X dp R L b stack mem n).cons_fail = 0)
    ∧ 0 ≤ (ls_after K X dp R L b stack mem n).cons_succ
    ∧ (ls_after K X dp R L b stack mem n).cons_succ < dp.cons_limit
    ∧ 0 ≤ (ls_after K X dp R L b stack mem n).cons_fail
    ∧ (ls_after K X dp R L b stack mem n).cons_fail < dp.cons_limit := by
  induction n with
  | zero =>
    rw [ls_after_zero]
    obtain ⟨-, e2, e3, -⟩ := scalars_eq (ls_start_scalars K dp R L b stack mem)
    have z2 : (lane0_init dp R b mem stack).cons_succ = 0 := rfl
    have z3 : (lane0_init dp R b mem stack).cons_fail = 0 := rfl
    rw [e2, e3, z2, z3]
    refine ⟨Or.inl rfl, le_refl _, by omega, le_refl _, by omega⟩
  | succ k ih =>
    rw [ls_after_succ]
    by_cases hc : loop_continues dp (ls_after K X dp R L b stack mem k)
    · rw [if_pos hc]
      obtain ⟨-, s2, s3⟩ := iteration_streaks K X dp R L b (ls_after K X dp R L b stack mem k)
      obtain ⟨-, i2, i3, i4, i5⟩ := ih
      rw [s2, s3]
      have hz : ¬ ((0 : Int) ≥ dp.cons_limit) := by omega
      simp only [hz, if_false]
      split_ifs <;> refine ⟨?_, ?_, ?_, ?_, ?_⟩ <;> omega
    · rw [if_neg hc]
      exact ih

/-- C17. Streak-counter invariant of `gpu_perform_LS`: for `cons_limit >= 1`, on entry to the
loop and at the end of every pass, at most one of `cons_succ` and `cons_fail` is non-zero and
both lie in `[0, cons_limit)`; and when lane 0 reaches the adaptation of `rho` in a pass, the
conditions for expansion (`cons_succ >= cons_limit`) and for contraction
(`cons_fail >= cons_limit`) never hold together. -/
theorem C17_streak_invariant (K : Consts) (X : Externals) (dp : GpuDockparameters) (R : Draws)
    (L b : Nat) (stack : Team) (mem : Mem) (n : Nat) (hlim : 1 ≤ dp.cons_limit) :
    ((ls_after K X dp R L b stack mem n).cons_succ = 0
        ∨ (ls_after K X dp R L b stack mem n).cons_fail = 0)
    ∧ 0 ≤ (ls_after K X dp R L b stack mem n).cons_succ
    ∧ (ls_after K X dp R L b stack mem n).cons_succ < dp.cons_limit
    ∧ 0 ≤ (ls_after K X dp R L b stack mem n).cons_fail
    ∧ (ls_after K X dp R L b stack mem n).cons_fail < dp.cons_limit
    ∧ ¬ ((before_adapt X dp R L b (ls_after K X dp R L b stack mem n)).cons_succ
            ≥ dp.cons_limit
          ∧ (before_adapt X dp R L b (ls_after K X dp R L b stack mem n)).cons_fail
            ≥ dp.cons_limit) := by
  obtain ⟨h1, h2, h3, h4, h5⟩ := ls_after_streaks K X dp R L b stack mem hlim n
  refine ⟨h1, h2, h3, h4, h5, ?_⟩
  obtain ⟨-, b2, b3⟩ := before_adapt_fields X dp R L b (ls_after K X dp R L b stack mem n)
  rw [b2, b3]
  split_ifs <;> omega

/-- Witness for C17: `cons_limit = 4`, a constant evaluator, after three passes. -/
theorem C17_streak_invariant_witness :
    (ls_after ⟨64, 2, 1 / 2⟩ ⟨fun _ _ => 0, fun x => x, fun x => x⟩
        ⟨10, 3, 7, 5, 80, 1 / 100, 1, 1, 4, 50⟩ ⟨0, fun _ _ => 0, fun _ _ => 0⟩ 1 1
        ⟨fun _ => 0, fun _ => 0, fun _ => 0, 0, 0, 0, 0, 0, fun _ => 0, 0, 0, 0⟩
        ⟨fun _ => 0, fun _ => 0, fun _ => 0⟩ 3).cons_fail < 4 :=
  (C17_streak_invariant ⟨64, 2, 1 / 2⟩ ⟨fun _ _ => 0, fun x => x, fun x => x⟩
    ⟨10, 3, 7, 5, 80, 1 / 100, 1, 1, 4, 50⟩ ⟨0, fun _ _ => 0, fun _ _ => 0⟩ 1 1
    ⟨fun _ => 0, fun _ => 0, fun _ => 0, 0, 0, 0, 0, 0, fun _ => 0, 0, 0, 0⟩
    ⟨fun _ => 0, fun _ => 0, fun _ => 0⟩ 3 (by decide)).2.2.2.2.1

/-! ### Deviate generation -/

/-- The deviate of a gene is the masked, signed step times the factor of its gene class. -/
theorem deviate_gene_eq_scale (X : Externals) (dp : GpuDockparameters) (rho u v : ℚ)
    (g : Nat) :
    deviate_gene X dp rho u v g
      = rho * (2 * u - 1) * (if v < 1 / X.sqrt (dp.num_of_genes : ℚ) then 1 else 0)
          * deviate_scale X dp g := by
  unfold deviate_gene deviate_scale
  simp only
  split_ifs <;> rfl

/-- C16. Deviate generation in `SWAT3` mode (at least one lane): for every gene
`g < num_of_genes` with draws `u` in `[0,1)` and `v`, `deviate[g] = rho*(2u-1)*mask*scale_g`
with `mask = 1` if `v < 1/sqrt(num_of_genes)` and `0` otherwise; so `deviate[g] = 0` whenever
`v >= 1/sqrt(num_of_genes)`, and for `rho >= 0` and a non-negative scale factor
`|deviate[g]| <= rho*scale_g`; `scale_g` is `base_dmov_mul_sqrt3` for `g < 3`. -/
theorem C16_deviate_generation (X : Externals) (dp : GpuDockparameters) (R : Draws) (L : Nat)
    (t : Team) (g : Nat) (hL : 1 ≤ L) (hg : g < dp.num_of_genes)
    (hu0 : 0 ≤ R.u t.iteration_cnt.toNat g) (hu1 : R.u t.iteration_cnt.toNat g < 1) :
    (positive_trial X dp R L t).genotype_deviate g
        = t.rho * (2 * R.u t.iteration_cnt.toNat g - 1)
            * (if R.v t.iteration_cnt.toNat g < 1 / X.sqrt (dp.num_of_genes : ℚ) then 1 else 0)
            * deviate_scale X dp g
    ∧ (R.v t.iteration_cnt.toNat g ≥ 1 / X.sqrt (dp.num_of_genes : ℚ) →
        (positive_trial X dp R L t).genotype_deviate g = 0)
    ∧ (0 ≤ t.rho → 0 ≤ deviate_scale X dp g →
        |(positive_trial X dp R L t).genotype_deviate g| ≤ t.rho * deviate_scale X dp g)
    ∧ (g < 3 → deviate_scale X dp g = dp.base_dmov_mul_sqrt3) := by
  rw [positive_trial_deviate X dp R L hL t g hg, deviate_gene_eq_scale]
  refine ⟨rfl, ?_, ?_, ?_⟩
  · intro hv
    have : ¬ R.v t.iteration_cnt.toNat g < 1 / X.sqrt (dp.num_of_genes : ℚ) := not_lt.mpr hv
    rw [if_neg this]
    ring
  · intro hrho hsc
    have hprod : 0 ≤ t.rho * deviate_scale X dp g := mul_nonneg hrho hsc
    have habs : |2 * R.u t.iteration_cnt.toNat g - 1| ≤ 1 := by
      rw [abs_le]
      constructor <;> linarith
    by_cases hv : R.v t.iteration_cnt.toNat g < 1 / X.sqrt (dp.num_of_genes : ℚ)
    · rw [if_pos hv]
      have hre : t.rho * (2 * R.u t.iteration_cnt.toNat g - 1) * 1 * deviate_scale X dp g
          = (t.rho * deviate_scale X dp g) * (2 * R.u t.iteration_cnt.toNat g - 1) := by ring
      rw [hre, abs_mul, abs_of_nonneg hprod]
      calc t.rho * deviate_scale X dp g * |2 * R.u t.iteration_cnt.toNat g - 1|
          ≤ t.rho * deviate_scale X dp g * 1 := mul_le_mul_of_nonneg_left habs hprod
        _ = t.rho * deviate_scale X dp g := by ring
    · rw [if_neg hv]
      simp only [mul_zero, zero_mul, abs_zero]
      exact hprod
  · intro h3
    unfold deviate_scale
    rw [if_pos h3]

/-- Witness for C16: 16 genes, 4 atoms, `rho = 1`, `u = 3/4`, `v = 0`: the translation gene 0
gets `1 * (1/2) * mask * base_dmov_mul_sqrt3`. -/
theorem C16_deviate_generation_witness :
    (positive_trial ⟨fun _ _ => 0, sqrt_exact, map_angle_spec⟩
        ⟨10, 3, 16, 4, 80, 1 / 100, 1, 1, 4, 50⟩ ⟨0, fun _ _ => 3 / 4, fun _ _ => 0⟩ 1
        ⟨fun _ => 0, fun _ => 0, fun _ => 0, 1, 0, 0, 0, 0, fun _ => 0, 0, 0, 0⟩).genotype_deviate 0
      = (1 : ℚ) * (2 * (3 / 4) - 1)
          * (if (0 : ℚ) < 1 / sqrt_exact ((16 : Nat) : ℚ) then 1 else 0)
          * deviate_scale ⟨fun _ _ => 0, sqrt_exact, map_angle_spec⟩
              ⟨10, 3, 16, 4, 80, 1 / 100, 1, 1, 4, 50⟩ 0 :=
  (C16_deviate_generation ⟨fun _ _ => 0, sqrt_exact, map_angle_spec⟩
    ⟨10, 3, 16, 4, 80, 1 / 100, 1, 1, 4, 50⟩ ⟨0, fun _ _ => 3 / 4, fun _ _ => 0⟩ 1
    ⟨fun _ => 0, fun _ => 0, fun _ => 0, 1, 0, 0, 0, 0, fun _ => 0, 0, 0, 0⟩ 0
    (by decide) (by decide) (by norm_num) (by norm_num)).1

/-! ### Consistency of the offspring energy with the offspring genotype -/

/-- After a pass in which a trial is accepted, `offspring_energy` is the energy of the
offspring genotype, for an evaluator that reads only the genes `< num_of_genes`. -/
theorem iteration_consistent_accept (K : Consts) (X : Externals) (dp : GpuDockparameters)
    (R : Draws) (L b : Nat) (hL : 1 ≤ L)
    (hE : ∀ (p q : Nat → ℚ) (r : Nat), (∀ k, k < dp.num_of_genes → p k = q k) →
      X.gpu_calc_energy p r = X.gpu_calc_energy q r)
    (t : Team)
    (hacc : positive_accepted X dp R L b t ∨ negative_accepted X dp R L b t) :
    (iteration K X dp R L b t).offspring_energy
      = X.gpu_calc_energy (iteration K X dp R L b t).offspring_genotype (run_id dp b) := by
  rw [(iteration_fields K X dp R L b t).2.2.2.2]
  by_cases h1 : positive_accepted X dp R L b t
  · rw [if_pos h1]
    unfold positive_energy
    apply hE
    intro k hk
    have hi := iteration_gene K X dp R L b hL t k hk
    rw [if_pos h1] at hi
    have hp := positive_trial_gene X dp R L hL t k
    rw [if_pos hk] at hp
    rw [(gene_eq hi).2.2.2, (gene_eq hp).1]
  · have h2 : negative_accepted X dp R L b t := by
      rcases hacc with h | h
      · exact absurd h h1
      · exact h
    rw [if_neg h1, if_pos h2]
    unfold negative_energy
    apply hE
    intro k hk
    have hi := iteration_gene K X dp R L b hL t k hk
    rw [if_neg h1, if_pos h2] at hi
    have hn := negative_trial_gene X dp R L hL t k
    rw [if_pos hk] at hn
    rw [(gene_eq hi).2.2.2, (gene_eq hn).1]

/-- A pass in which both trials are rejected keeps the offspring genes and the energy. -/
theorem iteration_reject_keeps (K : Consts) (X : Externals) (dp : GpuDockparameters)
    (R : Draws) (L b : Nat) (hL : 1 ≤ L) (t : Team)
    (h1 : ¬ positive_accepted X dp R L b t) (h2 : ¬ negative_accepted X dp R L b t) :
    (∀ k, k < dp.num_of_genes →
      (iteration K X dp R L b t).offspring_genotype k = t.offspring_genotype k)
    ∧ (iteration K X dp R L b t).offspring_energy = t.offspring_energy := by
  constructor
  · intro k hk
    have hi := iteration_gene K X dp R L b hL t k hk
    rw [if_neg h1, if_neg h2] at hi
    exact (gene_eq hi).2.2.2
  · rw [(iteration_fields K X dp R L b t).2.2.2.2, if_neg h1, if_neg h2]

/-- After `n` passes: either some trial was accepted and `offspring_energy` is the energy of
the offspring genotype, or none was and genotype and energy are the loaded ones. -/
theorem ls_after_consistency (K : Consts) (X : Externals) (dp : GpuDockparameters)
    (R : Draws) (L b : Nat) (stack : Team) (mem : Mem) (hL : 1 ≤ L)
    (hE : ∀ (p q : Nat → ℚ) (r : Nat), (∀ k, k < dp.num_of_genes → p k = q k) →
      X.gpu_calc_energy p r = X.gpu_calc_energy q r)
    (n : Nat) :
    ((∃ m, m < n ∧ loop_continues dp (ls_after K X dp R L b stack mem m)
          ∧ (positive_accepted X dp R L b (ls_after K X dp R L b stack mem m)
              ∨ negative_accepted X dp R L b (ls_after K X dp R L b stack mem m)))
        ∧ (ls_after K X dp R L b stack mem n).offspring_energy
            = X.gpu_calc_energy (ls_after K X dp R L b stack mem n).offspring_genotype
                (run_id dp b))
    ∨ ((∀ m, m < n → loop_continues dp (ls_after K X dp R L b stack mem m) →
          ¬ positive_accepted X dp R L b (ls_after K X dp R L b stack mem m)
          ∧ ¬ negative_accepted X dp R L b (ls_after K X dp R L b stack mem m))
        ∧ (∀ k, k < dp.num_of_genes →
            (ls_after K X dp R L b stack mem n).offspring_genotype k
              = mem.pMem_conformations_next
                  ((run_id dp b * dp.pop_size + select_entity dp b R.select)
                    * K.GENOTYPE_LENGTH_IN_GLOBMEM + k))
        ∧ (ls_after K X dp R L b stack mem n).offspring_energy
            = mem.pMem_energies_next
                (run_id dp b * dp.pop_size + select_entity dp b R.select)) := by
  induction n with
  | zero =>
    right
    refine ⟨fun m hm => absurd hm (Nat.not_lt_zero m), ?_, ?_⟩
    · intro k hk
      rw [ls_after_zero]
      exact ls_start_genotype K dp R L b hL stack mem k hk
    · rw [ls_after_zero]
      exact ls_start_offspring_energy K dp R L b stack mem
  | succ j ih =>
    rw [ls_after_succ]
    by_cases hc : loop_continues dp (ls_after K X dp R L b stack mem j)
    · rw [if_pos hc]
      by_cases hacc : positive_accepted X dp R L b (ls_after K X dp R L b stack mem j)
          ∨ negative_accepted X dp R L b (ls_after K X dp R L b stack mem j)
      · left
        exact ⟨⟨j, Nat.lt_succ_self j, hc, hacc⟩,
          iteration_consistent_accept K X dp R L b hL hE _ hacc⟩
      · have h1 : ¬ positive_accepted X dp R L b (ls_after K X dp R L b stack mem j) :=
          fun h => hacc (Or.inl h)
        have h2 : ¬ negative_accepted X dp R L b (ls_after K X dp R L b stack mem j) :=
          fun h => hacc (Or.inr h)
        obtain ⟨k1, k2⟩ := iteration_reject_keeps K X dp R L b hL _ h1 h2
        rcases ih with ⟨⟨m, hm, hcm, haccm⟩, he⟩ | ⟨hnone, hg, he⟩
        · left
          refine ⟨⟨m, Nat.lt_succ_of_lt hm, hcm, haccm⟩, ?_⟩
          rw [k2, he]
          apply hE
          intro k hk
          rw [k1 k hk]
        · right
          refine ⟨?_, ?_, ?_⟩
          · intro m hm hcm
            rcases Nat.lt_succ_iff_lt_or_eq.mp hm with hlt | heq
            · exact hnone m hlt hcm
            · subst heq
              exact ⟨h1, h2⟩
          · intro k hk
            rw [k1 k hk, hg k hk]
          · rw [k2, he]
    · rw [if_neg hc]
      rcases ih with ⟨⟨m, hm, hcm, haccm⟩, he⟩ | ⟨hnone, hg, he⟩
      · left
        exact ⟨⟨m, Nat.lt_succ_of_lt hm, hcm, haccm⟩, he⟩
      · right
        refine ⟨?_, hg, he⟩
        intro m hm hcm
        rcases Nat.lt_succ_iff_lt_or_eq.mp hm with hlt | heq
        · exact hnone m hlt hcm
        · subst heq
          exact absurd hcm hc

/-- C18. Energy/genotype consistency in `gpu_perform_LS` (at least one lane, an evaluator
that is a function of the genes `< num_of_genes` and the run): after `n` passes of the loop, if
some trial of the episode has been accepted then `offspring_energy` is the evaluator's energy
of `offspring_genotype`; if no trial has been accepted then `offspring_genotype` is the
genotype loaded from the population buffer and `offspring_energy` the energy loaded from
`pMem_energies_next`. So the energy written back is the energy of the final (pre-wrap)
offspring genotype or the entity's prior energy. -/
theorem C18_energy_genotype_consistency (K : Consts) (X : Externals)
    (dp : GpuDockparameters) (R : Draws) (L b : Nat) (stack : Team) (mem : Mem) (n : Nat)
    (hL : 1 ≤ L)
    (hE : ∀ (p q : Nat → ℚ) (r : Nat), (∀ k, k < dp.num_of_genes → p k = q k) →
      X.gpu_calc_energy p r = X.gpu_calc_energy q r) :
    ((∃ m, m < n ∧ loop_continues dp (ls_after K X dp R L b stack mem m)
          ∧ (positive_accepted X dp R L b (ls_after K X dp R L b stack mem m)
              ∨ negative_accepted X dp R L b (ls_after K X dp R L b stack mem m))) →
        (ls_after K X dp R L b stack mem n).offspring_energy
          = X.gpu_calc_energy (ls_after K X dp R L b stack mem n).offspring_genotype
              (run_id dp b))
    ∧ ((∀ m, m < n → loop_continues dp (ls_after K X dp R L b stack mem m) →
          ¬ positive_accepted X dp R L b (ls_after K X dp R L b stack mem m)
          ∧ ¬ negative_accepted X dp R L b (ls_after K X dp R L b stack mem m)) →
        (∀ k, k < dp.num_of_genes →
            (ls_after K X dp R L b stack mem n).offspring_genotype k
              = mem.pMem_conformations_next
                  ((run_id dp b * dp.pop_size + select_entity dp b R.select)
                    * K.GENOTYPE_LENGTH_IN_GLOBMEM + k))
        ∧ (ls_after K X dp R L b stack mem n).offspring_energy
            = mem.pMem_energies_next
                (run_id dp b * dp.pop_size + select_entity dp b R.select))
    ∧ ((episode K X dp R L b stack mem).2.pMem_energies_next
            (run_id dp b * dp.pop_size + select_entity dp b R.select)
          = X.gpu_calc_energy (ls_final K X dp R L b stack mem).offspring_genotype
              (run_id dp b)
        ∨ (episode K X dp R L b stack mem).2.pMem_energies_next
            (run_id dp b * dp.pop_size + select_entity dp b R.select)
          = mem.pMem_energies_next
              (run_id dp b * dp.pop_size + select_entity dp b R.select)) := by
  refine ⟨?_, ?_, ?_⟩
  · rintro ⟨m, hm, hcm, haccm⟩
    rcases ls_after_consistency K X dp R L b stack mem hL hE n with ⟨-, he⟩ | ⟨hnone, -, -⟩
    · exact he
    · obtain ⟨h1, h2⟩ := hnone m hm hcm
      rcases haccm with h | h
      · exact absurd h h1
      · exact absurd h h2
  · intro hnone
    rcases ls_after_consistency K X dp R L b stack mem hL hE n with
      ⟨⟨m, hm, hcm, haccm⟩, -⟩ | ⟨-, hg, he⟩
    · obtain ⟨h1, h2⟩ := hnone m hm hcm
      rcases haccm with h | h
      · exact absurd h h1
      · exact absurd h h2
    · exact ⟨hg, he⟩
  · rw [episode_energies, Function.update_same]
    rcases ls_after_consistency K X dp R L b stack mem hL hE dp.max_num_of_iters.toNat with
      ⟨-, he⟩ | ⟨-, -, he⟩
    · left
      exact he
    · right
      exact he

/-- Witness for C18: one lane, seven genes, the evaluator "minus gene 0", draws `u = 3/4`,
`v = 0`; the first pass accepts its positive trial, so after one pass the offspring energy is
the energy of the offspring genotype. -/
theorem C18_energy_genotype_consistency_witness :
    (ls_after ⟨64, 2, 1 / 2⟩ ⟨fun p _ => - p 0, sqrt_exact, map_angle_spec⟩
        ⟨10, 3, 16, 4, 80, 1 / 100, 1, 1, 4, 50⟩ ⟨0, fun _ _ => 3 / 4, fun _ _ => 0⟩ 1 1
        ⟨fun _ => 0, fun _ => 0, fun _ => 0, 0, 0, 0, 0, 0, fun _ => 0, 0, 0, 0⟩
        ⟨fun _ => 0, fun _ => 0, fun _ => 0⟩ 1).offspring_energy
      = - (ls_after ⟨64, 2, 1 / 2⟩ ⟨fun p _ => - p 0, sqrt_exact, map_angle_spec⟩
        ⟨10, 3, 16, 4, 80, 1 / 100, 1, 1, 4, 50⟩ ⟨0, fun _ _ => 3 / 4, fun _ _ => 0⟩ 1 1
        ⟨fun _ => 0, fun _ => 0, fun _ => 0, 0, 0, 0, 0, 0, fun _ => 0, 0, 0, 0⟩
        ⟨fun _ => 0, fun _ => 0, fun _ => 0⟩ 1).offspring_genotype 0 := by
  have hs := scalars_eq (ls_start_scalars ⟨64, 2, 1 / 2⟩
    ⟨10, 3, 16, 4, 80, 1 / 100, 1, 1, 4, 50⟩ ⟨0, fun _ _ => 3 / 4, fun _ _ => 0⟩ 1 1
    ⟨fun _ => 0, fun _ => 0, fun _ => 0, 0, 0, 0, 0, 0, fun _ => 0, 0, 0, 0⟩
    ⟨fun _ => 0, fun _ => 0, fun _ => 0⟩)
  obtain ⟨e1, -, -, e4, -, e6, -⟩ := hs
  simp only [lane0_init] at e1 e4 e6
  have h16 : sqrt_exact 16 = 4 := by
    have h1 : ((16 : ℚ)).num = 16 := by norm_num
    have h2 : ((16 : ℚ)).den = 1 := by norm_num
    have h3 : Nat.sqrt 16 = 4 := by norm_num [Nat.sqrt]
    have h4 : Nat.sqrt 1 = 1 := by norm_num [Nat.sqrt]
    unfold sqrt_exact
    rw [h1, h2, h4]
    simp [h3]
  refine (C18_energy_genotype_consistency ⟨64, 2, 1 / 2⟩
    ⟨fun p _ => - p 0, sqrt_exact, map_angle_spec⟩
    ⟨10, 3, 16, 4, 80, 1 / 100, 1, 1, 4, 50⟩ ⟨0, fun _ _ => 3 / 4, fun _ _ => 0⟩ 1 1
    ⟨fun _ => 0, fun _ => 0, fun _ => 0, 0, 0, 0, 0, 0, fun _ => 0, 0, 0, 0⟩
    ⟨fun _ => 0, fun _ => 0, fun _ => 0⟩ 1 (by decide) ?_).1 ⟨0, by decide, ?_, Or.inl ?_⟩
  · intro p q r hpq
    simp only
    rw [hpq 0 (by decide)]
  · rw [ls_after_zero]
    unfold loop_continues
    rw [e1, e4]
    norm_num
  · rw [ls_after_zero]
    unfold positive_accepted positive_energy
    rw [e6]
    have hp := positive_trial_gene ⟨fun p _ => - p 0, sqrt_exact, map_angle_spec⟩
      ⟨10, 3, 16, 4, 80, 1 / 100, 1, 1, 4, 50⟩ ⟨0, fun _ _ => 3 / 4, fun _ _ => 0⟩ 1
      (by decide)
      (ls_start ⟨64, 2, 1 / 2⟩ ⟨10, 3, 16, 4, 80, 1 / 100, 1, 1, 4, 50⟩
        ⟨0, fun _ _ => 3 / 4, fun _ _ => 0⟩ 1 1
        ⟨fun _ => 0, fun _ => 0, fun _ => 0, 0, 0, 0, 0, 0, fun _ => 0, 0, 0, 0⟩
        ⟨fun _ => 0, fun _ => 0, fun _ => 0⟩) 0
    rw [if_pos (by decide)] at hp
    have hl := load_cell ⟨64, 2, 1 / 2⟩ ⟨10, 3, 16, 4, 80, 1 / 100, 1, 1, 4, 50⟩ 1
      ⟨fun _ => 0, fun _ => 0, fun _ => 0⟩ 1 (by decide)
      (lane0_init ⟨10, 3, 16, 4, 80, 1 / 100, 1, 1, 4, 50⟩
        ⟨0, fun _ _ => 3 / 4, fun _ _ => 0⟩ 1 ⟨fun _ => 0, fun _ => 0, fun _ => 0⟩
        ⟨fun _ => 0, fun _ => 0, fun _ => 0, 0, 0, 0, 0, 0, fun _ => 0, 0, 0, 0⟩) 0 (by decide)
    have ho : (ls_start ⟨64, 2, 1 / 2⟩ ⟨10, 3, 16, 4, 80, 1 / 100, 1, 1, 4, 50⟩
        ⟨0, fun _ _ => 3 / 4, fun _ _ => 0⟩ 1 1
        ⟨fun _ => 0, fun _ => 0, fun _ => 0, 0, 0, 0, 0, 0, fun _ => 0, 0, 0, 0⟩
        ⟨fun _ => 0, fun _ => 0, fun _ => 0⟩).offspring_genotype 0 = 0 := hl.1
    have hb : (ls_start ⟨64, 2, 1 / 2⟩ ⟨10, 3, 16, 4, 80, 1 / 100, 1, 1, 4, 50⟩
        ⟨0, fun _ _ => 3 / 4, fun _ _ => 0⟩ 1 1
        ⟨fun _ => 0, fun _ => 0, fun _ => 0, 0, 0, 0, 0, 0, fun _ => 0, 0, 0, 0⟩
        ⟨fun _ => 0, fun _ => 0, fun _ => 0⟩).genotype_bias 0 = 0 := hl.2
    simp only
    rw [(gene_eq hp).1, ho, hb, e1, e4]
    simp only [deviate_gene, Nat.cast_ofNat, h16]
    norm_num

/-! ### Round-robin distribution of the genes over the lanes -/

/-- The trace of a lane's loop started with a non-empty log. -/
theorem geneLoop_log (L G : Nat) (fuel : Nat) : ∀ (g : Nat) (acc : List Nat),
    geneLoop L G (fun g acc => acc ++ [g]) fuel g acc
      = acc ++ geneLoop L G (fun g acc => acc ++ [g]) fuel g [] := by
  induction fuel with
  | zero => intro g acc; simp [geneLoop]
  | succ n ih =>
    intro g acc
    by_cases hg : g < G
    · rw [geneLoop, geneLoop]
      simp only [hg, if_true]
      rw [ih (g + L) (acc ++ [g]), ih (g + L) ([] ++ [g])]
      simp
    · rw [geneLoop, geneLoop]
      simp [hg]

/-- The loop of a lane applies its body to the genes of its trace, in order. -/
theorem geneLoop_trace {σ : Type} (L G : Nat) (body : Nat → σ → σ) (fuel : Nat) :
    ∀ (g : Nat) (s : σ),
      geneLoop L G body fuel g s
        = (geneLoop L G (fun g acc => acc ++ [g]) fuel g []).foldl (fun acc g => body g acc) s := by
  induction fuel with
  | zero => intro g s; simp [geneLoop]
  | succ n ih =>
    intro g s
    by_cases hg : g < G
    · rw [geneLoop, geneLoop]
      simp only [hg, if_true]
      rw [geneLoop_log L G n (g + L) ([] ++ [g]), ih (g + L) (body g s)]
      simp
    · rw [geneLoop, geneLoop]
      simp [hg]

/-- How often lane `idx < L` visits the gene index `k`: once if `k < G` and `k % L = idx`,
never otherwise. -/
theorem lane_visits_count (L G idx : Nat) (hL : 1 ≤ L) (hidx : idx < L) (k : Nat) :
    List.count k (lane_visits L G idx) = if k < G ∧ k % L = idx then 1 else 0 := by
  have h := geneLoop_cell (fun (l : List Nat) (i : Nat) => List.count i l)
    (fun (_ : Nat) (c : Nat) => c + 1) L G hL (fun g acc => acc ++ [g])
    (by
      intro g _ l i
      by_cases hi : i = g
      · subst hi
        simp [List.count_append]
      · have hne : ¬ (g = i) := fun hx => hi hx.symm
        simp [List.count_append, List.count_singleton, hi, hne])
    G idx [] k (by omega)
  unfold lane_visits
  simp only at h
  rw [h]
  have hmod : idx % L = idx := Nat.mod_eq_of_lt hidx
  have hle : k % L ≤ k := Nat.mod_le k L
  rw [hmod]
  by_cases hc : k < G ∧ k % L = idx
  · have hc2 : idx ≤ k ∧ k < G ∧ k % L = idx := ⟨by omega, hc.1, hc.2⟩
    rw [if_pos hc, if_pos hc2]
    simp
  · have hc2 : ¬ (idx ≤ k ∧ k < G ∧ k % L = idx) := fun hx => hc ⟨hx.2.1, hx.2.2⟩
    rw [if_neg hc, if_neg hc2]
    simp

/-- Two team states with the same gene arrays and the same scalars are equal. -/
theorem team_ext {t t' : Team} (hg : ∀ k, t.gene k = t'.gene k) (hs : t.scalars = t'.scalars) :
    t = t' := by
  obtain ⟨h1, h2, h3, h4, h5, h6, h7, h8⟩ := scalars_eq hs
  cases t
  cases t'
  simp only [Team.gene, Prod.mk.injEq] at hg
  simp only at h1 h2 h3 h4 h5 h6 h7 h8
  simp only [Team.mk.injEq]
  refine ⟨funext fun k => (hg k).1, funext fun k => (hg k).2.1, funext fun k => (hg k).2.2.1,
    h1, h2, h3, h4, h5, funext fun k => (hg k).2.2.2, h6, h7, h8⟩

theorem gene_load (K : Consts) (dp : GpuDockparameters) (b : Nat) (mem : Mem) (L : Nat)
    (hL : 1 ≤ L) (t : Team) (k : Nat) :
    (perGene L dp.num_of_genes (load_body K dp b mem) t).gene k
      = if k < dp.num_of_genes then
          (t.genotype_candidate k, t.genotype_deviate k, 0,
            mem.pMem_conformations_next (offset K dp b t + k))
        else t.gene k := by
  have h := perGene_cell
    (fun (x : Team) (i : Nat) => (x.gene i, x.entity_id))
    (fun (g : Nat) (c : (ℚ × ℚ × ℚ × ℚ) × Nat) =>
      ((c.1.1, c.1.2.1, (0 : ℚ),
        mem.pMem_conformations_next
          ((run_id dp b * dp.pop_size + c.2) * K.GENOTYPE_LENGTH_IN_GLOBMEM + g)), c.2))
    L dp.num_of_genes hL (load_body K dp b mem)
    (by
      intro g _ x i
      by_cases hi : i = g
      · subst hi
        simp [load_body, offset, Team.gene]
      · simp [load_body, offset, Team.gene, Function.update_noteq hi, hi])
    t k
  by_cases hk : k < dp.num_of_genes
  · simp only [hk, if_true, Prod.mk.injEq] at h
    rw [if_pos hk]
    exact h.1
  · simp only [hk, if_false, Prod.mk.injEq] at h
    rw [if_neg hk]
    exact h.1

/-! Each per-gene phase gives the same team state with `L >= 1` lanes as with one lane. -/

theorem lanes_load (K : Consts) (dp : GpuDockparameters) (b : Nat) (mem : Mem) (L : Nat)
    (hL : 1 ≤ L) (t : Team) :
    perGene L dp.num_of_genes (load_body K dp b mem) t
      = perGene 1 dp.num_of_genes (load_body K dp b mem) t :=
  team_ext
    (fun k => by rw [gene_load K dp b mem L hL, gene_load K dp b mem 1 (le_refl 1)])
    (by rw [scalars_load, scalars_load])

theorem lanes_deviate (X : Externals) (dp : GpuDockparameters) (R : Draws) (L : Nat)
    (hL : 1 ≤ L) (t : Team) :
    perGene L dp.num_of_genes (deviate_body X dp R) t
      = perGene 1 dp.num_of_genes (deviate_body X dp R) t :=
  team_ext
    (fun k => by rw [gene_deviate X dp R L hL, gene_deviate X dp R 1 (le_refl 1)])
    (by rw [scalars_deviate, scalars_deviate])

theorem lanes_candidate_pos (L G : Nat) (hL : 1 ≤ L) (t : Team) :
    perGene L G candidate_pos_body t = perGene 1 G candidate_pos_body t :=
  team_ext
    (fun k => by rw [gene_candidate_pos L G hL, gene_candidate_pos 1 G (le_refl 1)])
    (by rw [scalars_candidate_pos, scalars_candidate_pos])

theorem lanes_candidate_neg (L G : Nat) (hL : 1 ≤ L) (t : Team) :
    perGene L G candidate_neg_body t = perGene 1 G candidate_neg_body t :=
  team_ext
    (fun k => by rw [gene_candidate_neg L G hL, gene_candidate_neg 1 G (le_refl 1)])
    (by rw [scalars_candidate_neg, scalars_candidate_neg])

theorem lanes_commit_pos (L G : Nat) (hL : 1 ≤ L) (t : Team) :
    perGene L G commit_pos_body t = perGene 1 G commit_pos_body t :=
  team_ext
    (fun k => by rw [gene_commit_pos L G hL, gene_commit_pos 1 G (le_refl 1)])
    (by rw [scalars_commit_pos, scalars_commit_pos])

theorem lanes_commit_neg (L G : Nat) (hL : 1 ≤ L) (t : Team) :
    perGene L G commit_neg_body t = perGene 1 G commit_neg_body t :=
  team_ext
    (fun k => by rw [gene_commit_neg L G hL, gene_commit_neg 1 G (le_refl 1)])
    (by rw [scalars_commit_neg, scalars_commit_neg])

theorem lanes_decay (L G : Nat) (hL : 1 ≤ L) (t : Team) :
    perGene L G decay_body t = perGene 1 G decay_body t :=
  team_ext
    (fun k => by rw [gene_decay L G hL, gene_decay 1 G (le_refl 1)])
    (by rw [scalars_decay, scalars_decay])

theorem writeback_team_gene (K : Consts) (X : Externals) (dp : GpuDockparameters) (L b : Nat)
    (hL : 1 ≤ L) (s : Team × Mem) (k : Nat) :
    (perGene L dp.num_of_genes (writeback_body K X dp b) s).1.gene k
      = if k < dp.num_of_genes then
          (s.1.genotype_candidate k, s.1.genotype_deviate k, s.1.genotype_bias k,
            if k ≥ 3 then X.map_angle (s.1.offspring_genotype k) else s.1.offspring_genotype k)
        else s.1.gene k :=
  perGene_cell (fun (x : Team × Mem) (i : Nat) => x.1.gene i)
    (fun (g : Nat) (c : ℚ × ℚ × ℚ × ℚ) =>
      (c.1, c.2.1, c.2.2.1, if g ≥ 3 then X.map_angle c.2.2.2 else c.2.2.2))
    L dp.num_of_genes hL (writeback_body K X dp b)
    (by
      intro g _ x i
      by_cases hi : i = g
      · subst hi
        by_cases h3 : i ≥ 3
        · simp [writeback_body, Team.gene, h3]
        · simp [writeback_body, Team.gene, h3]
      · by_cases h3 : g ≥ 3
        · simp [writeback_body, Team.gene, h3, Function.update_noteq hi, hi]
        · simp [writeback_body, Team.gene, h3, hi])
    s k

theorem writeback_team_scalars (K : Consts) (X : Externals) (dp : GpuDockparameters)
    (L b : Nat) (s : Team × Mem) :
    (perGene L dp.num_of_genes (writeback_body K X dp b) s).1.scalars = s.1.scalars :=
  perGene_preserve (fun x : Team × Mem => x.1.scalars) L dp.num_of_genes
    (writeback_body K X dp b)
    (by
      intro g _ x
      unfold writeback_body
      simp only
      split_ifs <;> rfl)
    s

/-- The write-back phase gives the same state with `L >= 1` lanes as with one lane. -/
theorem lanes_writeback (K : Consts) (X : Externals) (dp : GpuDockparameters) (L b : Nat)
    (hL : 1 ≤ L) (s : Team × Mem) :
    perGene L dp.num_of_genes (writeback_body K X dp b) s
      = perGene 1 dp.num_of_genes (writeback_body K X dp b) s := by
  have hteam : (perGene L dp.num_of_genes (writeback_body K X dp b) s).1
      = (perGene 1 dp.num_of_genes (writeback_body K X dp b) s).1 :=
    team_ext
      (fun k => by
        rw [writeback_team_gene K X dp L b hL, writeback_team_gene K X dp 1 b (le_refl 1)])
      (by rw [writeback_team_scalars, writeback_team_scalars])
  have hconf : (perGene L dp.num_of_genes (writeback_body K X dp b) s).2.pMem_conformations_next
      = (perGene 1 dp.num_of_genes (writeback_body K X dp b) s).2.pMem_conformations_next := by
    funext c
    by_cases hc : ∃ k, k < dp.num_of_genes ∧ c = offset K dp b s.1 + k
    · obtain ⟨k, hk, rfl⟩ := hc
      rw [writeback_cell K X dp L b hL s k hk, writeback_cell K X dp 1 b (le_refl 1) s k hk]
    · have hfr : ∀ g, g < dp.num_of_genes → c ≠ offset K dp b s.1 + g :=
        fun g hg heq => hc ⟨g, hg, heq⟩
      rw [writeback_frame K X dp L b s c hfr, writeback_frame K X dp 1 b s c hfr]
  have hen := (writeback_preserves K X dp L b s).1.trans (writeback_preserves K X dp 1 b s).1.symm
  have hev := (writeback_preserves K X dp L b s).2.trans (writeback_preserves K X dp 1 b s).2.symm
  have hmem : (perGene L dp.num_of_genes (writeback_body K X dp b) s).2
      = (perGene 1 dp.num_of_genes (writeback_body K X dp b) s).2 := by
    generalize (perGene L dp.num_of_genes (writeback_body K X dp b) s).2 = m1 at hconf hen hev ⊢
    generalize (perGene 1 dp.num_of_genes (writeback_body K X dp b) s).2 = m2 at hconf hen hev ⊢
    cases m1
    cases m2
    simp only at hconf hen hev
    simp only [Mem.mk.injEq]
    exact ⟨hconf, hen, hev⟩
  exact Prod.ext hteam hmem

theorem lanes_positive_trial (X : Externals) (dp : GpuDockparameters) (R : Draws) (L : Nat)
    (hL : 1 ≤ L) (t : Team) : positive_trial X dp R L t = positive_trial X dp R 1 t := by
  unfold positive_trial
  rw [lanes_deviate X dp R L hL, lanes_candidate_pos L dp.num_of_genes hL]

theorem lanes_negative_trial (dp : GpuDockparameters) (L : Nat) (hL : 1 ≤ L) (t : Team) :
    negative_trial dp L t = negative_trial dp 1 t := by
  unfold negative_trial
  rw [lanes_candidate_neg L dp.num_of_genes hL]

theorem lanes_iteration (K : Consts) (X : Externals) (dp : GpuDockparameters) (R : Draws)
    (L b : Nat) (hL : 1 ≤ L) (t : Team) :
    iteration K X dp R L b t = iteration K X dp R 1 b t := by
  unfold iteration
  simp only [lanes_positive_trial X dp R L hL, lanes_negative_trial dp L hL,
    lanes_commit_pos L dp.num_of_genes hL, lanes_commit_neg L dp.num_of_genes hL,
    lanes_decay L dp.num_of_genes hL]

theorem lanes_while_loop (K : Consts) (X : Externals) (dp : GpuDockparameters) (R : Draws)
    (L b : Nat) (hL : 1 ≤ L) (fuel : Nat) : ∀ t : Team,
    while_loop K X dp R L b fuel t = while_loop K X dp R 1 b fuel t := by
  induction fuel with
  | zero => intro t; rfl
  | succ n ih =>
    intro t
    rw [while_loop, while_loop, lanes_iteration K X dp R L b hL, ih]

/-- The whole episode gives the same result with `L >= 1` lanes as with one lane. -/
theorem lanes_episode (K : Consts) (X : Externals) (dp : GpuDockparameters) (R : Draws)
    (L b : Nat) (hL : 1 ≤ L) (stack : Team) (mem : Mem) :
    episode K X dp R L b stack mem = episode K X dp R 1 b stack mem := by
  have hfin : ls_final K X dp R L b stack mem = ls_final K X dp R 1 b stack mem := by
    unfold ls_final ls_after ls_start
    rw [lanes_while_loop K X dp R L b hL, lanes_load K dp b mem L hL]
  unfold episode
  simp only
  rw [hfin, lanes_writeback K X dp L b hL]

/-- C19. Round-robin gene distribution in `gpu_perform_LS`: for every lane count `L >= 1`
(the loop stride is the lane count) and every gene count `G`, the per-gene loop of a lane
applies its body to exactly the gene indices of the lane's trace; lane `idx < L` visits the
gene index `k` once if `k < G` and `k mod L = idx` and never otherwise, so every gene `< G`
is visited by exactly one lane, lane `k mod L`, and no index `>= G` is visited; therefore, for
the same draws per gene and the same evaluator, the episode's result with `L` lanes equals its
result with a single lane. -/
theorem C19_round_robin (K : Consts) (X : Externals) (dp : GpuDockparameters) (R : Draws)
    (L b : Nat) (stack : Team) (mem : Mem) (hL : 1 ≤ L) :
    (∀ (body : Nat → Team → Team) (G idx : Nat) (t : Team),
        geneLoop L G body G idx t = (lane_visits L G idx).foldl (fun acc g => body g acc) t)
    ∧ (∀ (body : Nat → Team × Mem → Team × Mem) (G idx : Nat) (s : Team × Mem),
        geneLoop L G body G idx s = (lane_visits L G idx).foldl (fun acc g => body g acc) s)
    ∧ (∀ G idx k : Nat, idx < L →
        List.count k (lane_visits L G idx) = if k < G ∧ k % L = idx then 1 else 0)
    ∧ episode K X dp R L b stack mem = episode K X dp R 1 b stack mem := by
  refine ⟨?_, ?_, ?_, lanes_episode K X dp R L b hL stack mem⟩
  · intro body G idx t
    exact geneLoop_trace L G body G idx t
  · intro body G idx s
    exact geneLoop_trace L G body G idx s
  · intro G idx k hidx
    exact lane_visits_count L G idx hL hidx k

/-- Witness for C19: three lanes and seven genes; lane 1 visits gene 4 once, and the episode
with three lanes equals the episode with one lane. -/
theorem C19_round_robin_witness :
    List.count 4 (lane_visits 3 7 1) = 1
    ∧ episode ⟨64, 2, 1 / 2⟩ ⟨fun p _ => - p 0, sqrt_exact, map_angle_spec⟩
        ⟨10, 3, 7, 5, 80, 1 / 100, 1, 1, 4, 50⟩ ⟨0, fun _ _ => 3 / 4, fun _ _ => 0⟩ 3 1
        ⟨fun _ => 0, fun _ => 0, fun _ => 0, 0, 0, 0, 0, 0, fun _ => 0, 0, 0, 0⟩
        ⟨fun _ => 0, fun _ => 0, fun _ => 0⟩
      = episode ⟨64, 2, 1 / 2⟩ ⟨fun p _ => - p 0, sqrt_exact, map_angle_spec⟩
        ⟨10, 3, 7, 5, 80, 1 / 100, 1, 1, 4, 50⟩ ⟨0, fun _ _ => 3 / 4, fun _ _ => 0⟩ 1 1
        ⟨fun _ => 0, fun _ => 0, fun _ => 0, 0, 0, 0, 0, 0, fun _ => 0, 0, 0, 0⟩
        ⟨fun _ => 0, fun _ => 0, fun _ => 0⟩ := by
  have h := C19_round_robin ⟨64, 2, 1 / 2⟩ ⟨fun p _ => - p 0, sqrt_exact, map_angle_spec⟩
    ⟨10, 3, 7, 5, 80, 1 / 100, 1, 1, 4, 50⟩ ⟨0, fun _ _ => 3 / 4, fun _ _ => 0⟩ 3 1
    ⟨fun _ => 0, fun _ => 0, fun _ => 0, 0, 0, 0, 0, 0, fun _ => 0, 0, 0, 0⟩
    ⟨fun _ => 0, fun _ => 0, fun _ => 0⟩ (by decide)
  refine ⟨?_, h.2.2.2⟩
  rw [h.2.2.1 7 1 4 (by decide)]
  decide

/-! ### Trials whose energy is NaN -/

theorem positive_trial_replace_nan (X : Externals) (energy : (Nat → ℚ) → Nat → FloatEnergy)
    (s : TeamNan) (dp : GpuDockparameters) (R : Draws) (L : Nat) (t : Team) :
    positive_trial (replace_nan X energy s) dp R L t = positive_trial X dp R L t := rfl

theorem not_lt_nan (e : FloatEnergy) : ¬ e.lt FloatEnergy.nan := by
  cases e <;> exact fun h => h

theorem nan_not_lt (x : FloatEnergy) : ¬ FloatEnergy.nan.lt x := by
  cases x <;> exact fun h => h

theorem replace_nan_positive_accepted (X : Externals)
    (energy : (Nat → ℚ) → Nat → FloatEnergy) (dp : GpuDockparameters) (R : Draws)
    (L b : Nat) (s : TeamNan) :
    positive_accepted (replace_nan X energy s) dp R L b s.team
      ↔ (energy (positive_trial X dp R L s.team).genotype_candidate (run_id dp b)).lt
          s.offspring_energy := by
  unfold positive_accepted positive_energy TeamNan.offspring_energy
  rw [positive_trial_replace_nan]
  cases hf : s.energy_is_nan with
  | true =>
    have := not_lt_nan (energy (positive_trial X dp R L s.team).genotype_candidate (run_id dp b))
    simp [replace_nan, hf, this]
  | false =>
    cases hp : energy (positive_trial X dp R L s.team).genotype_candidate (run_id dp b) with
    | nan => simp [replace_nan, hf, hp, FloatEnergy.lt]
    | num v => simp [replace_nan, hf, hp, FloatEnergy.lt]

theorem replace_nan_negative_accepted (X : Externals)
    (energy : (Nat → ℚ) → Nat → FloatEnergy) (dp : GpuDockparameters) (R : Draws)
    (L b : Nat) (s : TeamNan) :
    negative_accepted (replace_nan X energy s) dp R L b s.team
      ↔ (energy (negative_trial dp L (positive_trial X dp R L s.team)).genotype_candidate
            (run_id dp b)).lt s.offspring_energy := by
  unfold negative_accepted negative_energy TeamNan.offspring_energy
  rw [positive_trial_replace_nan]
  cases hf : s.energy_is_nan with
  | true =>
    have := not_lt_nan
      (energy (negative_trial dp L (positive_trial X dp R L s.team)).genotype_candidate
        (run_id dp b))
    simp [replace_nan, hf, this]
  | false =>
    cases hn : energy (negative_trial dp L (positive_trial X dp R L s.team)).genotype_candidate
        (run_id dp b) with
    | nan => simp [replace_nan, hf, hn, FloatEnergy.lt]
    | num v => simp [replace_nan, hf, hn, FloatEnergy.lt]

/-- The value stored by an accepted trial is the value the NaN-free evaluator returns. -/
theorem replace_nan_value (X : Externals) (energy : (Nat → ℚ) → Nat → FloatEnergy)
    (s : TeamNan) (p : Nat → ℚ) (r : Nat) (h : (energy p r).lt s.offspring_energy) :
    (energy p r).value = (replace_nan X energy s).gpu_calc_energy p r
    ∧ (energy p r).is_nan = false ∧ s.energy_is_nan = false := by
  unfold TeamNan.offspring_energy at h
  cases hf : s.energy_is_nan with
  | true =>
    rw [hf] at h
    exact absurd h (not_lt_nan _)
  | false =>
    cases he : energy p r with
    | nan =>
      rw [he] at h
      exact absurd h (nan_not_lt _)
    | num v => simp [replace_nan, hf, he, FloatEnergy.value, FloatEnergy.is_nan]

/-- A pass with energies that may be NaN is, on the team variables, the pass with the
NaN-free evaluator `replace_nan`. -/
theorem iteration_nan_eq (K : Consts) (X : Externals)
    (energy : (Nat → ℚ) → Nat → FloatEnergy) (dp : GpuDockparameters) (R : Draws)
    (L b : Nat) (s : TeamNan) :
    (iteration_nan K X energy dp R L b s).team
      = iteration K (replace_nan X energy s) dp R L b s.team := by
  rw [iteration_eq_adapt]
  unfold iteration_nan before_adapt
  simp only [positive_trial_replace_nan]
  by_cases h1 : (energy (positive_trial X dp R L s.team).genotype_candidate (run_id dp b)).lt
      s.offspring_energy
  · rw [if_pos h1, if_pos ((replace_nan_positive_accepted X energy dp R L b s).mpr h1)]
    try simp only
    rw [(replace_nan_value X energy s _ _ h1).1]
    rfl
  · have q1 : ¬ positive_accepted (replace_nan X energy s) dp R L b s.team :=
      fun h => h1 ((replace_nan_positive_accepted X energy dp R L b s).mp h)
    rw [if_neg h1, if_neg q1]
    try simp only
    by_cases h2 : (energy (negative_trial dp L
        (positive_trial X dp R L s.team)).genotype_candidate (run_id dp b)).lt s.offspring_energy
    · rw [if_pos h2, if_pos ((replace_nan_negative_accepted X energy dp R L b s).mpr h2)]
      try simp only
      rw [(replace_nan_value X energy s _ _ h2).1]
      rfl
    · have q2 : ¬ negative_accepted (replace_nan X energy s) dp R L b s.team :=
        fun h => h2 ((replace_nan_negative_accepted X energy dp R L b s).mp h)
      rw [if_neg h2, if_neg q2]

/-- The NaN flag of `offspring_energy` is never changed by a pass: an accepted energy is a
number, stored over a number. -/
theorem iteration_nan_flag (K : Consts) (X : Externals)
    (energy : (Nat → ℚ) → Nat → FloatEnergy) (dp : GpuDockparameters) (R : Draws)
    (L b : Nat) (s : TeamNan) :
    (iteration_nan K X energy dp R L b s).energy_is_nan = s.energy_is_nan := by
  unfold iteration_nan
  simp only
  split_ifs with h1 h2
  · try simp only
    rw [(replace_nan_value X energy s _ _ h1).2.1, (replace_nan_value X energy s _ _ h1).2.2]
  · try simp only
    rw [(replace_nan_value X energy s _ _ h2).2.1, (replace_nan_value X energy s _ _ h2).2.2]
  · rfl

/-- With an evaluator that never returns NaN and a stored energy that is a number, the two
readings of the loop body agree. -/
theorem iteration_nan_num (K : Consts) (X : Externals) (dp : GpuDockparameters) (R : Draws)
    (L b : Nat) (t : Team) :
    (iteration_nan K X (fun p r => FloatEnergy.num (X.gpu_calc_energy p r)) dp R L b
        ⟨t, false⟩).team
      = iteration K X dp R L b t := by
  rw [iteration_nan_eq]
  rfl

/-- A pass in which neither trial energy compares below the stored energy is a double
failure. -/
theorem iteration_nan_double_failure (K : Consts) (X : Externals)
    (energy : (Nat → ℚ) → Nat → FloatEnergy) (dp : GpuDockparameters) (R : Draws)
    (L b : Nat) (hL : 1 ≤ L) (s : TeamNan) (g : Nat) (hg : g < dp.num_of_genes)
    (h1 : ¬ (energy (positive_trial X dp R L s.team).genotype_candidate (run_id dp b)).lt
      s.offspring_energy)
    (h2 : ¬ (energy (negative_trial dp L (positive_trial X dp R L s.team)).genotype_candidate
      (run_id dp b)).lt s.offspring_energy) :
    (iteration_nan K X energy dp R L b s).team.offspring_genotype g
        = s.team.offspring_genotype g
    ∧ (iteration_nan K X energy dp R L b s).offspring_energy = s.offspring_energy
    ∧ (iteration_nan K X energy dp R L b s).team.genotype_bias g
        = 5 / 10 * s.team.genotype_bias g
    ∧ (iteration_nan K X energy dp R L b s).team.cons_succ = 0
    ∧ (iteration_nan K X energy dp R L b s).team.scalars
        = (lane0_adapt K dp
            (lane0_failure (count_evaluation (count_evaluation s.team)))).scalars := by
  have q1 : ¬ positive_accepted (replace_nan X energy s) dp R L b s.team :=
    fun h => h1 ((replace_nan_positive_accepted X energy dp R L b s).mp h)
  have q2 : ¬ negative_accepted (replace_nan X energy s) dp R L b s.team :=
    fun h => h2 ((replace_nan_negative_accepted X energy dp R L b s).mp h)
  have hno : ¬ (positive_accepted (replace_nan X energy s) dp R L b s.team
      ∨ negative_accepted (replace_nan X energy s) dp R L b s.team) := by
    rintro (hx | hx)
    · exact q1 hx
    · exact q2 hx
  obtain ⟨k1, k2⟩ := iteration_reject_keeps K (replace_nan X energy s) dp R L b hL s.team q1 q2
  have hi := iteration_gene K (replace_nan X energy s) dp R L b hL s.team g hg
  rw [if_neg q1, if_neg q2] at hi
  have hs := iteration_scalars K (replace_nan X energy s) dp R L b s.team
  rw [if_neg q1, if_neg q2] at hs
  have hc := (iteration_streaks K (replace_nan X energy s) dp R L b s.team).2.1
  rw [if_neg hno] at hc
  have hfl := iteration_nan_flag K X energy dp R L b s
  have hen : (iteration_nan K X energy dp R L b s).offspring_energy = s.offspring_energy := by
    unfold TeamNan.offspring_energy
    rw [hfl, iteration_nan_eq, k2]
  rw [iteration_nan_eq]
  exact ⟨k1 g hg, hen, (gene_eq hi).2.2.1, hc, hs⟩

/-- C15. NaN trials are rejected (at least one lane), for every gene `g < num_of_genes` and
whether the stored `offspring_energy` is a number or NaN: a positive trial whose energy is NaN
is not accepted, the pass goes on to the negative trial with `offspring_genotype`,
`offspring_energy` and `cons_succ` as they were, and both evaluator calls are counted; a
negative trial whose energy is NaN, after a rejected positive trial, is not accepted either,
and the pass ends as a double failure: offspring genotype and energy unchanged, bias halved,
`cons_succ` zero and all scalars those of the failure bookkeeping; in particular a pass in
which both trial energies are NaN is a double failure. -/
theorem C15_nan_trials_rejected (K : Consts) (X : Externals)
    (energy : (Nat → ℚ) → Nat → FloatEnergy) (dp : GpuDockparameters) (R : Draws)
    (L b : Nat) (s : TeamNan) (g : Nat) (hL : 1 ≤ L) (hg : g < dp.num_of_genes) :
    (energy (positive_trial X dp R L s.team).genotype_candidate (run_id dp b)
        = FloatEnergy.nan →
      ¬ (energy (positive_trial X dp R L s.team).genotype_candidate (run_id dp b)).lt
          s.offspring_energy
      ∧ (iteration_nan K X energy dp R L b s).team
          = lane0_adapt K dp
              (if (energy (negative_trial dp L
                    (positive_trial X dp R L s.team)).genotype_candidate
                    (run_id dp b)).lt s.offspring_energy then
                lane0_success
                  (energy (negative_trial dp L
                    (positive_trial X dp R L s.team)).genotype_candidate (run_id dp b)).value
                  (perGene L dp.num_of_genes commit_neg_body
                    (negative_trial dp L (positive_trial X dp R L s.team)))
              else
                lane0_failure
                  (perGene L dp.num_of_genes decay_body
                    (negative_trial dp L (positive_trial X dp R L s.team))))
      ∧ (negative_trial dp L (positive_trial X dp R L s.team)).offspring_genotype g
          = s.team.offspring_genotype g
      ∧ (negative_trial dp L (positive_trial X dp R L s.team)).offspring_energy
          = s.team.offspring_energy
      ∧ (negative_trial dp L (positive_trial X dp R L s.team)).cons_succ = s.team.cons_succ
      ∧ (negative_trial dp L (positive_trial X dp R L s.team)).energy_calls
          = s.team.energy_calls + 2)
    ∧ (¬ (energy (positive_trial X dp R L s.team).genotype_candidate (run_id dp b)).lt
          s.offspring_energy →
      energy (negative_trial dp L (positive_trial X dp R L s.team)).genotype_candidate
          (run_id dp b) = FloatEnergy.nan →
      (iteration_nan K X energy dp R L b s).team.offspring_genotype g
          = s.team.offspring_genotype g
      ∧ (iteration_nan K X energy dp R L b s).offspring_energy = s.offspring_energy
      ∧ (iteration_nan K X energy dp R L b s).team.genotype_bias g
          = 5 / 10 * s.team.genotype_bias g
      ∧ (iteration_nan K X energy dp R L b s).team.cons_succ = 0
      ∧ (iteration_nan K X energy dp R L b s).team.scalars
          = (lane0_adapt K dp
              (lane0_failure (count_evaluation (count_evaluation s.team)))).scalars)
    ∧ (energy (positive_trial X dp R L s.team).genotype_candidate (run_id dp b)
        = FloatEnergy.nan →
      energy (negative_trial dp L (positive_trial X dp R L s.team)).genotype_candidate
          (run_id dp b) = FloatEnergy.nan →
      (iteration_nan K X energy dp R L b s).team.offspring_genotype g
          = s.team.offspring_genotype g
      ∧ (iteration_nan K X energy dp R L b s).offspring_energy = s.offspring_energy
      ∧ (iteration_nan K X energy dp R L b s).team.genotype_bias g
          = 5 / 10 * s.team.genotype_bias g
      ∧ (iteration_nan K X energy dp R L b s).team.cons_succ = 0
      ∧ (iteration_nan K X energy dp R L b s).team.scalars
          = (lane0_adapt K dp
              (lane0_failure (count_evaluation (count_evaluation s.team)))).scalars) := by
  have hp := scalars_eq (positive_trial_scalars X dp R L s.team)
  have hn := scalars_eq (negative_trial_scalars dp L (positive_trial X dp R L s.team))
  refine ⟨?_, ?_, ?_⟩
  · intro hpos
    refine ⟨?_, ?_, ?_, ?_, ?_, ?_⟩
    · rw [hpos]
      exact nan_not_lt _
    · unfold iteration_nan
      simp only [hpos]
      rw [if_neg (nan_not_lt _)]
      split_ifs <;> rfl
    · have hg2 := negative_trial_gene X dp R L hL s.team g
      rw [if_pos hg] at hg2
      exact (gene_eq hg2).2.2.2
    · rw [hn.2.2.2.2.2.1]
      exact hp.2.2.2.2.2.1
    · rw [hn.2.1]
      simp only [count_evaluation]
      rw [hp.2.1]
      rfl
    · rw [hn.2.2.2.2.2.2.2]
      simp only [count_evaluation]
      rw [hp.2.2.2.2.2.2.2]
      rfl
  · intro h1 hneg
    apply iteration_nan_double_failure K X energy dp R L b hL s g hg h1
    rw [hneg]
    exact nan_not_lt _
  · intro hpos hneg
    apply iteration_nan_double_failure K X energy dp R L b hL s g hg
    · rw [hpos]
      exact nan_not_lt _
    · rw [hneg]
      exact nan_not_lt _

/-- Witness for C15: one lane, seven genes, an evaluator that always returns NaN and a stored
energy 3; the pass leaves `offspring_energy` as it was. -/
theorem C15_nan_trials_rejected_witness :
    (iteration_nan ⟨64, 2, 1 / 2⟩ ⟨fun _ _ => 0, sqrt_exact, map_angle_spec⟩
        (fun _ _ => FloatEnergy.nan)
        ⟨10, 3, 7, 5, 80, 1 / 100, 1, 1, 4, 50⟩ ⟨0, fun _ _ => 3 / 4, fun _ _ => 0⟩ 1 1
        ⟨⟨fun _ => 0, fun _ => 0, fun _ => 0, 1, 0, 0, 0, 0, fun _ => 0, 3, 1, 0⟩,
          false⟩).offspring_energy
      = FloatEnergy.num 3 :=
  ((C15_nan_trials_rejected ⟨64, 2, 1 / 2⟩ ⟨fun _ _ => 0, sqrt_exact, map_angle_spec⟩
      (fun _ _ => FloatEnergy.nan)
      ⟨10, 3, 7, 5, 80, 1 / 100, 1, 1, 4, 50⟩ ⟨0, fun _ _ => 3 / 4, fun _ _ => 0⟩ 1 1
      ⟨⟨fun _ => 0, fun _ => 0, fun _ => 0, 1, 0, 0, 0, 0, fun _ => 0, 3, 1, 0⟩, false⟩ 0
      (by decide) (by decide)).2.2 rfl rfl).2.1

end Kernel3

end MiniMDock
